import Mathlib

/-!
# Garnet `RoutingUnit`: a shallow embedding and its verified properties

The development embeds `src/mem/ruby/network/garnet/RoutingUnit.cc` function by
function.  C++ `int` values are modelled by `Int` (division and remainder are the
truncating `Int.tdiv` / `Int.tmod` of C++), `std::vector` by `List`, `std::map`
by an association list whose `operator[]` default-inserts, and every way the
process can stop without returning (`fatal`, `assert`, `panic`, an
out-of-bounds read) by an `Abort` value in `Except`.
-/

namespace Garnet

/-! ## Collaborators declared outside `RoutingUnit.cc` -/

/-- Modelled from the spec: the destination-set class `NetDest` is declared
outside `RoutingUnit.cc`; the routing unit only asks whether two destination
sets intersect. -/
class NetDest (D : Type) where
  /-- The call `a.intersectionIsNotEmpty(b)`. -/
  intersectionIsNotEmpty : D → D → Bool

/-- A concrete destination set used for evaluating the model: the list of node
ids it contains; two sets intersect when they share a node id. -/
instance instNetDestList : NetDest (List Nat) where
  intersectionIsNotEmpty a b := a.any (fun x => b.contains x)

/-- The type `PortDirection` is `std::string`. -/
abbrev PortDirection := String

/-- The ways a call can stop without returning a value. -/
inductive Abort where
  /-- The call `fatal("Fatal Error:: No Route exists from this Router.")`. -/
  | noRoute
  /-- A failed `assert(...)`. -/
  | assertion
  /-- The call `panic("x_hops == y_hops == 0")`. -/
  | panicked
  /-- An out-of-bounds `operator[]` read of a `std::vector` (undefined behaviour). -/
  | outOfBounds
  /-- The exception `std::out_of_range` thrown by `std::vector::at`. -/
  | outOfRange
  /-- An integer division or remainder by zero (undefined behaviour). -/
  | divideByZero
  /-- A loop that has not finished when the supplied random draws, or the hop
  budget of a walk, run out. -/
  | diverges
  deriving DecidableEq, Repr

deriving instance DecidableEq for Except

/-- The enumeration `RoutingAlgorithm`; `OTHER_` stands for every value of the
configuration integer that names none of the six algorithms. -/
inductive RoutingAlgorithm where
  | TABLE_
  | XY_
  | CUSTOM_
  | DRAGONFLY_MINIMAL_
  | UGAL_
  | VAL_
  | OTHER_ (code : Int)
  deriving DecidableEq, Repr

/-- The record `RouteInfo` carried by a flit (the fields this file reads). -/
structure RouteInfo (D : Type) where
  vnet : Int
  net_dest : D
  src_router : Int
  dest_router : Int
  intermediate_group : Int
  deriving DecidableEq, Repr

/-- What the routing unit asks of `m_router->get_net_ptr()`. -/
structure GarnetNetwork where
  getRoutingAlgorithm : RoutingAlgorithm
  getNumRows : Int
  getNumCols : Int
  getNumRouters : Int
  getNumGroups : Int
  getRoutersPerGroup : Int
  getGlobalChannelsPerRouter : Int
  /-- The call `isVNetOrdered(vnet)`. -/
  isVNetOrdered : Int → Bool
  /-- The call `getRouterPtr(r)->getRoutingUnit()->getPortIdx(label)`. -/
  getPortIdx : Int → PortDirection → Int
  /-- The call `getRouterPtr(r)->getInputUnit(p)->get_link()->getVcLoad()`. -/
  getVcLoad : Int → Int → List Nat

/-- What the routing unit asks of `m_router`. -/
structure Router where
  get_id : Int
  get_net_ptr : GarnetNetwork

/-- The member variables of `RoutingUnit` (declared in `RoutingUnit.hh`): the two
tables are `std::vector`s and the four port maps are `std::map`s. -/
structure RoutingUnit (D : Type) where
  m_router : Router
  m_routing_table : List (List D)
  m_weight_table : List Int
  m_inports_dirn2idx : List (PortDirection × Int)
  m_inports_idx2dirn : List (Int × PortDirection)
  m_outports_dirn2idx : List (PortDirection × Int)
  m_outports_idx2dirn : List (Int × PortDirection)

/-! ## `std::map` as an association list -/

/-- Lookup of a key in a `std::map`. -/
def mapFind {K V : Type} [DecidableEq K] (m : List (K × V)) (k : K) : Option V :=
  (m.find? (fun p => decide (p.1 = k))).map Prod.snd

/-- The assignment `m[k] = v`: replace the value of an existing key, or add the key. -/
def mapAssign {K V : Type} [DecidableEq K] : List (K × V) → K → V → List (K × V)
  | [], k, v => [(k, v)]
  | (k', v') :: rest, k, v =>
    if k' = k then (k, v) :: rest else (k', v') :: mapAssign rest k v

/-- The read `m[k]` of a `std::map<PortDirection, int>`, as in the final
statement `return m_outports_dirn2idx[outport_dirn];` of every topology
algorithm.  It is the same `operator[]` through which `addOutDirection` adds
keys (`m_outports_dirn2idx[outport_dirn] = outport_idx`): an absent key is
first inserted, with the value-initialised `int` 0, which is then returned. -/
def mapIndex (m : List (PortDirection × Int)) (k : PortDirection) :
    Int × List (PortDirection × Int) :=
  match mapFind m k with
  | some v => (v, m)
  | none => (0, mapAssign m k 0)

/-! ## Construction-time operations -/

/-- The constructor `RoutingUnit::RoutingUnit`. -/
def RoutingUnit.new (D : Type) (router : Router) : RoutingUnit D :=
  { m_router := router, m_routing_table := [], m_weight_table := [],
    m_inports_dirn2idx := [], m_inports_idx2dirn := [],
    m_outports_dirn2idx := [], m_outports_idx2dirn := [] }

/-- The call `m_routing_table.resize(n)` when `n` exceeds the current size. -/
def resizeTable {D : Type} (t : List (List D)) (n : Nat) : List (List D) :=
  t ++ List.replicate (n - t.length) []

/-- The loop of `addRoute`: `m_routing_table[v].push_back(routing_table_entry[v])`
for `v` from the given index on. -/
def addRouteLoop {D : Type} : List (List D) → List D → List (List D)
  | row :: rows, e :: es => (row ++ [e]) :: addRouteLoop rows es
  | rows, [] => rows
  | [], _ :: _ => []

/-- The method `RoutingUnit::addRoute`. -/
def addRoute {D : Type} (ru : RoutingUnit D) (routing_table_entry : List D) :
    RoutingUnit D :=
  let table :=
    if routing_table_entry.length > ru.m_routing_table.length then
      resizeTable ru.m_routing_table routing_table_entry.length
    else ru.m_routing_table
  { ru with m_routing_table := addRouteLoop table routing_table_entry }

/-- The method `RoutingUnit::addWeight`. -/
def addWeight {D : Type} (ru : RoutingUnit D) (link_weight : Int) : RoutingUnit D :=
  { ru with m_weight_table := ru.m_weight_table ++ [link_weight] }

/-- The method `RoutingUnit::addInDirection`. -/
def addInDirection {D : Type} (ru : RoutingUnit D) (inport_dirn : PortDirection)
    (inport_idx : Int) : RoutingUnit D :=
  { ru with
    m_inports_dirn2idx := mapAssign ru.m_inports_dirn2idx inport_dirn inport_idx
    m_inports_idx2dirn := mapAssign ru.m_inports_idx2dirn inport_idx inport_dirn }

/-- The method `RoutingUnit::addOutDirection`. -/
def addOutDirection {D : Type} (ru : RoutingUnit D) (outport_dirn : PortDirection)
    (outport_idx : Int) : RoutingUnit D :=
  { ru with
    m_outports_dirn2idx := mapAssign ru.m_outports_dirn2idx outport_dirn outport_idx
    m_outports_idx2dirn := mapAssign ru.m_outports_idx2dirn outport_idx outport_dirn }

/-! ## `lookupRoutingTable` -/

/-- First loop of `lookupRoutingTable`: the minimum weight among the candidate
output links, from link index `link` on, starting from `min_weight`. -/
def minWeightLoop {D : Type} [NetDest D] (msg_destination : D) (m_weight_table : List Int) :
    List D → Nat → Int → Except Abort Int
  | [], _, min_weight => .ok min_weight
  | entry :: rest, link, min_weight =>
    if NetDest.intersectionIsNotEmpty msg_destination entry then
      match m_weight_table[link]? with
      | none => .error Abort.outOfBounds
      | some w =>
        minWeightLoop msg_destination m_weight_table rest (link + 1)
          (if w ≤ min_weight then w else min_weight)
    else
      minWeightLoop msg_destination m_weight_table rest (link + 1) min_weight

/-- Second loop of `lookupRoutingTable`: push every intersecting link whose
weight equals `min_weight` onto `output_link_candidates`. -/
def collectLoop {D : Type} [NetDest D] (msg_destination : D) (m_weight_table : List Int)
    (min_weight : Int) : List D → Nat → List Int → Except Abort (List Int)
  | [], _, output_link_candidates => .ok output_link_candidates
  | entry :: rest, link, output_link_candidates =>
    if NetDest.intersectionIsNotEmpty msg_destination entry then
      match m_weight_table[link]? with
      | none => .error Abort.outOfBounds
      | some w =>
        collectLoop msg_destination m_weight_table min_weight rest (link + 1)
          (if w = min_weight then output_link_candidates ++ [(link : Int)]
           else output_link_candidates)
    else
      collectLoop msg_destination m_weight_table min_weight rest (link + 1)
        output_link_candidates

/-- The method `RoutingUnit::lookupRoutingTable`.  `INFINITE_` is the macro of
that name (declared outside this file) and `rand` the value `rand()` returns
when it is called. -/
def lookupRoutingTable {D : Type} [NetDest D] (INFINITE_ : Int) (ru : RoutingUnit D)
    (rand : Nat) (vnet : Int) (msg_destination : D) : Except Abort Int :=
  if vnet < 0 then .error Abort.outOfBounds else
  match ru.m_routing_table[vnet.toNat]? with
  | none => .error Abort.outOfBounds
  | some entries =>
    match minWeightLoop msg_destination ru.m_weight_table entries 0 INFINITE_ with
    | .error a => .error a
    | .ok min_weight =>
      match collectLoop msg_destination ru.m_weight_table min_weight entries 0 [] with
      | .error a => .error a
      | .ok output_link_candidates =>
        if output_link_candidates.length = 0 then .error Abort.noRoute else
        let num_candidates := output_link_candidates.length
        let candidate :=
          if !(ru.m_router.get_net_ptr.isVNetOrdered vnet) then rand % num_candidates else 0
        match output_link_candidates[candidate]? with
        | none => .error Abort.outOfRange
        | some output_link => .ok output_link

/-! ## The topology algorithms

Each algorithm is split in two: a function computing the outbound direction
label `outport_dirn` (or the abort met on the way), and the method itself, which
ends with the read `m_outports_dirn2idx[outport_dirn]`.  Assertions are modelled
as enabled. -/

/-- What a routing call leaves behind when it returns: the port index, the
routing unit (its maps may have grown) and the route stored in the flit. -/
structure Routed (D : Type) where
  outport : Int
  unit : RoutingUnit D
  flit_route : RouteInfo D

/-- The final statement `return m_outports_dirn2idx[outport_dirn];`. -/
def returnOutport {D : Type} (ru : RoutingUnit D) (t_flit : RouteInfo D)
    (outport_dirn : PortDirection) : Routed D :=
  let r := mapIndex ru.m_outports_dirn2idx outport_dirn
  { outport := r.1, unit := { ru with m_outports_dirn2idx := r.2 }, flit_route := t_flit }

/-- The direction label computed by `outportComputeXY`. -/
def outportDirnXY {D : Type} (ru : RoutingUnit D) (route : RouteInfo D)
    (inport_dirn : PortDirection) : Except Abort PortDirection :=
  let num_rows := ru.m_router.get_net_ptr.getNumRows
  let num_cols := ru.m_router.get_net_ptr.getNumCols
  if ¬ (num_rows > 0 ∧ num_cols > 0) then .error Abort.assertion else
  let my_id := ru.m_router.get_id
  let my_x := my_id.tmod num_cols
  let my_y := my_id.tdiv num_cols
  let dest_id := route.dest_router
  let dest_x := dest_id.tmod num_cols
  let dest_y := dest_id.tdiv num_cols
  let x_hops : Int := (dest_x - my_x).natAbs
  let y_hops : Int := (dest_y - my_y).natAbs
  let x_dirn : Bool := decide (dest_x ≥ my_x)
  let y_dirn : Bool := decide (dest_y ≥ my_y)
  if x_hops = 0 ∧ y_hops = 0 then .error Abort.assertion else
  if x_hops > 0 then
    if x_dirn then
      if ¬ (inport_dirn = "Local" ∨ inport_dirn = "West") then .error Abort.assertion
      else .ok "East"
    else
      if ¬ (inport_dirn = "Local" ∨ inport_dirn = "East") then .error Abort.assertion
      else .ok "West"
  else if y_hops > 0 then
    if y_dirn then
      if ¬ (inport_dirn ≠ "North") then .error Abort.assertion else .ok "North"
    else
      if ¬ (inport_dirn ≠ "South") then .error Abort.assertion else .ok "South"
  else .error Abort.panicked

/-- The method `RoutingUnit::outportComputeXY`. -/
def outportComputeXY {D : Type} (ru : RoutingUnit D) (route : RouteInfo D) (_inport : Int)
    (inport_dirn : PortDirection) (t_flit : RouteInfo D) : Except Abort (Routed D) :=
  match outportDirnXY ru route inport_dirn with
  | .error a => .error a
  | .ok outport_dirn => .ok (returnOutport ru t_flit outport_dirn)

/-- The direction label computed by `outportComputeCustom` (ring routing). -/
def outportDirnCustom {D : Type} (ru : RoutingUnit D) (route : RouteInfo D)
    (inport_dirn : PortDirection) : Except Abort PortDirection :=
  let num_routers := ru.m_router.get_net_ptr.getNumRouters
  if ¬ (num_routers > 0) then .error Abort.assertion else
  let my_id := ru.m_router.get_id
  let dest_id := route.dest_router
  let dirn : Bool :=
    !(decide ((dest_id - my_id + num_routers).tmod num_routers > num_routers.tdiv 2))
  let hops : Int :=
    if dirn then (dest_id - my_id + num_routers).tmod num_routers
    else (my_id - dest_id + num_routers).tmod num_routers
  if ¬ (hops > 0) then .error Abort.assertion else
  if dirn then
    if ¬ (inport_dirn = "Local" ∨ inport_dirn = "West") then .error Abort.assertion
    else .ok "East"
  else
    if ¬ (inport_dirn = "Local" ∨ inport_dirn = "East") then .error Abort.assertion
    else .ok "West"

/-- The method `RoutingUnit::outportComputeCustom`. -/
def outportComputeCustom {D : Type} (ru : RoutingUnit D) (route : RouteInfo D)
    (_inport : Int) (inport_dirn : PortDirection) (t_flit : RouteInfo D) :
    Except Abort (Routed D) :=
  match outportDirnCustom ru route inport_dirn with
  | .error a => .error a
  | .ok outport_dirn => .ok (returnOutport ru t_flit outport_dirn)

/-- The direction label computed by `outportComputeDragonflyMinimal`. -/
def outportDirnDragonflyMinimal {D : Type} (ru : RoutingUnit D) (route : RouteInfo D)
    (inport_dirn : PortDirection) : Except Abort PortDirection :=
  let num_routers := ru.m_router.get_net_ptr.getNumRouters
  if ¬ (num_routers > 0) then .error Abort.assertion else
  let num_groups := ru.m_router.get_net_ptr.getNumGroups
  let routers_per_group := ru.m_router.get_net_ptr.getRoutersPerGroup
  let global_channels_per_router := ru.m_router.get_net_ptr.getGlobalChannelsPerRouter
  let my_id := ru.m_router.get_id
  let dest_id := route.dest_router
  if ¬ (my_id ≠ dest_id) then .error Abort.assertion else
  if routers_per_group = 0 then .error Abort.divideByZero else
  let group_cur := my_id.tdiv routers_per_group
  let group_dst := dest_id.tdiv routers_per_group
  if group_cur ≠ group_dst then
    let group_gap :=
      if group_dst - group_cur > 0 then group_dst - group_cur - 1
      else group_dst - group_cur - 1 + num_groups
    if global_channels_per_router = 0 then .error Abort.divideByZero else
    let router_in_group_cur := group_gap.tdiv global_channels_per_router
    let router_out := group_cur * routers_per_group + router_in_group_cur
    if my_id ≠ router_out then
      if ¬ (inport_dirn = "Local") then .error Abort.assertion else
      let outport_idx :=
        if router_out - my_id > 0 then router_out - my_id - 1
        else router_out - my_id - 1 + routers_per_group
      .ok ("Local" ++ toString outport_idx)
    else
      if ¬ (inport_dirn = "Local" ∨ inport_dirn.take 5 = "Local") then
        .error Abort.assertion
      else
      let outport_idx := group_gap - router_in_group_cur * global_channels_per_router
      .ok ("Global" ++ toString outport_idx)
  else
    if ¬ (inport_dirn = "Local" ∨ inport_dirn.take 6 = "Global") then .error Abort.assertion
    else
    let outport_idx :=
      if dest_id - my_id > 0 then dest_id - my_id - 1
      else dest_id - my_id - 1 + routers_per_group
    .ok ("Local" ++ toString outport_idx)

/-- The method `RoutingUnit::outportComputeDragonflyMinimal`. -/
def outportComputeDragonflyMinimal {D : Type} (ru : RoutingUnit D) (route : RouteInfo D)
    (_inport : Int) (inport_dirn : PortDirection) (t_flit : RouteInfo D) :
    Except Abort (Routed D) :=
  match outportDirnDragonflyMinimal ru route inport_dirn with
  | .error a => .error a
  | .ok outport_dirn => .ok (returnOutport ru t_flit outport_dirn)

/-! ## The adaptive dragonfly algorithms -/

/-- The loop `do { group_mid = random_mt.random<unsigned>(0, num_groups - 1); }
while (group_mid == group_cur || group_mid == group_dst);` run on the successive
values the random source returns: the first draw that is neither group. -/
def pickGroupMid (group_cur group_dst : Int) : List Nat → Except Abort Int
  | [] => .error Abort.diverges
  | draw :: rest =>
    if (draw : Int) = group_cur ∨ (draw : Int) = group_dst then
      pickGroupMid group_cur group_dst rest
    else .ok (draw : Int)

/-- The call `std::accumulate(v.begin(), v.end(), 0u)`: a sum in `unsigned int`. -/
def accumulate (v : List Nat) : Nat :=
  v.foldl (fun acc x => (acc + x) % 2 ^ 32) 0

/-- Conversion of an `unsigned int` to `int`. -/
def toInt (u : Nat) : Int :=
  if u % 2 ^ 32 < 2 ^ 31 then ((u % 2 ^ 32 : Nat) : Int)
  else ((u % 2 ^ 32 : Nat) : Int) - 2 ^ 32

/-- The product `a * b` of two `int`s as the machine computes it: the low 32 bits
of the product, read in two's complement.  It is the exact product whenever that
lies in `[-2^31, 2^31)`. -/
def mulInt (a b : Int) : Int :=
  (a * b + 2 ^ 31) % 2 ^ 32 - 2 ^ 31

/-- The local variables the detour algorithms carry from one block to the next:
`group_mid`, the by-value parameter `route` and the route stored in the flit. -/
structure DetourState (D : Type) where
  group_mid : Int
  route : RouteInfo D
  t_flit : RouteInfo D

/-- The block of `outportComputeUGAL` run at the source router: draw a candidate
intermediate group, sample the two loads and choose between MIN and VAL.  The
sums are `unsigned` sums converted to `int`, and the four products of the test
are `int` products. -/
def ugalSourceBlock {D : Type} (ru : RoutingUnit D) (random_mt : List Nat)
    (group_cur group_dst : Int) (st : DetourState D) : Except Abort (DetourState D) :=
  let net := ru.m_router.get_net_ptr
  let num_groups := net.getNumGroups
  let routers_per_group := net.getRoutersPerGroup
  let global_channels_per_router := net.getGlobalChannelsPerRouter
  let my_id := ru.m_router.get_id
  match pickGroupMid group_cur group_dst random_mt with
  | .error a => .error a
  | .ok group_mid =>
    let group_gap_dst_cur :=
      if group_dst > group_cur then group_dst - group_cur - 1
      else group_dst - group_cur - 1 + num_groups
    let group_gap_mid_cur :=
      if group_mid > group_cur then group_mid - group_cur - 1
      else group_mid - group_cur - 1 + num_groups
    if global_channels_per_router = 0 then .error Abort.divideByZero else
    let router_min :=
      group_cur * routers_per_group + group_gap_dst_cur.tdiv global_channels_per_router
    let router_val1 :=
      group_cur * routers_per_group + group_gap_mid_cur.tdiv global_channels_per_router
    let inport_idx_min :=
      if my_id > router_min then my_id - router_min - 1
      else my_id - router_min + routers_per_group - 1
    let port_min_in := net.getPortIdx router_min ("Local" ++ toString inport_idx_min)
    let vc_load_min := net.getVcLoad router_min port_min_in
    let load_min : Int := toInt (accumulate vc_load_min)
    let inport_idx_val1 :=
      if my_id > router_val1 then my_id - router_val1 - 1
      else my_id - router_val1 + routers_per_group - 1
    let port_val1_in := net.getPortIdx router_val1 ("Local" ++ toString inport_idx_val1)
    let vc_load_val1 := net.getVcLoad router_val1 port_val1_in
    let load_val1 : Int := toInt (accumulate vc_load_val1)
    match vc_load_min[3]?, vc_load_val1[0]? with
    | some m3, some v0 =>
      let q_m_vc : Int := toInt m3
      let q_nm_vc : Int := toInt v0
      if (mulInt load_val1 5 < mulInt load_min 3 ∨ router_min = router_val1) ∧
          (mulInt q_nm_vc 5 < mulInt q_m_vc 3 ∨ router_min ≠ router_val1) then
        let route := { st.route with intermediate_group := group_mid }
        .ok { group_mid := group_mid, route := route, t_flit := route }
      else
        .ok { st with group_mid := -1 }
    | _, _ => .error Abort.outOfBounds

/-- The block of `outportComputeDragonflyVAL` run at the source router: draw an
intermediate group and commit to it. -/
def valSourceBlock {D : Type} (random_mt : List Nat)
    (group_cur group_dst : Int) (st : DetourState D) : Except Abort (DetourState D) :=
  match pickGroupMid group_cur group_dst random_mt with
  | .error a => .error a
  | .ok group_mid =>
    let route := { st.route with intermediate_group := group_mid }
    .ok { group_mid := group_mid, route := route, t_flit := route }

/-- The code `outportComputeUGAL` and `outportComputeDragonflyVAL` share after
their source block: clear the detour on arrival in the intermediate group, aim
at the intermediate group while a detour is pending, and compute the label.
Returns the label and the route stored in the flit. -/
def detourTail {D : Type} (ru : RoutingUnit D) (inport_dirn : PortDirection)
    (group_cur group_dst : Int) (st : DetourState D) :
    Except Abort (PortDirection × RouteInfo D) :=
  let net := ru.m_router.get_net_ptr
  let num_groups := net.getNumGroups
  let routers_per_group := net.getRoutersPerGroup
  let global_channels_per_router := net.getGlobalChannelsPerRouter
  let my_id := ru.m_router.get_id
  let dest_id := st.route.dest_router
  let st : DetourState D :=
    if st.group_mid ≠ -1 ∧ group_cur = st.group_mid then
      let route := { st.route with intermediate_group := -1 }
      { group_mid := -1, route := route, t_flit := route }
    else st
  let group_dst := if st.group_mid ≠ -1 then st.group_mid else group_dst
  if group_cur ≠ group_dst then
    let group_gap :=
      if group_dst > group_cur then group_dst - group_cur - 1
      else group_dst - group_cur - 1 + num_groups
    if global_channels_per_router = 0 then .error Abort.divideByZero else
    let router_in_group_cur := group_gap.tdiv global_channels_per_router
    let router_out := group_cur * routers_per_group + router_in_group_cur
    if my_id ≠ router_out then
      if ¬ (inport_dirn = "Local" ∨ inport_dirn.take 6 = "Global") then
        .error Abort.assertion
      else
      let outport_idx :=
        if router_out > my_id then router_out - my_id - 1
        else router_out - my_id - 1 + routers_per_group
      .ok ("Local" ++ toString outport_idx, st.t_flit)
    else
      let outport_idx := group_gap - router_in_group_cur * global_channels_per_router
      .ok ("Global" ++ toString outport_idx, st.t_flit)
  else
    if ¬ (inport_dirn = "Local" ∨ inport_dirn.take 6 = "Global") then .error Abort.assertion
    else
    let outport_idx :=
      if dest_id > my_id then dest_id - my_id - 1
      else dest_id - my_id - 1 + routers_per_group
    .ok ("Local" ++ toString outport_idx, st.t_flit)

/-- The direction label computed by `outportComputeUGAL`, with the route the
flit holds afterwards.  `random_mt` lists the values the random source returns. -/
def outportDirnUGAL {D : Type} (ru : RoutingUnit D) (random_mt : List Nat)
    (route : RouteInfo D) (inport_dirn : PortDirection) (t_flit : RouteInfo D) :
    Except Abort (PortDirection × RouteInfo D) :=
  let net := ru.m_router.get_net_ptr
  if ¬ (net.getNumRouters > 0) then .error Abort.assertion else
  let num_groups := net.getNumGroups
  let routers_per_group := net.getRoutersPerGroup
  let my_id := ru.m_router.get_id
  let group_mid := route.intermediate_group
  let dest_id := route.dest_router
  if ¬ (my_id ≠ dest_id) then .error Abort.assertion else
  if routers_per_group = 0 then .error Abort.divideByZero else
  let group_cur := my_id.tdiv routers_per_group
  let group_dst := dest_id.tdiv routers_per_group
  let st : DetourState D := { group_mid := group_mid, route := route, t_flit := t_flit }
  if num_groups > 2 ∧ group_cur ≠ group_dst ∧ my_id = route.src_router then
    match ugalSourceBlock ru random_mt group_cur group_dst st with
    | .error a => .error a
    | .ok st => detourTail ru inport_dirn group_cur group_dst st
  else detourTail ru inport_dirn group_cur group_dst st

/-- The method `RoutingUnit::outportComputeUGAL`. -/
def outportComputeUGAL {D : Type} (ru : RoutingUnit D) (random_mt : List Nat)
    (route : RouteInfo D) (_inport : Int) (inport_dirn : PortDirection)
    (t_flit : RouteInfo D) : Except Abort (Routed D) :=
  match outportDirnUGAL ru random_mt route inport_dirn t_flit with
  | .error a => .error a
  | .ok (outport_dirn, flit_route) => .ok (returnOutport ru flit_route outport_dirn)

/-- The direction label computed by `outportComputeDragonflyVAL`, with the route
the flit holds afterwards. -/
def outportDirnDragonflyVAL {D : Type} (ru : RoutingUnit D) (random_mt : List Nat)
    (route : RouteInfo D) (inport_dirn : PortDirection) (t_flit : RouteInfo D) :
    Except Abort (PortDirection × RouteInfo D) :=
  let net := ru.m_router.get_net_ptr
  if ¬ (net.getNumRouters > 0) then .error Abort.assertion else
  let num_groups := net.getNumGroups
  let routers_per_group := net.getRoutersPerGroup
  let my_id := ru.m_router.get_id
  let group_mid := route.intermediate_group
  let dest_id := route.dest_router
  if ¬ (my_id ≠ dest_id) then .error Abort.assertion else
  if routers_per_group = 0 then .error Abort.divideByZero else
  let group_cur := my_id.tdiv routers_per_group
  let group_dst := dest_id.tdiv routers_per_group
  let st : DetourState D := { group_mid := group_mid, route := route, t_flit := t_flit }
  if num_groups > 2 ∧ group_cur ≠ group_dst ∧ my_id = route.src_router then
    match valSourceBlock random_mt group_cur group_dst st with
    | .error a => .error a
    | .ok st => detourTail ru inport_dirn group_cur group_dst st
  else detourTail ru inport_dirn group_cur group_dst st

/-- The method `RoutingUnit::outportComputeDragonflyVAL`. -/
def outportComputeDragonflyVAL {D : Type} (ru : RoutingUnit D) (random_mt : List Nat)
    (route : RouteInfo D) (_inport : Int) (inport_dirn : PortDirection)
    (t_flit : RouteInfo D) : Except Abort (Routed D) :=
  match outportDirnDragonflyVAL ru random_mt route inport_dirn t_flit with
  | .error a => .error a
  | .ok (outport_dirn, flit_route) => .ok (returnOutport ru flit_route outport_dirn)

/-! ## The dispatcher -/

/-- A table lookup made on behalf of `outportCompute`: it touches neither the
routing unit nor the flit. -/
def tableOutport {D : Type} [NetDest D] (INFINITE_ : Int) (ru : RoutingUnit D) (rand : Nat)
    (route : RouteInfo D) (t_flit : RouteInfo D) : Except Abort (Routed D) :=
  match lookupRoutingTable INFINITE_ ru rand route.vnet route.net_dest with
  | .error a => .error a
  | .ok outport => .ok { outport := outport, unit := ru, flit_route := t_flit }

/-- The method `RoutingUnit::outportCompute`.  `rand` is what `rand()` returns
and `random_mt` lists what `random_mt.random` returns, should they be called. -/
def outportCompute {D : Type} [NetDest D] (INFINITE_ : Int) (ru : RoutingUnit D)
    (rand : Nat) (random_mt : List Nat) (route : RouteInfo D) (inport : Int)
    (inport_dirn : PortDirection) (t_flit : RouteInfo D) : Except Abort (Routed D) :=
  if route.dest_router = ru.m_router.get_id then
    tableOutport INFINITE_ ru rand route t_flit
  else
    let routed :=
      match ru.m_router.get_net_ptr.getRoutingAlgorithm with
      | RoutingAlgorithm.TABLE_ => tableOutport INFINITE_ ru rand route t_flit
      | RoutingAlgorithm.XY_ => outportComputeXY ru route inport inport_dirn t_flit
      | RoutingAlgorithm.CUSTOM_ => outportComputeCustom ru route inport inport_dirn t_flit
      | RoutingAlgorithm.DRAGONFLY_MINIMAL_ =>
        outportComputeDragonflyMinimal ru route inport inport_dirn t_flit
      | RoutingAlgorithm.UGAL_ =>
        outportComputeUGAL ru random_mt route inport inport_dirn t_flit
      | RoutingAlgorithm.VAL_ =>
        outportComputeDragonflyVAL ru random_mt route inport inport_dirn t_flit
      | RoutingAlgorithm.OTHER_ _ => tableOutport INFINITE_ ru rand route t_flit
    match routed with
    | .error a => .error a
    | .ok r => if ¬ (r.outport ≠ -1) then .error Abort.assertion else .ok r

/-! ## Specification-side definitions for the table lookup -/

/-- The links the second loop collects, in terms of the enumerated entries. -/
def collected {D : Type} [NetDest D] (msg_destination : D) (m_weight_table : List Int)
    (min_weight : Int) (entries : List D) (link : Nat) : List Int :=
  ((entries.enumFrom link).filter (fun p =>
      NetDest.intersectionIsNotEmpty msg_destination p.2 &&
        decide (m_weight_table[p.1]? = some min_weight))).map (fun p => (p.1 : Int))

/-- Follows the spec's words: the enumerated entry `p` intersects the
destination set and has minimum weight among all intersecting entries. -/
def isMinWeightCandidate {D : Type} [NetDest D] (msg_destination : D)
    (m_weight_table : List Int) (entries : List D) (p : Nat × D) : Bool :=
  NetDest.intersectionIsNotEmpty msg_destination p.2 &&
    match m_weight_table[p.1]? with
    | none => false
    | some w =>
      entries.enum.all (fun q =>
        !NetDest.intersectionIsNotEmpty msg_destination q.2 ||
          match m_weight_table[q.1]? with
          | none => false
          | some w' => decide (w ≤ w'))

/-- Follows the spec's words: the tied candidates, that is the links whose entry
intersects the destination set with minimum weight, by increasing link index. -/
def tiedCandidates {D : Type} [NetDest D] (msg_destination : D)
    (m_weight_table : List Int) (entries : List D) : List Int :=
  (entries.enum.filter (isMinWeightCandidate msg_destination m_weight_table entries)).map
    (fun p => (p.1 : Int))

/-- Follows the spec's words: `L` is the smallest link index among the
intersecting entries of minimum weight. -/
def IsFirstMinWeightLink {D : Type} [NetDest D] (msg_destination : D)
    (m_weight_table : List Int) (entries : List D) (L : Int) : Prop :=
  ∃ (l : Nat) (e : D) (w : Int), L = (l : Int) ∧ entries[l]? = some e ∧
    NetDest.intersectionIsNotEmpty msg_destination e = true ∧
    m_weight_table[l]? = some w ∧
    (∀ (l' : Nat) (e' : D), entries[l']? = some e' →
      NetDest.intersectionIsNotEmpty msg_destination e' = true →
      ∃ w', m_weight_table[l']? = some w' ∧ w ≤ w') ∧
    (∀ (l' : Nat) (e' : D), entries[l']? = some e' →
      NetDest.intersectionIsNotEmpty msg_destination e' = true →
      m_weight_table[l']? = some w → l ≤ l')

/-! ## Hop-by-hop models of the mesh and of the ring -/

/-- Follows the spec's words: a flit that leaves through a direction enters the
next router on the opposite-named port. -/
def oppositeDirn (d : PortDirection) : PortDirection :=
  if d = "East" then "West"
  else if d = "West" then "East"
  else if d = "North" then "South"
  else if d = "South" then "North"
  else d

/-- Follows the spec's words: on a row-major mesh of width `W`, East, West,
North and South lead from node `id` to `id + 1`, `id - 1`, `id + W` and
`id - W`. -/
def meshNext (W : Int) (id : Int) (d : PortDirection) : Int :=
  if d = "East" then id + 1
  else if d = "West" then id - 1
  else if d = "North" then id + W
  else if d = "South" then id - W
  else id

/-- Follows the spec's words: on a ring of `N` routers, East leads from `id`
to `(id + 1) mod N` and West to `(id - 1) mod N`. -/
def ringNext (N : Int) (id : Int) (d : PortDirection) : Int :=
  if d = "East" then (id + 1) % N
  else if d = "West" then (id - 1) % N
  else id

/-- Iterate `outportComputeXY` hop by hop: at router `cur`, entered on
`inport_dirn`, ask the routing unit of `cur` for the outbound direction, move to
the neighbour and continue until the destination router is reached.  Returns the
outbound directions taken, or the abort met on the way; `fuel` bounds the
number of hops. -/
def walkXY {D : Type} (units : Int → RoutingUnit D) (route : RouteInfo D) :
    Nat → Int → PortDirection → Except Abort (List PortDirection)
  | fuel, cur, inport_dirn =>
    if cur = route.dest_router then .ok []
    else
      match fuel with
      | 0 => .error Abort.diverges
      | fuel + 1 =>
        match outportDirnXY (units cur) route inport_dirn with
        | .error a => .error a
        | .ok d =>
          match walkXY units route fuel
              (meshNext (units cur).m_router.get_net_ptr.getNumCols cur d) (oppositeDirn d) with
          | .error a => .error a
          | .ok ds => .ok (d :: ds)

/-- Iterate `outportComputeCustom` hop by hop around the ring, as `walkXY` does
on the mesh. -/
def walkRing {D : Type} (units : Int → RoutingUnit D) (route : RouteInfo D) :
    Nat → Int → PortDirection → Except Abort (List PortDirection)
  | fuel, cur, inport_dirn =>
    if cur = route.dest_router then .ok []
    else
      match fuel with
      | 0 => .error Abort.diverges
      | fuel + 1 =>
        match outportDirnCustom (units cur) route inport_dirn with
        | .error a => .error a
        | .ok d =>
          match walkRing units route fuel
              (ringNext (units cur).m_router.get_net_ptr.getNumRouters cur d)
              (oppositeDirn d) with
          | .error a => .error a
          | .ok ds => .ok (d :: ds)

/-- Follows the spec's words: a path that makes all its column hops (East for a
positive column delta, West for a negative one) before any row hop (North for
a positive row delta, South for a negative one). -/
def columnThenRowPath (dcol drow : Int) : List PortDirection :=
  List.replicate dcol.natAbs (if 0 < dcol then "East" else "West") ++
    List.replicate drow.natAbs (if 0 < drow then "North" else "South")

/-! ## Concrete configurations for evaluating the model -/

/-- A network with the given algorithm and dimensions; virtual network 0 is
ordered, every other one unordered; no remote port is known and every sampled
link carries the given virtual-channel loads. -/
def demoNetwork (algorithm : RoutingAlgorithm) (rows cols routers groups perGroup channels : Int)
    (load : List Nat) : GarnetNetwork :=
  { getRoutingAlgorithm := algorithm, getNumRows := rows, getNumCols := cols,
    getNumRouters := routers, getNumGroups := groups, getRoutersPerGroup := perGroup,
    getGlobalChannelsPerRouter := channels,
    isVNetOrdered := fun vnet => decide (vnet = 0),
    getPortIdx := fun _ _ => 0,
    getVcLoad := fun _ _ => load }

/-- A router of a 3 x 3 mesh, which is also a ring of 9 routers and a dragonfly
of 3 groups of 3 routers with one global channel each. -/
def demoRouter (algorithm : RoutingAlgorithm) (id : Int) : Router :=
  { get_id := id, get_net_ptr := demoNetwork algorithm 3 3 9 3 3 1 [0, 0, 0, 0] }

/-- A routing unit with three output links and two virtual networks, built with
`addRoute` and `addWeight`; no port direction is registered. -/
def demoUnit (algorithm : RoutingAlgorithm) (id : Int) (weights : List Int) :
    RoutingUnit (List Nat) :=
  let ru := RoutingUnit.new (List Nat) (demoRouter algorithm id)
  let ru := addRoute ru [[0, 1], [0]]
  let ru := addRoute ru [[1, 2], [1]]
  let ru := addRoute ru [[1, 3], [2]]
  weights.foldl addWeight ru

/-- The demonstration unit with the four mesh directions registered as outbound
ports 3 to 6. -/
def demoMeshUnit (algorithm : RoutingAlgorithm) (id : Int) : RoutingUnit (List Nat) :=
  let ru := demoUnit algorithm id [1, 1, 1]
  let ru := addOutDirection ru "East" 3
  let ru := addOutDirection ru "West" 4
  let ru := addOutDirection ru "North" 5
  addOutDirection ru "South" 6

/-- A route of the given virtual network and destination set. -/
def demoRoute (vnet : Int) (net_dest : List Nat) (src dest : Int) : RouteInfo (List Nat) :=
  { vnet := vnet, net_dest := net_dest, src_router := src, dest_router := dest,
    intermediate_group := -1 }

/-! ## The label arithmetic of the dragonfly algorithms -/

/-- The label arithmetic of `outportComputeDragonflyMinimal` with its assertions
left out: the outbound direction label minimal routing computes at router
`my_id` for the target group `group_dst` and the target router `dest_id`. -/
def minimalDirn (num_groups routers_per_group global_channels_per_router my_id group_dst
    dest_id : Int) : PortDirection :=
  let group_cur := my_id.tdiv routers_per_group
  if group_cur ≠ group_dst then
    let group_gap :=
      if group_dst - group_cur > 0 then group_dst - group_cur - 1
      else group_dst - group_cur - 1 + num_groups
    let router_in_group_cur := group_gap.tdiv global_channels_per_router
    let router_out := group_cur * routers_per_group + router_in_group_cur
    if my_id ≠ router_out then
      "Local" ++ toString
        (if router_out - my_id > 0 then router_out - my_id - 1
         else router_out - my_id - 1 + routers_per_group)
    else
      "Global" ++ toString (group_gap - router_in_group_cur * global_channels_per_router)
  else
    "Local" ++ toString
      (if dest_id - my_id > 0 then dest_id - my_id - 1
       else dest_id - my_id - 1 + routers_per_group)

/-- The two ports `outportComputeUGAL` looks up with `getPortIdx` for load
sampling, each as the router asked and the label passed: first `router_min`
with `"Local" + std::to_string(inport_idx_min)`, then `router_val1` with
`"Local" + std::to_string(inport_idx_val1)`. -/
def ugalSampledPorts (num_groups routers_per_group global_channels_per_router my_id
    group_cur group_dst group_mid : Int) : (Int × PortDirection) × (Int × PortDirection) :=
  let group_gap_dst_cur :=
    if group_dst > group_cur then group_dst - group_cur - 1
    else group_dst - group_cur - 1 + num_groups
  let group_gap_mid_cur :=
    if group_mid > group_cur then group_mid - group_cur - 1
    else group_mid - group_cur - 1 + num_groups
  let router_min :=
    group_cur * routers_per_group + group_gap_dst_cur.tdiv global_channels_per_router
  let router_val1 :=
    group_cur * routers_per_group + group_gap_mid_cur.tdiv global_channels_per_router
  let inport_idx_min :=
    if my_id > router_min then my_id - router_min - 1
    else my_id - router_min + routers_per_group - 1
  let inport_idx_val1 :=
    if my_id > router_val1 then my_id - router_val1 - 1
    else my_id - router_val1 + routers_per_group - 1
  ((router_min, "Local" ++ toString inport_idx_min),
   (router_val1, "Local" ++ toString inport_idx_val1))

/-- The two load samples `vc_load_min` and `vc_load_val1` that
`outportComputeUGAL` reads through the two sampled ports. -/
def ugalSamples {D : Type} (ru : RoutingUnit D) (group_cur group_dst group_mid : Int) :
    List Nat × List Nat :=
  let net := ru.m_router.get_net_ptr
  let ports := ugalSampledPorts net.getNumGroups net.getRoutersPerGroup
    net.getGlobalChannelsPerRouter ru.m_router.get_id group_cur group_dst group_mid
  (net.getVcLoad ports.1.1 (net.getPortIdx ports.1.1 ports.1.2),
   net.getVcLoad ports.2.1 (net.getPortIdx ports.2.1 ports.2.2))

/-- Follows the spec's words: commit to the detour only if the detour's primary
load is sufficiently lower than minimal's (ratio 3/5) or the two candidate
routers are identical, and the secondary signal does not contradict it or the
two routers differ. -/
def ugalPrefersDetour (load_min load_val q_m_vc q_nm_vc router_min router_val : Int) : Prop :=
  (load_val * 5 < load_min * 3 ∨ router_min = router_val) ∧
    (q_nm_vc * 5 < q_m_vc * 3 ∨ router_min ≠ router_val)

/-- The test `outportComputeUGAL` makes to choose between MIN and VAL, on the
values of its `int` variables and with its `int` products. -/
def ugalCommits (load_min load_val1 q_m_vc q_nm_vc router_min router_val1 : Int) : Prop :=
  (mulInt load_val1 5 < mulInt load_min 3 ∨ router_min = router_val1) ∧
    (mulInt q_nm_vc 5 < mulInt q_m_vc 3 ∨ router_min ≠ router_val1)

/-! ## Dragonfly configurations for evaluating the model -/

/-- A dragonfly network of `groups` groups of `perGroup` routers with `channels`
global channels each, with the given port lookup and load samples. -/
def dragonflyNetwork (algorithm : RoutingAlgorithm) (groups perGroup channels : Int)
    (portIdx : Int → PortDirection → Int) (vcLoad : Int → Int → List Nat) : GarnetNetwork :=
  { getRoutingAlgorithm := algorithm, getNumRows := 1, getNumCols := groups * perGroup,
    getNumRouters := groups * perGroup, getNumGroups := groups,
    getRoutersPerGroup := perGroup, getGlobalChannelsPerRouter := channels,
    isVNetOrdered := fun vnet => decide (vnet = 0),
    getPortIdx := portIdx,
    getVcLoad := vcLoad }

/-- The routing unit of router `id` of a dragonfly network, with the outbound
directions "Local0", "Local1" and "Global0" registered as ports 1, 2 and 3. -/
def dragonflyUnit (algorithm : RoutingAlgorithm) (groups perGroup channels id : Int)
    (portIdx : Int → PortDirection → Int) (vcLoad : Int → Int → List Nat) :
    RoutingUnit (List Nat) :=
  let ru := RoutingUnit.new (List Nat)
    { get_id := id,
      get_net_ptr := dragonflyNetwork algorithm groups perGroup channels portIdx vcLoad }
  let ru := addOutDirection ru "Local0" 1
  let ru := addOutDirection ru "Local1" 2
  addOutDirection ru "Global0" 3

/-- A route with a given intermediate group. -/
def detourRoute (src dest intermediate_group : Int) : RouteInfo (List Nat) :=
  { vnet := 0, net_dest := [1], src_router := src, dest_router := dest,
    intermediate_group := intermediate_group }

/-- The routing unit `ru` in a network whose port lookup and load samples are
replaced by `portIdx` and `vcLoad`. -/
def withLoads {D : Type} (ru : RoutingUnit D) (portIdx : Int → PortDirection → Int)
    (vcLoad : Int → Int → List Nat) : RoutingUnit D :=
  { ru with
    m_router :=
      { ru.m_router with
        get_net_ptr :=
          { ru.m_router.get_net_ptr with getPortIdx := portIdx, getVcLoad := vcLoad } } }

/-- Router 2 of a UGAL dragonfly of 3 groups of 3 routers with 1 global channel
each; every link into router 0 holds 4 flits per virtual channel and every
other link 1. -/
def demoUgalUnit : RoutingUnit (List Nat) :=
  dragonflyUnit .UGAL_ 3 3 1 2 (fun _ _ => 0)
    (fun r _ => if r = 0 then [4, 4, 4, 4] else [1, 1, 1, 1])

/-- Router 0 of a UGAL dragonfly of 3 groups of 2 routers with 1 global channel
each.  The port lookup answers 7 for the label "Local1" and 0 for every other
label; the link into port 7 of router 0 holds `load` flits per virtual channel
and every other link none. -/
def pairedUgalUnit (load : Nat) : RoutingUnit (List Nat) :=
  dragonflyUnit .UGAL_ 3 2 1 0 (fun _ label => if label = "Local1" then 7 else 0)
    (fun r p => if r = 0 ∧ p = 7 then [load, load, load, load] else [0, 0, 0, 0])

/-- Router 2 of a UGAL dragonfly of 3 groups of 3 routers with 1 global channel
each; every link into router 0 holds the loads 100, 0, 0, 100 and every other
link the loads 500000000, 0, 0, 0. -/
def heavyUgalUnit : RoutingUnit (List Nat) :=
  dragonflyUnit .UGAL_ 3 3 1 2 (fun _ _ => 0)
    (fun r _ => if r = 0 then [100, 0, 0, 100] else [500000000, 0, 0, 0])

/-! ## The wiring arithmetic of the global channels -/

/-- The pair the dragonfly routers compute for a remote group in
`outportComputeDragonflyMinimal` (and again in the shared tail of
`outportComputeUGAL` and `outportComputeDragonflyVAL`): `router_in_group_cur`,
the in-group index of the exit router, and the index that follows "Global" in
the label chosen at the exit router. -/
def exitChannel (num_groups global_channels_per_router group_cur group_dst : Int) :
    Int × Int :=
  let group_gap :=
    if group_dst - group_cur > 0 then group_dst - group_cur - 1
    else group_dst - group_cur - 1 + num_groups
  let router_in_group_cur := group_gap.tdiv global_channels_per_router
  (router_in_group_cur, group_gap - router_in_group_cur * global_channels_per_router)

/-! ## The two loops of `lookupRoutingTable` -/

theorem collectLoop_ok {D : Type} [NetDest D] (msg : D) (weights : List Int) (m : Int)
    (es : List D) : ∀ (link : Nat) (acc cands : List Int),
    collectLoop msg weights m es link acc = .ok cands →
      cands = acc ++ collected msg weights m es link := by
  induction es with
  | nil =>
    intro link acc cands h
    simp [collectLoop] at h
    simp [collected, h]
  | cons e rest ih =>
    intro link acc cands h
    unfold collectLoop at h
    by_cases hi : NetDest.intersectionIsNotEmpty msg e = true
    · simp only [hi, if_true] at h
      cases hw : weights[link]? with
      | none => simp [hw] at h
      | some w =>
        simp only [hw] at h
        have := ih _ _ _ h
        by_cases hwm : w = m
        · subst hwm
          simp [collected, List.enumFrom_cons, List.filter_cons, hi, hw] at this ⊢
          simpa [collected] using this
        · simp [collected, List.enumFrom_cons, List.filter_cons, hi, hw, hwm] at this ⊢
          simpa [collected] using this
    · simp only [hi] at h
      have := ih _ _ _ h
      simp [collected, List.enumFrom_cons, List.filter_cons, hi] at this ⊢
      simpa [collected] using this

theorem minWeightLoop_total {D : Type} [NetDest D] (msg : D) (weights : List Int)
    (es : List D) : ∀ (link : Nat) (mw : Int),
    (∀ (i : Nat) (e : D), es[i]? = some e → NetDest.intersectionIsNotEmpty msg e = true →
      ∃ w, weights[link + i]? = some w) →
    ∃ m, minWeightLoop msg weights es link mw = .ok m := by
  induction es with
  | nil => intro link mw _; exact ⟨mw, rfl⟩
  | cons e rest ih =>
    intro link mw hwt
    have hrest : ∀ (i : Nat) (e' : D), rest[i]? = some e' →
        NetDest.intersectionIsNotEmpty msg e' = true →
        ∃ w, weights[link + 1 + i]? = some w := by
      intro i e' he' hi'
      have := hwt (i + 1) e' (by simpa using he') hi'
      rwa [show link + 1 + i = link + (i + 1) by omega]
    unfold minWeightLoop
    by_cases hi : NetDest.intersectionIsNotEmpty msg e = true
    · obtain ⟨w, hw⟩ := hwt 0 e (by simp) hi
      simp only [Nat.add_zero] at hw
      simp only [hi, if_true, hw]
      exact ih _ _ hrest
    · simp only [hi]
      exact ih _ _ hrest

/-- What the first loop computes: a lower bound of the start value and of every
intersecting weight, attained by the start value or by an intersecting link. -/
theorem minWeightLoop_ok {D : Type} [NetDest D] (msg : D) (weights : List Int)
    (es : List D) : ∀ (link : Nat) (mw m : Int),
    minWeightLoop msg weights es link mw = .ok m →
      m ≤ mw ∧
      (∀ p ∈ es.enumFrom link, NetDest.intersectionIsNotEmpty msg p.2 = true →
        ∃ w, weights[p.1]? = some w ∧ m ≤ w) ∧
      (m = mw ∨ ∃ p ∈ es.enumFrom link,
        NetDest.intersectionIsNotEmpty msg p.2 = true ∧ weights[p.1]? = some m) := by
  induction es with
  | nil =>
    intro link mw m h
    simp [minWeightLoop] at h
    simp [h]
  | cons e rest ih =>
    intro link mw m h
    unfold minWeightLoop at h
    by_cases hi : NetDest.intersectionIsNotEmpty msg e = true
    · simp only [hi, if_true] at h
      cases hw : weights[link]? with
      | none => simp [hw] at h
      | some w =>
        simp only [hw] at h
        obtain ⟨h1, h2, h3⟩ := ih _ _ _ h
        refine ⟨?_, ?_, ?_⟩
        · split at h1 <;> omega
        · intro p hp hpi
          rw [List.enumFrom_cons, List.mem_cons] at hp
          rcases hp with rfl | hp
          · refine ⟨w, hw, ?_⟩
            split at h1 <;> omega
          · exact h2 p hp hpi
        · rcases h3 with h3 | ⟨p, hp, hpi, hpw⟩
          · by_cases hle : w ≤ mw
            · right
              refine ⟨(link, e), ?_, hi, ?_⟩
              · simp [List.enumFrom_cons]
              · simp [hle] at h3; simp [hw, h3]
            · left; simp [hle] at h3; exact h3
          · right
            exact ⟨p, by simp [List.enumFrom_cons, hp], hpi, hpw⟩
    · simp only [hi] at h
      obtain ⟨h1, h2, h3⟩ := ih _ _ _ h
      refine ⟨h1, ?_, ?_⟩
      · intro p hp hpi
        rw [List.enumFrom_cons, List.mem_cons] at hp
        rcases hp with rfl | hp
        · exact absurd hpi hi
        · exact h2 p hp hpi
      · rcases h3 with h3 | ⟨p, hp, hpi, hpw⟩
        · exact Or.inl h3
        · exact Or.inr ⟨p, by simp [List.enumFrom_cons, hp], hpi, hpw⟩

theorem enumFrom_filter_pairwise {D : Type} (f : Nat × D → Bool) (es : List D) :
    ∀ k : Nat, List.Pairwise (fun a b : Int => a < b)
      (((es.enumFrom k).filter f).map (fun p => (p.1 : Int))) := by
  intro k
  rw [List.pairwise_map]
  apply List.Pairwise.filter
  induction es generalizing k with
  | nil => simp
  | cons e rest ih =>
    rw [List.enumFrom_cons, List.pairwise_cons]
    refine ⟨?_, ih (k + 1)⟩
    intro q hq
    have := (List.mem_enumFrom hq).1
    simp only
    omega

theorem collectLoop_of_minWeightLoop {D : Type} [NetDest D] (msg : D) (weights : List Int)
    (es : List D) : ∀ (link : Nat) (mw m' : Int),
    minWeightLoop msg weights es link mw = .ok m' →
    ∀ (m : Int) (acc : List Int), ∃ cands, collectLoop msg weights m es link acc = .ok cands := by
  induction es with
  | nil => intro link mw m' _ m acc; exact ⟨acc, rfl⟩
  | cons e rest ih =>
    intro link mw m' h m acc
    unfold minWeightLoop at h
    unfold collectLoop
    by_cases hi : NetDest.intersectionIsNotEmpty msg e = true
    · simp only [hi, if_true] at h ⊢
      cases hw : weights[link]? with
      | none => simp [hw] at h
      | some w =>
        simp only [hw] at h ⊢
        exact ih _ _ _ h _ _
    · simp only [hi] at h ⊢
      exact ih _ _ _ h _ _

/-- The body of `lookupRoutingTable` once the table row is found and the first
loop has produced `min_weight`. -/
theorem lookupRoutingTable_unfold {D : Type} [NetDest D] (INFINITE_ : Int)
    (ru : RoutingUnit D) (rand : Nat) (vnet : Int) (msg : D) (entries : List D) (m : Int)
    (hv : 0 ≤ vnet) (hrow : ru.m_routing_table[vnet.toNat]? = some entries)
    (hmin : minWeightLoop msg ru.m_weight_table entries 0 INFINITE_ = .ok m) :
    lookupRoutingTable INFINITE_ ru rand vnet msg =
      if (collected msg ru.m_weight_table m entries 0).length = 0 then
        .error Abort.noRoute
      else
        match (collected msg ru.m_weight_table m entries 0)[
          if !(ru.m_router.get_net_ptr.isVNetOrdered vnet) then
            rand % (collected msg ru.m_weight_table m entries 0).length else 0]? with
        | none => .error Abort.outOfRange
        | some output_link => .ok output_link := by
  obtain ⟨cands, hc⟩ := collectLoop_of_minWeightLoop msg ru.m_weight_table entries 0 _ _ hmin m []
  have hcands := collectLoop_ok msg ru.m_weight_table m entries 0 [] cands hc
  simp only [List.nil_append] at hcands
  subst hcands
  unfold lookupRoutingTable
  have : ¬ vnet < 0 := by omega
  simp only [this, if_false, hrow, hmin, hc]

/-- A returning `lookupRoutingTable` found its table row and finished both loops. -/
theorem lookupRoutingTable_inv {D : Type} [NetDest D] (INFINITE_ : Int)
    (ru : RoutingUnit D) (rand : Nat) (vnet : Int) (msg : D) (L : Int)
    (h : lookupRoutingTable INFINITE_ ru rand vnet msg = .ok L) :
    ∃ (entries : List D) (m : Int), 0 ≤ vnet ∧ ru.m_routing_table[vnet.toNat]? = some entries ∧
      minWeightLoop msg ru.m_weight_table entries 0 INFINITE_ = .ok m := by
  unfold lookupRoutingTable at h
  by_cases hv : vnet < 0
  · simp [hv] at h
  · simp only [hv, if_false] at h
    cases hrow : ru.m_routing_table[vnet.toNat]? with
    | none => simp [hrow] at h
    | some entries =>
      simp only [hrow] at h
      cases hmin : minWeightLoop msg ru.m_weight_table entries 0 INFINITE_ with
      | error a => simp [hmin] at h
      | ok m => exact ⟨entries, m, by omega, rfl, hmin⟩

/-- Membership in the list the second loop collects. -/
theorem mem_collected {D : Type} [NetDest D] (msg : D) (weights : List Int) (m : Int)
    (entries : List D) (L : Int) :
    L ∈ collected msg weights m entries 0 ↔
      ∃ (l : Nat) (e : D), L = (l : Int) ∧ entries[l]? = some e ∧
        NetDest.intersectionIsNotEmpty msg e = true ∧ weights[l]? = some m := by
  unfold collected
  simp only [List.mem_map, List.mem_filter, Bool.and_eq_true, decide_eq_true_eq]
  constructor
  · rintro ⟨⟨l, e⟩, ⟨hmem, hi, hw⟩, rfl⟩
    have := List.mk_mem_enumFrom_iff_le_and_getElem?_sub.1 hmem
    exact ⟨l, e, rfl, by simpa using this.2, hi, hw⟩
  · rintro ⟨l, e, rfl, he, hi, hw⟩
    refine ⟨(l, e), ⟨?_, hi, hw⟩, rfl⟩
    exact List.mk_mem_enumFrom_iff_le_and_getElem?_sub.2 ⟨Nat.zero_le _, by simpa using he⟩

theorem isMinWeightCandidate_iff {D : Type} [NetDest D] (msg : D) (weights : List Int)
    (entries : List D) (l : Nat) (e : D) :
    isMinWeightCandidate msg weights entries (l, e) = true ↔
      NetDest.intersectionIsNotEmpty msg e = true ∧
      ∃ w, weights[l]? = some w ∧
        ∀ (l' : Nat) (e' : D), entries[l']? = some e' →
          NetDest.intersectionIsNotEmpty msg e' = true →
          ∃ w', weights[l']? = some w' ∧ w ≤ w' := by
  unfold isMinWeightCandidate
  simp only [Bool.and_eq_true]
  apply and_congr_right
  intro _
  cases hw : weights[l]? with
  | none => simp
  | some w =>
    simp only [List.all_eq_true, Bool.or_eq_true, Bool.not_eq_true', Option.some.injEq,
      exists_eq_left']
    constructor
    · intro h l' e' he' hi'
      have hmem : (l', e') ∈ entries.enum := List.mk_mem_enum_iff_getElem?.2 he'
      have := h (l', e') hmem
      simp only [hi', Bool.true_eq_false, false_or] at this
      cases hw' : weights[l']? with
      | none => simp [hw'] at this
      | some w' => simp [hw'] at this; exact ⟨w', rfl, this⟩
    · rintro h ⟨l', e'⟩ hmem
      have he' := List.mk_mem_enum_iff_getElem?.1 hmem
      by_cases hi' : NetDest.intersectionIsNotEmpty msg e' = true
      · obtain ⟨w', hw', hle⟩ := h l' e' he' hi'
        right
        simp [hw', hle]
      · left
        simpa using hi'

/-- Membership in the tied candidates. -/
theorem mem_tiedCandidates {D : Type} [NetDest D] (msg : D) (weights : List Int)
    (entries : List D) (L : Int) :
    L ∈ tiedCandidates msg weights entries ↔
      ∃ (l : Nat) (e : D) (w : Int), L = (l : Int) ∧ entries[l]? = some e ∧
        NetDest.intersectionIsNotEmpty msg e = true ∧ weights[l]? = some w ∧
        ∀ (l' : Nat) (e' : D), entries[l']? = some e' →
          NetDest.intersectionIsNotEmpty msg e' = true →
          ∃ w', weights[l']? = some w' ∧ w ≤ w' := by
  unfold tiedCandidates
  simp only [List.mem_map, List.mem_filter]
  constructor
  · rintro ⟨⟨l, e⟩, ⟨hmem, hmin⟩, rfl⟩
    obtain ⟨hi, w, hw, hall⟩ := (isMinWeightCandidate_iff msg weights entries l e).1 hmin
    exact ⟨l, e, w, rfl, List.mk_mem_enum_iff_getElem?.1 hmem, hi, hw, hall⟩
  · rintro ⟨l, e, w, rfl, he, hi, hw, hall⟩
    exact ⟨(l, e), ⟨List.mk_mem_enum_iff_getElem?.2 he,
      (isMinWeightCandidate_iff msg weights entries l e).2 ⟨hi, w, hw, hall⟩⟩, rfl⟩

/-- When the minimum the first loop returns is the weight of an intersecting
entry, the second loop collects exactly the tied candidates. -/
theorem collected_eq_tiedCandidates {D : Type} [NetDest D] (msg : D) (weights : List Int)
    (entries : List D) (INFINITE_ m : Int)
    (hmin : minWeightLoop msg weights entries 0 INFINITE_ = .ok m)
    (hatt : ∃ (l : Nat) (e : D), entries[l]? = some e ∧
      NetDest.intersectionIsNotEmpty msg e = true ∧ weights[l]? = some m) :
    collected msg weights m entries 0 = tiedCandidates msg weights entries := by
  obtain ⟨_, hlow, _⟩ := minWeightLoop_ok msg weights entries 0 INFINITE_ m hmin
  obtain ⟨l0, e0, he0, hi0, hw0⟩ := hatt
  unfold collected tiedCandidates
  congr 1
  apply List.filter_congr
  rintro ⟨l, e⟩ hmem
  have he : entries[l]? = some e := List.mk_mem_enum_iff_getElem?.1 hmem
  rw [Bool.eq_iff_iff, isMinWeightCandidate_iff]
  simp only [Bool.and_eq_true, decide_eq_true_eq]
  apply and_congr_right
  intro hi
  constructor
  · intro hw
    refine ⟨m, hw, ?_⟩
    intro l' e' he' hi'
    exact hlow (l', e') (List.mk_mem_enum_iff_getElem?.2 he') hi'
  · rintro ⟨w, hw, hall⟩
    obtain ⟨w0, hw0', hle⟩ := hall l0 e0 he0 hi0
    obtain ⟨w1, hw1, hle1⟩ := hlow (l, e) hmem hi
    rw [hw0] at hw0'
    rw [hw] at hw1
    cases hw0'
    cases hw1
    rw [hw]
    congr 1
    omega

/-- The structure of every returning call: the row, the minimum the first loop
found, and the returned link as an element of the collected candidates. -/
theorem lookupRoutingTable_ok_spec {D : Type} [NetDest D] (INFINITE_ : Int)
    (ru : RoutingUnit D) (rand : Nat) (vnet : Int) (msg : D) (L : Int)
    (h : lookupRoutingTable INFINITE_ ru rand vnet msg = .ok L) :
    ∃ (entries : List D) (m : Int), 0 ≤ vnet ∧
      ru.m_routing_table[vnet.toNat]? = some entries ∧
      minWeightLoop msg ru.m_weight_table entries 0 INFINITE_ = .ok m ∧
      (collected msg ru.m_weight_table m entries 0)[
          if !(ru.m_router.get_net_ptr.isVNetOrdered vnet) then
            rand % (collected msg ru.m_weight_table m entries 0).length else 0]? = some L ∧
      collected msg ru.m_weight_table m entries 0 = tiedCandidates msg ru.m_weight_table entries := by
  obtain ⟨entries, m, hv, hrow, hmin⟩ := lookupRoutingTable_inv INFINITE_ ru rand vnet msg L h
  rw [lookupRoutingTable_unfold INFINITE_ ru rand vnet msg entries m hv hrow hmin] at h
  split at h
  · cases h
  · split at h
    · cases h
    · rename_i output_link hget
      cases h
      refine ⟨entries, m, hv, hrow, hmin, hget, ?_⟩
      have hmem : L ∈ collected msg ru.m_weight_table m entries 0 :=
        List.mem_iff_getElem?.2 ⟨_, hget⟩
      obtain ⟨l, e, _, he, hi, hw⟩ := (mem_collected msg ru.m_weight_table m entries L).1 hmem
      exact collected_eq_tiedCandidates msg ru.m_weight_table entries INFINITE_ m hmin
        ⟨l, e, he, hi, hw⟩

/-- With every link weighted and an intersecting entry of weight at most
`INFINITE_`, the first loop returns the weight of an intersecting entry. -/
theorem minWeightLoop_attained {D : Type} [NetDest D] (msg : D) (weights : List Int)
    (entries : List D) (INFINITE_ m : Int)
    (hmin : minWeightLoop msg weights entries 0 INFINITE_ = .ok m)
    (hex : ∃ (l : Nat) (e : D) (w : Int), entries[l]? = some e ∧
      NetDest.intersectionIsNotEmpty msg e = true ∧ weights[l]? = some w ∧ w ≤ INFINITE_) :
    ∃ (l : Nat) (e : D), entries[l]? = some e ∧
      NetDest.intersectionIsNotEmpty msg e = true ∧ weights[l]? = some m := by
  obtain ⟨hle, hlow, hatt⟩ := minWeightLoop_ok msg weights entries 0 INFINITE_ m hmin
  obtain ⟨l, e, w, he, hi, hw, hwI⟩ := hex
  rcases hatt with hm | ⟨⟨l', e'⟩, hmem, hi', hw'⟩
  · obtain ⟨w1, hw1, hle1⟩ := hlow (l, e) (List.mk_mem_enum_iff_getElem?.2 he) hi
    rw [hw] at hw1
    cases hw1
    have : w = m := by omega
    subst this
    exact ⟨l, e, he, hi, hw⟩
  · exact ⟨l', e', List.mk_mem_enum_iff_getElem?.1 hmem, hi', hw'⟩

/-! ## Claims about `lookupRoutingTable` -/

/-- C1: whenever `lookupRoutingTable` returns a link `L`, the table entry of the
virtual network at index `L` intersects the destination set, and the weight of
`L` is at most the weight of every link whose entry intersects the destination
set. -/
theorem lookupRoutingTable_returns_min_weight_intersecting {D : Type} [NetDest D]
    (INFINITE_ : Int) (ru : RoutingUnit D) (rand : Nat) (vnet : Int) (msg_destination : D)
    (L : Int) (h : lookupRoutingTable INFINITE_ ru rand vnet msg_destination = .ok L) :
    ∃ (entries : List D) (l : Nat) (e : D) (w : Int),
      0 ≤ vnet ∧ ru.m_routing_table[vnet.toNat]? = some entries ∧ L = (l : Int) ∧
      entries[l]? = some e ∧ NetDest.intersectionIsNotEmpty msg_destination e = true ∧
      ru.m_weight_table[l]? = some w ∧
      ∀ (l' : Nat) (e' : D), entries[l']? = some e' →
        NetDest.intersectionIsNotEmpty msg_destination e' = true →
        ∃ w', ru.m_weight_table[l']? = some w' ∧ w ≤ w' := by
  obtain ⟨entries, m, hv, hrow, _, hget, heq⟩ :=
    lookupRoutingTable_ok_spec INFINITE_ ru rand vnet msg_destination L h
  have hmem : L ∈ tiedCandidates msg_destination ru.m_weight_table entries := by
    rw [← heq]
    exact List.mem_iff_getElem?.2 ⟨_, hget⟩
  obtain ⟨l, e, w, hL, he, hi, hw, hall⟩ :=
    (mem_tiedCandidates msg_destination ru.m_weight_table entries L).1 hmem
  exact ⟨entries, l, e, w, hv, hrow, hL, he, hi, hw, hall⟩

/-- Witness for C1: on the demonstration table the lookup returns link 1, whose
entry intersects and whose weight 1 is minimal. -/
theorem lookupRoutingTable_returns_min_weight_intersecting_witness :
    lookupRoutingTable 10000 (demoUnit .TABLE_ 0 [2, 1, 1]) 7 0 [1] = .ok 1 ∧
    ∃ (entries : List (List Nat)) (l : Nat) (e : List Nat) (w : Int),
      (0 : Int) ≤ 0 ∧
      (demoUnit .TABLE_ 0 [2, 1, 1]).m_routing_table[(0 : Int).toNat]? = some entries ∧
      (1 : Int) = (l : Int) ∧
      entries[l]? = some e ∧ NetDest.intersectionIsNotEmpty [1] e = true ∧
      (demoUnit .TABLE_ 0 [2, 1, 1]).m_weight_table[l]? = some w ∧
      ∀ (l' : Nat) (e' : List Nat), entries[l']? = some e' →
        NetDest.intersectionIsNotEmpty [1] e' = true →
        ∃ w', (demoUnit .TABLE_ 0 [2, 1, 1]).m_weight_table[l']? = some w' ∧ w ≤ w' :=
  ⟨by decide,
   lookupRoutingTable_returns_min_weight_intersecting 10000 (demoUnit .TABLE_ 0 [2, 1, 1])
     7 0 [1] 1 (by decide)⟩

theorem minWeightLoop_none {D : Type} [NetDest D] (msg : D) (weights : List Int)
    (es : List D) (hno : ∀ e ∈ es, NetDest.intersectionIsNotEmpty msg e = false) :
    ∀ (link : Nat) (mw : Int), minWeightLoop msg weights es link mw = .ok mw := by
  induction es with
  | nil => intro link mw; rfl
  | cons e rest ih =>
    intro link mw
    unfold minWeightLoop
    have he : NetDest.intersectionIsNotEmpty msg e = false := hno e (List.mem_cons_self _ _)
    simp only [he, Bool.false_eq_true, if_false]
    exact ih (fun e' he' => hno e' (List.mem_cons_of_mem _ he')) _ _

/-- C2: if no entry of the virtual network intersects the destination set,
`lookupRoutingTable` raises the fatal "no route" condition and returns no
link, whatever the weights, the sentinel and the random draw. -/
theorem lookupRoutingTable_no_intersection_is_fatal {D : Type} [NetDest D]
    (INFINITE_ : Int) (ru : RoutingUnit D) (rand : Nat) (vnet : Int) (msg_destination : D)
    (entries : List D) (hv : 0 ≤ vnet)
    (hrow : ru.m_routing_table[vnet.toNat]? = some entries)
    (hno : ∀ e ∈ entries, NetDest.intersectionIsNotEmpty msg_destination e = false) :
    lookupRoutingTable INFINITE_ ru rand vnet msg_destination = .error Abort.noRoute ∧
    ∀ L : Int, lookupRoutingTable INFINITE_ ru rand vnet msg_destination ≠ .ok L := by
  have hmin := minWeightLoop_none msg_destination ru.m_weight_table entries hno 0 INFINITE_
  have hempty : collected msg_destination ru.m_weight_table INFINITE_ entries 0 = [] := by
    apply List.eq_nil_iff_forall_not_mem.2
    intro L hL
    obtain ⟨l, e, _, he, hi, _⟩ :=
      (mem_collected msg_destination ru.m_weight_table INFINITE_ entries L).1 hL
    have := hno e (List.mem_iff_getElem?.2 ⟨_, he⟩)
    rw [this] at hi
    cases hi
  have hres : lookupRoutingTable INFINITE_ ru rand vnet msg_destination
      = .error Abort.noRoute := by
    rw [lookupRoutingTable_unfold INFINITE_ ru rand vnet msg_destination entries INFINITE_
      hv hrow hmin, hempty]
    simp
  refine ⟨hres, ?_⟩
  intro L hL
  rw [hres] at hL
  cases hL

/-- Witness for C2: destination set `[9]` meets no entry of virtual network 0. -/
theorem lookupRoutingTable_no_intersection_is_fatal_witness :
    lookupRoutingTable 10000 (demoUnit .TABLE_ 0 [2, 1, 1]) 7 0 [9] = .error Abort.noRoute ∧
    ∀ L : Int, lookupRoutingTable 10000 (demoUnit .TABLE_ 0 [2, 1, 1]) 7 0 [9] ≠ .ok L :=
  lookupRoutingTable_no_intersection_is_fatal 10000 (demoUnit .TABLE_ 0 [2, 1, 1]) 7 0 [9]
    [[0, 1], [1, 2], [1, 3]] (by decide) (by decide) (by decide)

/-- A weight table at least as long as the row gives every link a weight. -/
theorem weighted_of_length {D : Type} (weights : List Int) (entries : List D)
    (hlen : entries.length ≤ weights.length) (l : Nat) (e : D) (he : entries[l]? = some e) :
    ∃ w, weights[l]? = some w := by
  obtain ⟨hl, _⟩ := List.getElem?_eq_some.1 he
  exact ⟨_, List.getElem?_eq_getElem (by omega)⟩

/-- The candidate index stays inside a non-empty candidate list. -/
theorem candidate_getElem? (cands : List Int) (ordered : Bool) (rand : Nat)
    (hne : cands.length ≠ 0) :
    ∃ L, cands[if !ordered then rand % cands.length else 0]? = some L := by
  have hpos : 0 < cands.length := Nat.pos_of_ne_zero hne
  have hlt : (if (!ordered) = true then rand % cands.length else 0) < cands.length := by
    split
    · exact Nat.mod_lt _ hpos
    · exact hpos
  exact ⟨_, List.getElem?_eq_getElem hlt⟩

/-- With the row present, every link weighted and an intersecting entry of weight
at most `INFINITE_`, the call returns an element of the tied candidates. -/
theorem lookupRoutingTable_returns {D : Type} [NetDest D] (INFINITE_ : Int)
    (ru : RoutingUnit D) (rand : Nat) (vnet : Int) (msg : D) (entries : List D)
    (hv : 0 ≤ vnet) (hrow : ru.m_routing_table[vnet.toNat]? = some entries)
    (hwt : ∀ (l : Nat) (e : D), entries[l]? = some e →
      NetDest.intersectionIsNotEmpty msg e = true → ∃ w, ru.m_weight_table[l]? = some w)
    (hex : ∃ (l : Nat) (e : D) (w : Int), entries[l]? = some e ∧
      NetDest.intersectionIsNotEmpty msg e = true ∧ ru.m_weight_table[l]? = some w ∧
      w ≤ INFINITE_) :
    (tiedCandidates msg ru.m_weight_table entries).length ≠ 0 ∧
    ∃ L, (tiedCandidates msg ru.m_weight_table entries)[
        if !(ru.m_router.get_net_ptr.isVNetOrdered vnet) then
          rand % (tiedCandidates msg ru.m_weight_table entries).length else 0]? = some L ∧
      lookupRoutingTable INFINITE_ ru rand vnet msg = .ok L := by
  obtain ⟨m, hmin⟩ := minWeightLoop_total msg ru.m_weight_table entries 0 INFINITE_
    (by simpa using hwt)
  have hatt := minWeightLoop_attained msg ru.m_weight_table entries INFINITE_ m hmin hex
  have heq := collected_eq_tiedCandidates msg ru.m_weight_table entries INFINITE_ m hmin hatt
  have hne : (tiedCandidates msg ru.m_weight_table entries).length ≠ 0 := by
    obtain ⟨l, e, he, hi, hw⟩ := hatt
    have hmem : ((l : Nat) : Int) ∈ collected msg ru.m_weight_table m entries 0 :=
      (mem_collected msg ru.m_weight_table m entries l).2 ⟨l, e, rfl, he, hi, hw⟩
    rw [heq] at hmem
    intro h0
    rw [List.length_eq_zero] at h0
    rw [h0] at hmem
    cases hmem
  refine ⟨hne, ?_⟩
  obtain ⟨L, hL⟩ := candidate_getElem? (tiedCandidates msg ru.m_weight_table entries)
    (ru.m_router.get_net_ptr.isVNetOrdered vnet) rand hne
  refine ⟨L, hL, ?_⟩
  rw [lookupRoutingTable_unfold INFINITE_ ru rand vnet msg entries m hv hrow hmin, heq]
  simp only [hne, if_false, hL]

/-- C3 (as stated, refuted): with `INFINITE_` = 10000 and every link weighted
10001, entry 0 of virtual network 0 intersects the destination set `[1]`, yet
the call takes the fatal "no route" branch. -/
theorem lookupRoutingTable_weight_above_sentinel_is_fatal :
    (demoUnit .TABLE_ 0 [10001, 10001, 10001]).m_routing_table[(0 : Int).toNat]?
      = some [[0, 1], [1, 2], [1, 3]] ∧
    NetDest.intersectionIsNotEmpty [1] [0, 1] = true ∧
    lookupRoutingTable 10000 (demoUnit .TABLE_ 0 [10001, 10001, 10001]) 0 0 [1]
      = .error Abort.noRoute := by
  decide

/-- C3 (amended): with the row present and every link weighted, the call
returns a link as soon as some intersecting entry has weight at most
`INFINITE_`, and it takes the fatal "no route" branch exactly when no
intersecting entry has weight at most `INFINITE_`. -/
theorem lookupRoutingTable_fatal_iff_no_candidate_within_sentinel {D : Type} [NetDest D]
    (INFINITE_ : Int) (ru : RoutingUnit D) (rand : Nat) (vnet : Int) (msg_destination : D)
    (entries : List D) (hv : 0 ≤ vnet)
    (hrow : ru.m_routing_table[vnet.toNat]? = some entries)
    (hlen : entries.length ≤ ru.m_weight_table.length) :
    ((∃ (l : Nat) (e : D) (w : Int), entries[l]? = some e ∧
        NetDest.intersectionIsNotEmpty msg_destination e = true ∧
        ru.m_weight_table[l]? = some w ∧ w ≤ INFINITE_) →
      ∃ L, lookupRoutingTable INFINITE_ ru rand vnet msg_destination = .ok L) ∧
    (lookupRoutingTable INFINITE_ ru rand vnet msg_destination = .error Abort.noRoute ↔
      ¬ ∃ (l : Nat) (e : D) (w : Int), entries[l]? = some e ∧
        NetDest.intersectionIsNotEmpty msg_destination e = true ∧
        ru.m_weight_table[l]? = some w ∧ w ≤ INFINITE_) := by
  have hret : (∃ (l : Nat) (e : D) (w : Int), entries[l]? = some e ∧
        NetDest.intersectionIsNotEmpty msg_destination e = true ∧
        ru.m_weight_table[l]? = some w ∧ w ≤ INFINITE_) →
      ∃ L, lookupRoutingTable INFINITE_ ru rand vnet msg_destination = .ok L := by
    intro hex
    obtain ⟨_, L, _, hL⟩ := lookupRoutingTable_returns INFINITE_ ru rand vnet msg_destination
      entries hv hrow
      (fun l e he _ => weighted_of_length ru.m_weight_table entries hlen l e he) hex
    exact ⟨L, hL⟩
  refine ⟨hret, ?_, ?_⟩
  · intro hfatal hex
    obtain ⟨L, hL⟩ := hret hex
    rw [hL] at hfatal
    cases hfatal
  · intro hno
    obtain ⟨m, hmin⟩ := minWeightLoop_total msg_destination ru.m_weight_table entries 0
      INFINITE_
      (by simpa using fun l e he (_ : NetDest.intersectionIsNotEmpty msg_destination e = true) =>
        weighted_of_length ru.m_weight_table entries hlen l e he)
    obtain ⟨hle, _, _⟩ := minWeightLoop_ok msg_destination ru.m_weight_table entries 0
      INFINITE_ m hmin
    have hempty : collected msg_destination ru.m_weight_table m entries 0 = [] := by
      apply List.eq_nil_iff_forall_not_mem.2
      intro L hL
      obtain ⟨l, e, _, he, hi, hw⟩ :=
        (mem_collected msg_destination ru.m_weight_table m entries L).1 hL
      exact hno ⟨l, e, m, he, hi, hw, hle⟩
    rw [lookupRoutingTable_unfold INFINITE_ ru rand vnet msg_destination entries m
      hv hrow hmin, hempty]
    simp

/-- Witness for C3 (amended): link 1 intersects with weight 1, and the call
returns. -/
theorem lookupRoutingTable_fatal_iff_no_candidate_within_sentinel_witness :
    ((∃ (l : Nat) (e : List Nat) (w : Int),
        ([[0, 1], [1, 2], [1, 3]] : List (List Nat))[l]? = some e ∧
        NetDest.intersectionIsNotEmpty [1] e = true ∧
        (demoUnit .TABLE_ 0 [2, 1, 1]).m_weight_table[l]? = some w ∧ w ≤ 10000) →
      ∃ L, lookupRoutingTable 10000 (demoUnit .TABLE_ 0 [2, 1, 1]) 7 0 [1] = .ok L) ∧
    (lookupRoutingTable 10000 (demoUnit .TABLE_ 0 [2, 1, 1]) 7 0 [1] = .error Abort.noRoute ↔
      ¬ ∃ (l : Nat) (e : List Nat) (w : Int),
        ([[0, 1], [1, 2], [1, 3]] : List (List Nat))[l]? = some e ∧
        NetDest.intersectionIsNotEmpty [1] e = true ∧
        (demoUnit .TABLE_ 0 [2, 1, 1]).m_weight_table[l]? = some w ∧ w ≤ 10000) :=
  lookupRoutingTable_fatal_iff_no_candidate_within_sentinel 10000
    (demoUnit .TABLE_ 0 [2, 1, 1]) 7 0 [1] [[0, 1], [1, 2], [1, 3]]
    (by decide) (by decide) (by decide)

/-- Whatever value the macro `INFINITE_` has, three intersecting links of weight
`INFINITE_ + 1` make the lookup take the fatal "no route" branch. -/
theorem lookupRoutingTable_above_any_sentinel (INFINITE_ : Int) (rand : Nat) :
    lookupRoutingTable INFINITE_
      (demoUnit .TABLE_ 0 [INFINITE_ + 1, INFINITE_ + 1, INFINITE_ + 1]) rand 0 [1]
      = .error Abort.noRoute := by
  have h1 : ¬ (INFINITE_ + 1 ≤ INFINITE_) := by omega
  have h2 : ¬ (INFINITE_ + 1 = INFINITE_) := by omega
  simp [lookupRoutingTable, demoUnit, addRoute, addWeight, addRouteLoop, resizeTable,
    RoutingUnit.new, minWeightLoop, collectLoop, NetDest.intersectionIsNotEmpty, h1, h2]

/-- The tied candidates are listed by strictly increasing link index. -/
theorem tiedCandidates_pairwise {D : Type} [NetDest D] (msg : D) (weights : List Int)
    (entries : List D) :
    List.Pairwise (fun a b : Int => a < b) (tiedCandidates msg weights entries) :=
  enumFrom_filter_pairwise (isMinWeightCandidate msg weights entries) entries 0

/-- The head of the tied candidates is the smallest link index among the
intersecting entries of minimum weight. -/
theorem tiedCandidates_head {D : Type} [NetDest D] (msg : D) (weights : List Int)
    (entries : List D) (L : Int) (h : (tiedCandidates msg weights entries)[0]? = some L) :
    IsFirstMinWeightLink msg weights entries L := by
  have hmem : L ∈ tiedCandidates msg weights entries := List.mem_iff_getElem?.2 ⟨0, h⟩
  obtain ⟨l, e, w, hL, he, hi, hw, hall⟩ := (mem_tiedCandidates msg weights entries L).1 hmem
  refine ⟨l, e, w, hL, he, hi, hw, hall, ?_⟩
  intro l' e' he' hi' hw'
  have hmem' : ((l' : Nat) : Int) ∈ tiedCandidates msg weights entries := by
    refine (mem_tiedCandidates msg weights entries l').2 ⟨l', e', w, rfl, he', hi', hw', hall⟩
  have hpw := tiedCandidates_pairwise msg weights entries
  cases hlist : tiedCandidates msg weights entries with
  | nil => rw [hlist] at hmem'; cases hmem'
  | cons c rest =>
    rw [hlist] at h hmem' hpw
    simp only [List.getElem?_cons_zero, Option.some.injEq] at h
    subst h
    rcases List.mem_cons.1 hmem' with heq | hin
    · omega
    · have := List.rel_of_pairwise_cons hpw hin
      omega

/-- C4 (as stated, refuted): on ordered virtual network 0 with `INFINITE_` =
10000 and weights 20000, 30000, 20000, the intersecting entries of minimum
weight are links 0 and 2, yet the call returns no link: it takes the fatal
"no route" branch. -/
theorem lookupRoutingTable_ordered_above_sentinel_is_fatal :
    (demoUnit .TABLE_ 0 [20000, 30000, 20000]).m_router.get_net_ptr.isVNetOrdered 0 = true ∧
    tiedCandidates [1] (demoUnit .TABLE_ 0 [20000, 30000, 20000]).m_weight_table
      [[0, 1], [1, 2], [1, 3]] = [0, 2] ∧
    lookupRoutingTable 10000 (demoUnit .TABLE_ 0 [20000, 30000, 20000]) 5 0 [1]
      = .error Abort.noRoute := by
  decide

/-- C4 (amended): for an ordered virtual network the outcome of
`lookupRoutingTable` does not depend on the random draw; whenever it returns, it
returns the smallest link index among the intersecting entries of minimum
weight; and it does return when the row is present, every link is weighted and
some intersecting entry has weight at most `INFINITE_`. -/
theorem lookupRoutingTable_ordered_picks_first {D : Type} [NetDest D]
    (INFINITE_ : Int) (ru : RoutingUnit D) (vnet : Int) (msg_destination : D)
    (hord : ru.m_router.get_net_ptr.isVNetOrdered vnet = true) :
    (∀ rand rand' : Nat,
      lookupRoutingTable INFINITE_ ru rand vnet msg_destination =
        lookupRoutingTable INFINITE_ ru rand' vnet msg_destination) ∧
    (∀ (rand : Nat) (L : Int),
      lookupRoutingTable INFINITE_ ru rand vnet msg_destination = .ok L →
      ∃ entries, ru.m_routing_table[vnet.toNat]? = some entries ∧
        IsFirstMinWeightLink msg_destination ru.m_weight_table entries L) ∧
    (∀ entries : List D, 0 ≤ vnet → ru.m_routing_table[vnet.toNat]? = some entries →
      entries.length ≤ ru.m_weight_table.length →
      (∃ (l : Nat) (e : D) (w : Int), entries[l]? = some e ∧
        NetDest.intersectionIsNotEmpty msg_destination e = true ∧
        ru.m_weight_table[l]? = some w ∧ w ≤ INFINITE_) →
      ∀ rand : Nat, ∃ L, IsFirstMinWeightLink msg_destination ru.m_weight_table entries L ∧
        lookupRoutingTable INFINITE_ ru rand vnet msg_destination = .ok L) := by
  refine ⟨?_, ?_, ?_⟩
  · intro rand rand'
    unfold lookupRoutingTable
    simp only [hord, Bool.not_true, Bool.false_eq_true, if_false]
  · intro rand L h
    obtain ⟨entries, m, _, hrow, _, hget, heq⟩ :=
      lookupRoutingTable_ok_spec INFINITE_ ru rand vnet msg_destination L h
    refine ⟨entries, hrow, ?_⟩
    apply tiedCandidates_head
    rw [← heq]
    simpa [hord] using hget
  · intro entries hv hrow hlen hex rand
    obtain ⟨_, L, hget, hL⟩ := lookupRoutingTable_returns INFINITE_ ru rand vnet
      msg_destination entries hv hrow
      (fun l e he _ => weighted_of_length ru.m_weight_table entries hlen l e he) hex
    refine ⟨L, ?_, hL⟩
    apply tiedCandidates_head
    simpa [hord] using hget

/-- Witness for C4 (amended): virtual network 0 of the demonstration unit is
ordered. -/
theorem lookupRoutingTable_ordered_picks_first_witness :
    (∀ rand rand' : Nat,
      lookupRoutingTable 10000 (demoUnit .TABLE_ 0 [2, 1, 1]) rand 0 [1] =
        lookupRoutingTable 10000 (demoUnit .TABLE_ 0 [2, 1, 1]) rand' 0 [1]) ∧
    (∀ (rand : Nat) (L : Int),
      lookupRoutingTable 10000 (demoUnit .TABLE_ 0 [2, 1, 1]) rand 0 [1] = .ok L →
      ∃ entries,
        (demoUnit .TABLE_ 0 [2, 1, 1]).m_routing_table[(0 : Int).toNat]? = some entries ∧
        IsFirstMinWeightLink [1] (demoUnit .TABLE_ 0 [2, 1, 1]).m_weight_table entries L) ∧
    (∀ entries : List (List Nat), (0 : Int) ≤ 0 →
      (demoUnit .TABLE_ 0 [2, 1, 1]).m_routing_table[(0 : Int).toNat]? = some entries →
      entries.length ≤ (demoUnit .TABLE_ 0 [2, 1, 1]).m_weight_table.length →
      (∃ (l : Nat) (e : List Nat) (w : Int), entries[l]? = some e ∧
        NetDest.intersectionIsNotEmpty [1] e = true ∧
        (demoUnit .TABLE_ 0 [2, 1, 1]).m_weight_table[l]? = some w ∧ w ≤ 10000) →
      ∀ rand : Nat, ∃ L,
        IsFirstMinWeightLink [1] (demoUnit .TABLE_ 0 [2, 1, 1]).m_weight_table entries L ∧
        lookupRoutingTable 10000 (demoUnit .TABLE_ 0 [2, 1, 1]) rand 0 [1] = .ok L) :=
  lookupRoutingTable_ordered_picks_first 10000 (demoUnit .TABLE_ 0 [2, 1, 1]) 0 [1]
    (by decide)

/-- C5 (as stated, refuted): on unordered virtual network 1 with `INFINITE_` =
10000 and weights 10001, 10001, 10002, links 0 and 1 are the N = 2 intersecting
entries tied at the minimum weight, yet for the draw 1 the call returns no
candidate: it takes the fatal "no route" branch. -/
theorem lookupRoutingTable_unordered_above_sentinel_is_fatal :
    (demoUnit .TABLE_ 0 [10001, 10001, 10002]).m_router.get_net_ptr.isVNetOrdered 1 = false ∧
    tiedCandidates [0, 1, 2] (demoUnit .TABLE_ 0 [10001, 10001, 10002]).m_weight_table
      [[0], [1], [2]] = [0, 1] ∧
    lookupRoutingTable 10000 (demoUnit .TABLE_ 0 [10001, 10001, 10002]) 1 1 [0, 1, 2]
      = .error Abort.noRoute := by
  decide

/-- C5 (amended): for an unordered virtual network with N >= 1 intersecting
entries tied at the minimum weight, that weight being at most `INFINITE_`, and
for every draw `rand`, `lookupRoutingTable` returns the tied candidate at
position `rand % N` of the list of tied candidates, which is in strictly
increasing link-index order; so the result is one of the tied candidates, and
every tied candidate is returned for some draw. -/
theorem lookupRoutingTable_unordered_picks_rand_mod {D : Type} [NetDest D]
    (INFINITE_ : Int) (ru : RoutingUnit D) (vnet : Int) (msg_destination : D)
    (entries : List D) (hv : 0 ≤ vnet)
    (hrow : ru.m_routing_table[vnet.toNat]? = some entries)
    (hunord : ru.m_router.get_net_ptr.isVNetOrdered vnet = false)
    (hN : 1 ≤ (tiedCandidates msg_destination ru.m_weight_table entries).length)
    (hINF : ∀ (l : Nat) (w : Int),
      (l : Int) ∈ tiedCandidates msg_destination ru.m_weight_table entries →
      ru.m_weight_table[l]? = some w → w ≤ INFINITE_) :
    List.Pairwise (fun a b : Int => a < b)
      (tiedCandidates msg_destination ru.m_weight_table entries) ∧
    (∀ rand : Nat, ∃ c,
      (tiedCandidates msg_destination ru.m_weight_table entries)[
        rand % (tiedCandidates msg_destination ru.m_weight_table entries).length]? = some c ∧
      lookupRoutingTable INFINITE_ ru rand vnet msg_destination = .ok c) ∧
    (∀ c ∈ tiedCandidates msg_destination ru.m_weight_table entries,
      ∃ rand : Nat, lookupRoutingTable INFINITE_ ru rand vnet msg_destination = .ok c) := by
  have hpos : 0 < (tiedCandidates msg_destination ru.m_weight_table entries).length := hN
  obtain ⟨c0, hc0⟩ : ∃ c0, c0 ∈ tiedCandidates msg_destination ru.m_weight_table entries :=
    ⟨_, List.getElem_mem hpos⟩
  obtain ⟨l0, e0, w0, hL0, he0, hi0, hw0, hall0⟩ :=
    (mem_tiedCandidates msg_destination ru.m_weight_table entries c0).1 hc0
  have hwt : ∀ (l : Nat) (e : D), entries[l]? = some e →
      NetDest.intersectionIsNotEmpty msg_destination e = true →
      ∃ w, ru.m_weight_table[l]? = some w := by
    intro l e he hi
    obtain ⟨w', hw', _⟩ := hall0 l e he hi
    exact ⟨w', hw'⟩
  have hex : ∃ (l : Nat) (e : D) (w : Int), entries[l]? = some e ∧
      NetDest.intersectionIsNotEmpty msg_destination e = true ∧
      ru.m_weight_table[l]? = some w ∧ w ≤ INFINITE_ :=
    ⟨l0, e0, w0, he0, hi0, hw0, hINF l0 w0 (hL0 ▸ hc0) hw0⟩
  have hall : ∀ rand : Nat, ∃ c,
      (tiedCandidates msg_destination ru.m_weight_table entries)[
        rand % (tiedCandidates msg_destination ru.m_weight_table entries).length]? = some c ∧
      lookupRoutingTable INFINITE_ ru rand vnet msg_destination = .ok c := by
    intro rand
    obtain ⟨_, L, hget, hL⟩ := lookupRoutingTable_returns INFINITE_ ru rand vnet
      msg_destination entries hv hrow hwt hex
    refine ⟨L, ?_, hL⟩
    simpa [hunord] using hget
  refine ⟨tiedCandidates_pairwise _ _ _, hall, ?_⟩
  intro c hc
  obtain ⟨i, hi, hget⟩ := List.getElem_of_mem hc
  obtain ⟨c', hc', hL⟩ := hall i
  rw [Nat.mod_eq_of_lt hi, List.getElem?_eq_getElem hi, hget] at hc'
  cases hc'
  exact ⟨i, hL⟩

/-- Witness for C5 (amended): links 0 and 1 of unordered virtual network 1 are
tied at weight 1. -/
theorem lookupRoutingTable_unordered_picks_rand_mod_witness :
    List.Pairwise (fun a b : Int => a < b)
      (tiedCandidates [0, 1, 2] (demoUnit .TABLE_ 0 [1, 1, 2]).m_weight_table
        [[0], [1], [2]]) ∧
    (∀ rand : Nat, ∃ c,
      (tiedCandidates [0, 1, 2] (demoUnit .TABLE_ 0 [1, 1, 2]).m_weight_table
        [[0], [1], [2]])[
        rand % (tiedCandidates [0, 1, 2] (demoUnit .TABLE_ 0 [1, 1, 2]).m_weight_table
          [[0], [1], [2]]).length]? = some c ∧
      lookupRoutingTable 10000 (demoUnit .TABLE_ 0 [1, 1, 2]) rand 1 [0, 1, 2] = .ok c) ∧
    (∀ c ∈ tiedCandidates [0, 1, 2] (demoUnit .TABLE_ 0 [1, 1, 2]).m_weight_table
        [[0], [1], [2]],
      ∃ rand : Nat,
        lookupRoutingTable 10000 (demoUnit .TABLE_ 0 [1, 1, 2]) rand 1 [0, 1, 2] = .ok c) :=
  lookupRoutingTable_unordered_picks_rand_mod 10000 (demoUnit .TABLE_ 0 [1, 1, 2]) 1
    [0, 1, 2] [[0], [1], [2]] (by decide) (by decide) (by decide) (by decide)
    (by
      intro l w hmem hw
      have htied : tiedCandidates [0, 1, 2] (demoUnit .TABLE_ 0 [1, 1, 2]).m_weight_table
          [[0], [1], [2]] = [0, 1] := by decide
      rw [htied] at hmem
      have hwt : (demoUnit .TABLE_ 0 [1, 1, 2]).m_weight_table = [1, 1, 2] := by decide
      rw [hwt] at hw
      simp only [List.mem_cons, List.mem_singleton, List.not_mem_nil, or_false] at hmem
      rcases hmem with h | h
      · have : l = 0 := by omega
        subst this
        simp at hw
        omega
      · have : l = 1 := by omega
        subst this
        simp at hw
        omega)

/-! ## Claims about the dispatcher and the port maps -/

/-- C6: if `route.dest_router` equals the current router id then, whatever the
configured algorithm, the random draws and the inbound port, `outportCompute`
returns exactly what `lookupRoutingTable(route.vnet, route.net_dest)` returns
(or stops as it stops), and leaves the routing unit and the flit's route as
they were: no topology algorithm has run. -/
theorem outportCompute_at_destination_is_table_lookup {D : Type} [NetDest D]
    (INFINITE_ : Int) (ru : RoutingUnit D) (rand : Nat) (random_mt : List Nat)
    (route : RouteInfo D) (inport : Int) (inport_dirn : PortDirection) (t_flit : RouteInfo D)
    (hdest : route.dest_router = ru.m_router.get_id) :
    (∀ L : Int, lookupRoutingTable INFINITE_ ru rand route.vnet route.net_dest = .ok L →
      outportCompute INFINITE_ ru rand random_mt route inport inport_dirn t_flit =
        .ok { outport := L, unit := ru, flit_route := t_flit }) ∧
    (∀ a : Abort, lookupRoutingTable INFINITE_ ru rand route.vnet route.net_dest = .error a →
      outportCompute INFINITE_ ru rand random_mt route inport inport_dirn t_flit =
        .error a) := by
  unfold outportCompute tableOutport
  simp only [hdest, if_true]
  constructor
  · intro L hL
    rw [hL]
  · intro a ha
    rw [ha]

/-- Witness for C6: router 4 of the mesh, configured for XY routing, receives a
flit for itself on its "West" port. -/
theorem outportCompute_at_destination_is_table_lookup_witness :
    (∀ L : Int, lookupRoutingTable 10000 (demoMeshUnit .XY_ 4) 0
        (demoRoute 0 [1] 3 4).vnet (demoRoute 0 [1] 3 4).net_dest = .ok L →
      outportCompute 10000 (demoMeshUnit .XY_ 4) 0 [] (demoRoute 0 [1] 3 4) 2 "West"
          (demoRoute 0 [1] 3 4) =
        .ok { outport := L, unit := demoMeshUnit .XY_ 4, flit_route := demoRoute 0 [1] 3 4 }) ∧
    (∀ a : Abort, lookupRoutingTable 10000 (demoMeshUnit .XY_ 4) 0
        (demoRoute 0 [1] 3 4).vnet (demoRoute 0 [1] 3 4).net_dest = .error a →
      outportCompute 10000 (demoMeshUnit .XY_ 4) 0 [] (demoRoute 0 [1] 3 4) 2 "West"
          (demoRoute 0 [1] 3 4) = .error a) :=
  outportCompute_at_destination_is_table_lookup 10000 (demoMeshUnit .XY_ 4) 0 []
    (demoRoute 0 [1] 3 4) 2 "West" (demoRoute 0 [1] 3 4) (by decide)

theorem mapFind_mapAssign_self {K V : Type} [DecidableEq K] (m : List (K × V)) (k : K) (v : V) :
    mapFind (mapAssign m k v) k = some v := by
  induction m with
  | nil => simp [mapFind, mapAssign]
  | cons p rest ih =>
    obtain ⟨k', v'⟩ := p
    unfold mapAssign
    by_cases hk : k' = k
    · simp [hk, mapFind]
    · simp only [hk, if_false]
      unfold mapFind at ih ⊢
      simp only [List.find?_cons, hk, decide_False]
      exact ih

/-- The port index the final map read returns: the registered index of the
label, or 0 for a label that was never registered. -/
theorem returnOutport_outport {D : Type} (ru : RoutingUnit D) (t_flit : RouteInfo D)
    (outport_dirn : PortDirection) :
    (returnOutport ru t_flit outport_dirn).outport =
      (mapFind ru.m_outports_dirn2idx outport_dirn).getD 0 := by
  unfold returnOutport mapIndex
  cases mapFind ru.m_outports_dirn2idx outport_dirn <;> rfl

/-- C7 (as stated, refuted): router 0 of the mesh has registered no outbound
direction; XY routing towards router 1 computes the label "East", which is
not registered, yet `outportComputeXY` and `outportCompute` do not fail: both
return port index 0 (and leave "East" in the map with index 0). -/
theorem outportCompute_unregistered_label_returns_zero :
    outportDirnXY (demoUnit .XY_ 0 []) (demoRoute 0 [1] 0 1) "Local" = .ok "East" ∧
    mapFind (demoUnit .XY_ 0 []).m_outports_dirn2idx "East" = none ∧
    (outportComputeXY (demoUnit .XY_ 0 []) (demoRoute 0 [1] 0 1) 0 "Local"
      (demoRoute 0 [1] 0 1)).map Routed.outport = .ok 0 ∧
    (outportCompute 10000 (demoUnit .XY_ 0 []) 0 [] (demoRoute 0 [1] 0 1) 0 "Local"
      (demoRoute 0 [1] 0 1)).map Routed.outport = .ok 0 ∧
    (outportCompute 10000 (demoUnit .XY_ 0 []) 0 [] (demoRoute 0 [1] 0 1) 0 "Local"
      (demoRoute 0 [1] 0 1)).map (fun r => r.unit.m_outports_dirn2idx) = .ok [("East", 0)] := by
  decide

/-- C7 (amended): `addOutDirection` registers its index for its label, and for
each topology algorithm a returning call returns the index registered for the
outbound direction label it computed when the label is registered; for a label
that was never registered the call does not fail but returns port index 0. -/
theorem outportCompute_returns_registered_index_or_zero {D : Type} (ru : RoutingUnit D)
    (random_mt : List Nat) (route : RouteInfo D) (inport : Int)
    (inport_dirn : PortDirection) (t_flit : RouteInfo D) (r : Routed D) :
    (∀ (d : PortDirection) (idx : Int),
      mapFind (addOutDirection ru d idx).m_outports_dirn2idx d = some idx) ∧
    (outportComputeXY ru route inport inport_dirn t_flit = .ok r →
      ∃ d, outportDirnXY ru route inport_dirn = .ok d ∧
        r.outport = (mapFind ru.m_outports_dirn2idx d).getD 0) ∧
    (outportComputeCustom ru route inport inport_dirn t_flit = .ok r →
      ∃ d, outportDirnCustom ru route inport_dirn = .ok d ∧
        r.outport = (mapFind ru.m_outports_dirn2idx d).getD 0) ∧
    (outportComputeDragonflyMinimal ru route inport inport_dirn t_flit = .ok r →
      ∃ d, outportDirnDragonflyMinimal ru route inport_dirn = .ok d ∧
        r.outport = (mapFind ru.m_outports_dirn2idx d).getD 0) ∧
    (outportComputeUGAL ru random_mt route inport inport_dirn t_flit = .ok r →
      ∃ d flit_route, outportDirnUGAL ru random_mt route inport_dirn t_flit
          = .ok (d, flit_route) ∧
        r.outport = (mapFind ru.m_outports_dirn2idx d).getD 0) ∧
    (outportComputeDragonflyVAL ru random_mt route inport inport_dirn t_flit = .ok r →
      ∃ d flit_route, outportDirnDragonflyVAL ru random_mt route inport_dirn t_flit
          = .ok (d, flit_route) ∧
        r.outport = (mapFind ru.m_outports_dirn2idx d).getD 0) := by
  refine ⟨?_, ?_, ?_, ?_, ?_, ?_⟩
  · intro d idx
    exact mapFind_mapAssign_self _ _ _
  · intro h
    unfold outportComputeXY at h
    cases hd : outportDirnXY ru route inport_dirn with
    | error a => rw [hd] at h; cases h
    | ok d =>
      rw [hd] at h
      cases h
      exact ⟨d, rfl, returnOutport_outport ru t_flit d⟩
  · intro h
    unfold outportComputeCustom at h
    cases hd : outportDirnCustom ru route inport_dirn with
    | error a => rw [hd] at h; cases h
    | ok d =>
      rw [hd] at h
      cases h
      exact ⟨d, rfl, returnOutport_outport ru t_flit d⟩
  · intro h
    unfold outportComputeDragonflyMinimal at h
    cases hd : outportDirnDragonflyMinimal ru route inport_dirn with
    | error a => rw [hd] at h; cases h
    | ok d =>
      rw [hd] at h
      cases h
      exact ⟨d, rfl, returnOutport_outport ru t_flit d⟩
  · intro h
    unfold outportComputeUGAL at h
    cases hd : outportDirnUGAL ru random_mt route inport_dirn t_flit with
    | error a => rw [hd] at h; cases h
    | ok p =>
      obtain ⟨d, fr⟩ := p
      rw [hd] at h
      cases h
      exact ⟨d, fr, rfl, returnOutport_outport ru fr d⟩
  · intro h
    unfold outportComputeDragonflyVAL at h
    cases hd : outportDirnDragonflyVAL ru random_mt route inport_dirn t_flit with
    | error a => rw [hd] at h; cases h
    | ok p =>
      obtain ⟨d, fr⟩ := p
      rw [hd] at h
      cases h
      exact ⟨d, fr, rfl, returnOutport_outport ru fr d⟩

/-! ## Claims about mesh XY routing -/

/-- The decision tree of `outportComputeXY` in terms of the two coordinates. -/
theorem outportDirnXY_eq {D : Type} (ru : RoutingUnit D) (route : RouteInfo D)
    (inport_dirn : PortDirection)
    (hr : 0 < ru.m_router.get_net_ptr.getNumRows)
    (hc : 0 < ru.m_router.get_net_ptr.getNumCols) :
    outportDirnXY ru route inport_dirn =
      if route.dest_router.tmod ru.m_router.get_net_ptr.getNumCols >
          ru.m_router.get_id.tmod ru.m_router.get_net_ptr.getNumCols then
        (if inport_dirn = "Local" ∨ inport_dirn = "West" then .ok "East"
         else .error Abort.assertion)
      else if route.dest_router.tmod ru.m_router.get_net_ptr.getNumCols <
          ru.m_router.get_id.tmod ru.m_router.get_net_ptr.getNumCols then
        (if inport_dirn = "Local" ∨ inport_dirn = "East" then .ok "West"
         else .error Abort.assertion)
      else if route.dest_router.tdiv ru.m_router.get_net_ptr.getNumCols >
          ru.m_router.get_id.tdiv ru.m_router.get_net_ptr.getNumCols then
        (if inport_dirn ≠ "North" then .ok "North" else .error Abort.assertion)
      else if route.dest_router.tdiv ru.m_router.get_net_ptr.getNumCols <
          ru.m_router.get_id.tdiv ru.m_router.get_net_ptr.getNumCols then
        (if inport_dirn ≠ "South" then .ok "South" else .error Abort.assertion)
      else .error Abort.assertion := by
  have h0 : ¬ ¬ (ru.m_router.get_net_ptr.getNumRows > 0 ∧
      ru.m_router.get_net_ptr.getNumCols > 0) := not_not.2 ⟨hr, hc⟩
  simp only [outportDirnXY, h0, if_false, decide_eq_true_eq, gt_iff_lt, ge_iff_le, not_not]
  generalize route.dest_router.tmod ru.m_router.get_net_ptr.getNumCols = dx
  generalize ru.m_router.get_id.tmod ru.m_router.get_net_ptr.getNumCols = x
  generalize route.dest_router.tdiv ru.m_router.get_net_ptr.getNumCols = dy
  generalize ru.m_router.get_id.tdiv ru.m_router.get_net_ptr.getNumCols = y
  have hx0 : (((dx - x).natAbs : Int) = 0) ↔ dx = x := by omega
  have hy0 : (((dy - y).natAbs : Int) = 0) ↔ dy = y := by omega
  have hx1 : (0 < ((dx - x).natAbs : Int)) ↔ dx ≠ x := by omega
  have hy1 : (0 < ((dy - y).natAbs : Int)) ↔ dy ≠ y := by omega
  simp only [hx0, hy0, hx1, hy1]
  rcases lt_trichotomy x dx with hlt | heq | hgt
  · have h2 : dx ≠ x := by omega
    have h3 : x ≤ dx := by omega
    simp only [h2, h3, hlt, false_and, if_true, if_false, ne_eq, not_false_eq_true]
    split_ifs <;> rfl
  · subst heq
    simp only [lt_irrefl, if_false, true_and, ne_eq, not_true_eq_false]
    rcases lt_trichotomy y dy with hlt | heq | hgt
    · have h1 : ¬ (dy = y) := by omega
      have h3 : y ≤ dy := by omega
      simp only [h1, h3, hlt, if_true, if_false, not_false_eq_true]
      split_ifs <;> rfl
    · subst heq
      simp
    · have h1 : ¬ (dy = y) := by omega
      have h3 : ¬ y ≤ dy := by omega
      have h4 : ¬ y < dy := by omega
      simp only [h1, h3, h4, hgt, if_true, if_false, not_false_eq_true]
      split_ifs <;> rfl
  · have h2 : dx ≠ x := by omega
    have h3 : ¬ x ≤ dx := by omega
    have h4 : ¬ x < dx := by omega
    simp only [h2, h3, h4, hgt, false_and, if_true, if_false, ne_eq, not_false_eq_true]
    split_ifs <;> rfl

/-- C8: whenever `outportComputeXY` returns, with column = id mod W and row =
id / W (the `%` and `/` of the source, which are mod and div on node ids), the
outbound direction whose port it returns is "East" if the destination column
is greater than the current column, "West" if it is smaller, and only when the
columns are equal is it "North" (destination row greater) or "South"
(destination row smaller). -/
theorem outportComputeXY_direction {D : Type} (ru : RoutingUnit D) (route : RouteInfo D)
    (inport : Int) (inport_dirn : PortDirection) (t_flit : RouteInfo D) (r : Routed D)
    (h : outportComputeXY ru route inport inport_dirn t_flit = .ok r) :
    0 < ru.m_router.get_net_ptr.getNumCols ∧
    ∃ d, outportDirnXY ru route inport_dirn = .ok d ∧ r = returnOutport ru t_flit d ∧
      (route.dest_router.tmod ru.m_router.get_net_ptr.getNumCols >
          ru.m_router.get_id.tmod ru.m_router.get_net_ptr.getNumCols → d = "East") ∧
      (route.dest_router.tmod ru.m_router.get_net_ptr.getNumCols <
          ru.m_router.get_id.tmod ru.m_router.get_net_ptr.getNumCols → d = "West") ∧
      (d = "North" ∨ d = "South" →
        route.dest_router.tmod ru.m_router.get_net_ptr.getNumCols =
          ru.m_router.get_id.tmod ru.m_router.get_net_ptr.getNumCols) ∧
      (route.dest_router.tmod ru.m_router.get_net_ptr.getNumCols =
          ru.m_router.get_id.tmod ru.m_router.get_net_ptr.getNumCols →
        (route.dest_router.tdiv ru.m_router.get_net_ptr.getNumCols >
            ru.m_router.get_id.tdiv ru.m_router.get_net_ptr.getNumCols → d = "North") ∧
        (route.dest_router.tdiv ru.m_router.get_net_ptr.getNumCols <
            ru.m_router.get_id.tdiv ru.m_router.get_net_ptr.getNumCols → d = "South")) := by
  unfold outportComputeXY at h
  cases hd : outportDirnXY ru route inport_dirn with
  | error a => rw [hd] at h; cases h
  | ok d =>
    rw [hd] at h
    cases h
    have hrc : ru.m_router.get_net_ptr.getNumRows > 0 ∧
        ru.m_router.get_net_ptr.getNumCols > 0 := by
      by_contra hn
      simp only [outportDirnXY, hn, not_false_eq_true, if_true] at hd
      cases hd
    refine ⟨hrc.2, d, rfl, rfl, ?_⟩
    rw [outportDirnXY_eq ru route inport_dirn hrc.1 hrc.2] at hd
    generalize route.dest_router.tmod ru.m_router.get_net_ptr.getNumCols = dx at hd ⊢
    generalize ru.m_router.get_id.tmod ru.m_router.get_net_ptr.getNumCols = x at hd ⊢
    generalize route.dest_router.tdiv ru.m_router.get_net_ptr.getNumCols = dy at hd ⊢
    generalize ru.m_router.get_id.tdiv ru.m_router.get_net_ptr.getNumCols = y at hd ⊢
    have hNE : "East" ≠ "North" ∧ "East" ≠ "South" ∧ "West" ≠ "North" ∧ "West" ≠ "South" := by
      decide
    split_ifs at hd with h1 h2 h3 h4 h5 h6 h7 h8
    all_goals cases hd
    all_goals
      refine ⟨?_, ?_, ?_, ?_⟩
      · intro hh; first | rfl | omega
      · intro hh; first | rfl | omega
      · intro hh
        first
          | omega
          | (rcases hh with hh | hh
             · first | exact absurd hh hNE.1 | exact absurd hh hNE.2.2.1
             · first | exact absurd hh hNE.2.1 | exact absurd hh hNE.2.2.2)
      · intro hh
        refine ⟨?_, ?_⟩
        · intro hh'; first | rfl | omega
        · intro hh'; first | rfl | omega

/-- Witness for C8: from router 0 of the 3 x 3 mesh towards router 5 (column 2,
row 1) the call returns, and the direction is "East". -/
theorem outportComputeXY_direction_witness :
    0 < (demoMeshUnit .XY_ 0).m_router.get_net_ptr.getNumCols ∧
    ∃ d, outportDirnXY (demoMeshUnit .XY_ 0) (demoRoute 0 [1] 0 5) "Local" = .ok d ∧
      returnOutport (demoMeshUnit .XY_ 0) (demoRoute 0 [1] 0 5) "East"
        = returnOutport (demoMeshUnit .XY_ 0) (demoRoute 0 [1] 0 5) d ∧
      ((demoRoute 0 [1] 0 5).dest_router.tmod (demoMeshUnit .XY_ 0).m_router.get_net_ptr.getNumCols >
          (demoMeshUnit .XY_ 0).m_router.get_id.tmod
            (demoMeshUnit .XY_ 0).m_router.get_net_ptr.getNumCols → d = "East") ∧
      ((demoRoute 0 [1] 0 5).dest_router.tmod (demoMeshUnit .XY_ 0).m_router.get_net_ptr.getNumCols <
          (demoMeshUnit .XY_ 0).m_router.get_id.tmod
            (demoMeshUnit .XY_ 0).m_router.get_net_ptr.getNumCols → d = "West") ∧
      (d = "North" ∨ d = "South" →
        (demoRoute 0 [1] 0 5).dest_router.tmod
            (demoMeshUnit .XY_ 0).m_router.get_net_ptr.getNumCols =
          (demoMeshUnit .XY_ 0).m_router.get_id.tmod
            (demoMeshUnit .XY_ 0).m_router.get_net_ptr.getNumCols) ∧
      ((demoRoute 0 [1] 0 5).dest_router.tmod
            (demoMeshUnit .XY_ 0).m_router.get_net_ptr.getNumCols =
          (demoMeshUnit .XY_ 0).m_router.get_id.tmod
            (demoMeshUnit .XY_ 0).m_router.get_net_ptr.getNumCols →
        ((demoRoute 0 [1] 0 5).dest_router.tdiv
              (demoMeshUnit .XY_ 0).m_router.get_net_ptr.getNumCols >
            (demoMeshUnit .XY_ 0).m_router.get_id.tdiv
              (demoMeshUnit .XY_ 0).m_router.get_net_ptr.getNumCols → d = "North") ∧
        ((demoRoute 0 [1] 0 5).dest_router.tdiv
              (demoMeshUnit .XY_ 0).m_router.get_net_ptr.getNumCols <
            (demoMeshUnit .XY_ 0).m_router.get_id.tdiv
              (demoMeshUnit .XY_ 0).m_router.get_net_ptr.getNumCols → d = "South")) :=
  outportComputeXY_direction (demoMeshUnit .XY_ 0) (demoRoute 0 [1] 0 5) 0 "Local"
    (demoRoute 0 [1] 0 5)
    (returnOutport (demoMeshUnit .XY_ 0) (demoRoute 0 [1] 0 5) "East") rfl

/-! ## The mesh walk -/

/-- The coordinates the source computes with `%` and `/` from a row-major id. -/
theorem tmod_tdiv_coords (W x y : Int) (hW : 0 < W) (hx : 0 ≤ x) (hxW : x < W) (hy : 0 ≤ y) :
    (y * W + x).tmod W = x ∧ (y * W + x).tdiv W = y := by
  have hn : 0 ≤ y * W + x := by positivity
  rw [Int.tmod_eq_emod hn hW.le, Int.tdiv_eq_ediv hn hW.le]
  have := (Int.ediv_emod_unique hW).2 ⟨show x + W * y = y * W + x by ring, hx, hxW⟩
  exact ⟨this.2, this.1⟩

theorem columnThenRowPath_zero : columnThenRowPath 0 0 = [] := by
  decide

theorem columnThenRowPath_east (c r : Int) (hc : 0 < c) :
    columnThenRowPath c r = "East" :: columnThenRowPath (c - 1) r := by
  unfold columnThenRowPath
  have h1 : c.natAbs = (c - 1).natAbs + 1 := by omega
  rw [h1, List.replicate_succ, if_pos hc]
  by_cases h0 : 0 < c - 1
  · rw [if_pos h0]; rfl
  · have : (c - 1).natAbs = 0 := by omega
    rw [this]; rfl

theorem columnThenRowPath_west (c r : Int) (hc : c < 0) :
    columnThenRowPath c r = "West" :: columnThenRowPath (c + 1) r := by
  unfold columnThenRowPath
  have h1 : c.natAbs = (c + 1).natAbs + 1 := by omega
  have hn : ¬ 0 < c := by omega
  have hn' : ¬ 0 < c + 1 := by omega
  rw [h1, List.replicate_succ, if_neg hn, if_neg hn']
  rfl

theorem columnThenRowPath_north (r : Int) (hr : 0 < r) :
    columnThenRowPath 0 r = "North" :: columnThenRowPath 0 (r - 1) := by
  unfold columnThenRowPath
  have h1 : r.natAbs = (r - 1).natAbs + 1 := by omega
  rw [h1, List.replicate_succ, if_pos hr]
  by_cases h0 : 0 < r - 1
  · rw [if_pos h0]; rfl
  · have : (r - 1).natAbs = 0 := by omega
    rw [this]; rfl

theorem columnThenRowPath_south (r : Int) (hr : r < 0) :
    columnThenRowPath 0 r = "South" :: columnThenRowPath 0 (r + 1) := by
  unfold columnThenRowPath
  have h1 : r.natAbs = (r + 1).natAbs + 1 := by omega
  have hn : ¬ 0 < r := by omega
  have hn' : ¬ 0 < r + 1 := by omega
  rw [h1, List.replicate_succ, if_neg hn, if_neg hn']
  rfl

/-- The decision of `outportComputeXY` at the router of coordinates `(x, y)` for
the destination of coordinates `(dx, dy)`. -/
theorem outportDirnXY_coords {D : Type} (ru : RoutingUnit D) (route : RouteInfo D)
    (inport_dirn : PortDirection) (W H x y dx dy : Int) (hW : 0 < W) (hH : 0 < H)
    (hid : ru.m_router.get_id = y * W + x)
    (hrows : ru.m_router.get_net_ptr.getNumRows = H)
    (hcols : ru.m_router.get_net_ptr.getNumCols = W)
    (hdest : route.dest_router = dy * W + dx)
    (hx : 0 ≤ x) (hxW : x < W) (hy : 0 ≤ y) (hdx : 0 ≤ dx) (hdxW : dx < W) (hdy : 0 ≤ dy) :
    outportDirnXY ru route inport_dirn =
      if dx > x then
        (if inport_dirn = "Local" ∨ inport_dirn = "West" then .ok "East"
         else .error Abort.assertion)
      else if dx < x then
        (if inport_dirn = "Local" ∨ inport_dirn = "East" then .ok "West"
         else .error Abort.assertion)
      else if dy > y then
        (if inport_dirn ≠ "North" then .ok "North" else .error Abort.assertion)
      else if dy < y then
        (if inport_dirn ≠ "South" then .ok "South" else .error Abort.assertion)
      else .error Abort.assertion := by
  rw [outportDirnXY_eq ru route inport_dirn (by rw [hrows]; exact hH) (by rw [hcols]; exact hW)]
  rw [hid, hcols, hdest]
  obtain ⟨h1, h2⟩ := tmod_tdiv_coords W x y hW hx hxW hy
  obtain ⟨h3, h4⟩ := tmod_tdiv_coords W dx dy hW hdx hdxW hdy
  rw [h1, h2, h3, h4]

theorem walkXY_arrived {D : Type} (units : Int → RoutingUnit D) (route : RouteInfo D)
    (fuel : Nat) (cur : Int) (inport_dirn : PortDirection) (h : cur = route.dest_router) :
    walkXY units route fuel cur inport_dirn = .ok [] := by
  unfold walkXY
  simp [h]

theorem walkXY_step {D : Type} (units : Int → RoutingUnit D) (route : RouteInfo D)
    (fuel : Nat) (cur : Int) (inport_dirn d : PortDirection) (ds : List PortDirection)
    (h : cur ≠ route.dest_router)
    (hd : outportDirnXY (units cur) route inport_dirn = .ok d)
    (hrest : walkXY units route fuel
      (meshNext (units cur).m_router.get_net_ptr.getNumCols cur d) (oppositeDirn d) = .ok ds) :
    walkXY units route (fuel + 1) cur inport_dirn = .ok (d :: ds) := by
  rw [walkXY]
  simp only [h, if_false, hd, hrest]

theorem oppositeDirn_east : oppositeDirn "East" = "West" := by decide

theorem oppositeDirn_west : oppositeDirn "West" = "East" := by decide

theorem oppositeDirn_north : oppositeDirn "North" = "South" := by decide

theorem oppositeDirn_south : oppositeDirn "South" = "North" := by decide

theorem hops_pos (a b c d : Int) (n : Nat)
    (h : (b - a).natAbs + (d - c).natAbs = n + 1) : ¬ (a = b ∧ c = d) := by
  omega

theorem hops_zero (a b c d : Int) (h : (b - a).natAbs + (d - c).natAbs = 0) :
    a = b ∧ c = d := by
  omega

theorem hops_up (a b : Int) (k n : Nat) (hlt : a < b)
    (h : (b - a).natAbs + k = n + 1) : (b - (a + 1)).natAbs + k = n := by
  omega

theorem hops_down (a b : Int) (k n : Nat) (hlt : b < a)
    (h : (b - a).natAbs + k = n + 1) : (b - (a - 1)).natAbs + k = n := by
  omega

theorem hops_up_row (a c d : Int) (n : Nat) (hlt : c < d)
    (h : (a - a).natAbs + (d - c).natAbs = n + 1) :
    (a - a).natAbs + (d - (c + 1)).natAbs = n := by
  omega

theorem hops_down_row (a c d : Int) (n : Nat) (hlt : d < c)
    (h : (a - a).natAbs + (d - c).natAbs = n + 1) :
    (a - a).natAbs + (d - (c - 1)).natAbs = n := by
  omega

/-- The walk from coordinates `(x, y)` to `(dx, dy)`, entered on a port the
sanity assertions accept. -/
theorem walkXY_coords {D : Type} (units : Int → RoutingUnit D) (route : RouteInfo D)
    (W H dx dy : Int) (hW : 0 < W) (hH : 0 < H)
    (hunits : ∀ id : Int, (units id).m_router.get_id = id ∧
      (units id).m_router.get_net_ptr.getNumRows = H ∧
      (units id).m_router.get_net_ptr.getNumCols = W)
    (hdx : 0 ≤ dx) (hdxW : dx < W) (hdy : 0 ≤ dy)
    (hdest : route.dest_router = dy * W + dx) :
    ∀ (n : Nat) (x y : Int) (inport_dirn : PortDirection) (fuel : Nat),
      0 ≤ x → x < W → 0 ≤ y → (dx - x).natAbs + (dy - y).natAbs = n → n ≤ fuel →
      (x < dx → inport_dirn = "Local" ∨ inport_dirn = "West") →
      (dx < x → inport_dirn = "Local" ∨ inport_dirn = "East") →
      (x = dx → y < dy → inport_dirn ≠ "North") →
      (x = dx → dy < y → inport_dirn ≠ "South") →
      walkXY units route fuel (y * W + x) inport_dirn
        = .ok (columnThenRowPath (dx - x) (dy - y)) := by
  intro n
  induction n with
  | zero =>
    intro x y inport_dirn fuel hx hxW hy hn _ _ _ _ _
    obtain ⟨hxe, hye⟩ := hops_zero x dx y dy hn
    subst hxe hye
    rw [walkXY_arrived units route fuel _ inport_dirn hdest.symm]
    simp only [sub_self, columnThenRowPath_zero]
  | succ n ih =>
    intro x y inport_dirn fuel hx hxW hy hn hfuel hE hWst hN hS
    obtain ⟨f, rfl⟩ : ∃ f, fuel = f + 1 := ⟨fuel - 1, by clear hn hE hWst hN hS ih; omega⟩
    have hf : n ≤ f := Nat.le_of_succ_le_succ hfuel
    have hne : y * W + x ≠ route.dest_router := by
      intro heq
      rw [hdest] at heq
      obtain ⟨h1, h2⟩ := tmod_tdiv_coords W x y hW hx hxW hy
      obtain ⟨h3, h4⟩ := tmod_tdiv_coords W dx dy hW hdx hdxW hdy
      rw [heq, h3] at h1
      rw [heq, h4] at h2
      exact hops_pos x dx y dy n hn ⟨h1.symm, h2.symm⟩
    obtain ⟨hid, hrows, hcols⟩ := hunits (y * W + x)
    have htree := outportDirnXY_coords (units (y * W + x)) route inport_dirn W H x y dx dy
      hW hH hid hrows hcols hdest hx hxW hy hdx hdxW hdy
    rcases lt_trichotomy x dx with hlt | heq | hgt
    · -- a hop East
      have hd : outportDirnXY (units (y * W + x)) route inport_dirn = .ok "East" := by
        rw [htree, if_pos hlt, if_pos (hE hlt)]
      have hnext : meshNext (units (y * W + x)).m_router.get_net_ptr.getNumCols
          (y * W + x) "East" = y * W + (x + 1) := by
        simp only [meshNext, if_true]; ring
      have hrest := ih (x + 1) y "West" f (Int.add_nonneg hx Int.one_nonneg)
        (lt_of_le_of_lt (Int.add_one_le_of_lt hlt) hdxW) hy
        (hops_up x dx _ n hlt hn) hf
        (fun _ => Or.inr rfl) (fun h => absurd (Int.add_one_le_of_lt hlt) (not_le.2 h))
        (fun _ _ => by decide) (fun _ _ => by decide)
      rw [← hnext, ← oppositeDirn_east] at hrest
      rw [walkXY_step units route f _ inport_dirn "East" _ hne hd hrest,
        columnThenRowPath_east (dx - x) (dy - y) (sub_pos.2 hlt)]
      congr 3
      ring
    · -- a row hop
      subst heq
      rcases lt_trichotomy y dy with hlty | heqy | hgty
      · have hd : outportDirnXY (units (y * W + x)) route inport_dirn = .ok "North" := by
          rw [htree, if_neg (lt_irrefl x), if_neg (lt_irrefl x), if_pos hlty,
            if_pos (hN rfl hlty)]
        have hnext : meshNext (units (y * W + x)).m_router.get_net_ptr.getNumCols
            (y * W + x) "North" = (y + 1) * W + x := by
          have e1 : ("North" : String) ≠ "East" := by decide
          have e2 : ("North" : String) ≠ "West" := by decide
          simp only [meshNext, e1, e2, if_false, if_true, hcols]; ring
        have hrest := ih x (y + 1) "South" f hx hxW (Int.add_nonneg hy Int.one_nonneg)
          (hops_up_row x y dy n hlty hn) hf
          (fun h => absurd h (lt_irrefl x)) (fun h => absurd h (lt_irrefl x))
          (fun _ _ => by decide)
          (fun _ h => absurd (Int.add_one_le_of_lt hlty) (not_le.2 h))
        rw [← hnext, ← oppositeDirn_north] at hrest
        rw [walkXY_step units route f _ inport_dirn "North" _ hne hd hrest]
        simp only [sub_self]
        rw [columnThenRowPath_north (dy - y) (sub_pos.2 hlty)]
        congr 3
        ring
      · exact absurd ⟨rfl, heqy⟩ (hops_pos x x y dy n hn)
      · have hd : outportDirnXY (units (y * W + x)) route inport_dirn = .ok "South" := by
          rw [htree, if_neg (lt_irrefl x), if_neg (lt_irrefl x), if_neg (not_lt.2 hgty.le),
            if_pos hgty, if_pos (hS rfl hgty)]
        have hnext : meshNext (units (y * W + x)).m_router.get_net_ptr.getNumCols
            (y * W + x) "South" = (y - 1) * W + x := by
          have e1 : ("South" : String) ≠ "East" := by decide
          have e2 : ("South" : String) ≠ "West" := by decide
          have e3 : ("South" : String) ≠ "North" := by decide
          simp only [meshNext, e1, e2, e3, if_false, if_true, hcols]; ring
        have hy1 : 0 ≤ y - 1 := by clear hn hE hWst hN hS ih htree hd hnext; omega
        have hrest := ih x (y - 1) "North" f hx hxW hy1
          (hops_down_row x y dy n hgty hn) hf
          (fun h => absurd h (lt_irrefl x)) (fun h => absurd h (lt_irrefl x))
          (fun _ h => absurd (Int.le_sub_one_of_lt hgty) (not_le.2 h))
          (fun _ _ => by decide)
        rw [← hnext, ← oppositeDirn_south] at hrest
        rw [walkXY_step units route f _ inport_dirn "South" _ hne hd hrest]
        simp only [sub_self]
        rw [columnThenRowPath_south (dy - y) (sub_neg.2 hgty)]
        congr 3
        ring
    · -- a hop West
      have hd : outportDirnXY (units (y * W + x)) route inport_dirn = .ok "West" := by
        rw [htree, if_neg (not_lt.2 hgt.le), if_pos hgt, if_pos (hWst hgt)]
      have hnext : meshNext (units (y * W + x)).m_router.get_net_ptr.getNumCols
          (y * W + x) "West" = y * W + (x - 1) := by
        have e1 : ("West" : String) ≠ "East" := by decide
        simp only [meshNext, e1, if_false, if_true]; ring
      have hx1 : 0 ≤ x - 1 := by clear hn hE hWst hN hS ih htree hd hnext; omega
      have hx2 : x - 1 < W := by clear hn hE hWst hN hS ih htree hd hnext; omega
      have hrest := ih (x - 1) y "East" f hx1 hx2 hy
        (hops_down x dx _ n hgt hn) hf
        (fun h => absurd (Int.le_sub_one_of_lt hgt) (not_le.2 h)) (fun _ => Or.inr rfl)
        (fun _ _ => by decide) (fun _ _ => by decide)
      rw [← hnext, ← oppositeDirn_west] at hrest
      rw [walkXY_step units route f _ inport_dirn "West" _ hne hd hrest,
        columnThenRowPath_west (dx - x) (dy - y) (sub_neg.2 hgt)]
      congr 3
      ring

theorem walkXY_foldl {D : Type} (units : Int → RoutingUnit D) (route : RouteInfo D) (W : Int)
    (hcols : ∀ id : Int, (units id).m_router.get_net_ptr.getNumCols = W) :
    ∀ (fuel : Nat) (cur : Int) (inport_dirn : PortDirection) (ds : List PortDirection),
      walkXY units route fuel cur inport_dirn = .ok ds →
      ds.foldl (meshNext W) cur = route.dest_router := by
  intro fuel
  induction fuel with
  | zero =>
    intro cur inport_dirn ds h
    rw [walkXY] at h
    by_cases hc : cur = route.dest_router
    · simp only [hc, if_true] at h
      cases h
      exact hc
    · simp only [hc, if_false] at h
      cases h
  | succ f ih =>
    intro cur inport_dirn ds h
    rw [walkXY] at h
    by_cases hc : cur = route.dest_router
    · simp only [hc, if_true] at h
      cases h
      exact hc
    · simp only [hc, if_false] at h
      cases hd : outportDirnXY (units cur) route inport_dirn with
      | error a => rw [hd] at h; cases h
      | ok d =>
        rw [hd] at h
        simp only at h
        cases hrest : walkXY units route f
            (meshNext (units cur).m_router.get_net_ptr.getNumCols cur d) (oppositeDirn d) with
        | error a => rw [hrest] at h; cases h
        | ok ds' =>
          rw [hrest] at h
          cases h
          have := ih _ _ _ hrest
          rw [hcols cur] at this
          simpa using this

theorem columnThenRowPath_length (dcol drow : Int) :
    (columnThenRowPath dcol drow).length = dcol.natAbs + drow.natAbs := by
  simp [columnThenRowPath]

/-- C9: on a row-major mesh of width `W` with `H` rows, where the directions
move a flit to `id + 1`, `id - 1`, `id + W`, `id - W` and the flit enters the
next node on the opposite-named port, starting on "Local", iterating
`outportComputeXY` from a node to a node trips no assertion, makes all its
column hops (East or West) before any row hop (North or South), takes exactly
`|dcol| + |drow|` hops and ends at the destination, for every hop budget of at
least that many hops. -/
theorem walkXY_column_first_exact_hops {D : Type} (units : Int → RoutingUnit D)
    (route : RouteInfo D) (W H src : Int) (fuel : Nat) (hW : 0 < W) (hH : 0 < H)
    (hunits : ∀ id : Int, (units id).m_router.get_id = id ∧
      (units id).m_router.get_net_ptr.getNumRows = H ∧
      (units id).m_router.get_net_ptr.getNumCols = W)
    (hsrc : 0 ≤ src) (hdst : 0 ≤ route.dest_router)
    (hfuel : (route.dest_router % W - src % W).natAbs +
      (route.dest_router / W - src / W).natAbs ≤ fuel) :
    walkXY units route fuel src "Local" =
      .ok (columnThenRowPath (route.dest_router % W - src % W)
        (route.dest_router / W - src / W)) ∧
    (columnThenRowPath (route.dest_router % W - src % W)
        (route.dest_router / W - src / W)).length =
      (route.dest_router % W - src % W).natAbs + (route.dest_router / W - src / W).natAbs ∧
    (columnThenRowPath (route.dest_router % W - src % W)
        (route.dest_router / W - src / W)).foldl (meshNext W) src = route.dest_router := by
  have hsrc_eq : src = src / W * W + src % W := by
    have := Int.ediv_add_emod src W
    linarith [mul_comm W (src / W)]
  have hdst_eq : route.dest_router = route.dest_router / W * W + route.dest_router % W := by
    have := Int.ediv_add_emod route.dest_router W
    linarith [mul_comm W (route.dest_router / W)]
  have hwalk : walkXY units route fuel src "Local" =
      .ok (columnThenRowPath (route.dest_router % W - src % W)
        (route.dest_router / W - src / W)) := by
    have := walkXY_coords units route W H (route.dest_router % W) (route.dest_router / W)
      hW hH hunits (Int.emod_nonneg _ hW.ne') (Int.emod_lt_of_pos _ hW)
      (Int.ediv_nonneg hdst hW.le) hdst_eq _ (src % W) (src / W) "Local" fuel
      (Int.emod_nonneg _ hW.ne') (Int.emod_lt_of_pos _ hW) (Int.ediv_nonneg hsrc hW.le)
      rfl hfuel (fun _ => Or.inl rfl) (fun _ => Or.inl rfl)
      (fun _ _ => by decide) (fun _ _ => by decide)
    rwa [← hsrc_eq] at this
  exact ⟨hwalk, columnThenRowPath_length _ _,
    walkXY_foldl units route W (fun id => (hunits id).2.2) fuel src "Local" _ hwalk⟩

/-- Witness for C9: from node 8 to node 0 of the 3 x 3 mesh. -/
theorem walkXY_column_first_exact_hops_witness :
    walkXY (fun id => demoMeshUnit .XY_ id) (demoRoute 0 [1] 8 0) 4 8 "Local" =
      .ok (columnThenRowPath ((demoRoute 0 [1] 8 0).dest_router % 3 - 8 % 3)
        ((demoRoute 0 [1] 8 0).dest_router / 3 - 8 / 3)) ∧
    (columnThenRowPath ((demoRoute 0 [1] 8 0).dest_router % 3 - 8 % 3)
        ((demoRoute 0 [1] 8 0).dest_router / 3 - 8 / 3)).length =
      ((demoRoute 0 [1] 8 0).dest_router % 3 - 8 % 3).natAbs +
        ((demoRoute 0 [1] 8 0).dest_router / 3 - 8 / 3).natAbs ∧
    (columnThenRowPath ((demoRoute 0 [1] 8 0).dest_router % 3 - 8 % 3)
        ((demoRoute 0 [1] 8 0).dest_router / 3 - 8 / 3)).foldl (meshNext 3) 8 =
      (demoRoute 0 [1] 8 0).dest_router :=
  walkXY_column_first_exact_hops (fun id => demoMeshUnit .XY_ id) (demoRoute 0 [1] 8 0)
    3 3 8 4 (by decide) (by decide) (fun _ => ⟨rfl, rfl, rfl⟩) (by decide) (by decide)
    (by decide)

/-! ## The ring walk -/

/-- The clockwise distance between two ring positions, without `%`. -/
theorem ring_sub_emod (N a b : Int) (ha : 0 ≤ a) (haN : a < N) (hb : 0 ≤ b) (hbN : b < N) :
    (b - a) % N = if a ≤ b then b - a else b - a + N := by
  split
  · exact Int.emod_eq_of_lt (by omega) (by omega)
  · rw [← @Int.add_emod_self (b - a) N]
    exact Int.emod_eq_of_lt (by omega) (by omega)

theorem ring_succ_emod (N a : Int) (ha : 0 ≤ a) (haN : a < N) :
    (a + 1) % N = if a + 1 < N then a + 1 else 0 := by
  split
  · exact Int.emod_eq_of_lt (by omega) (by omega)
  · have : a + 1 = N := by omega
    rw [this, Int.emod_self]

theorem ring_pred_emod (N a : Int) (ha : 0 ≤ a) (haN : a < N) :
    (a - 1) % N = if 1 ≤ a then a - 1 else N - 1 := by
  split
  · exact Int.emod_eq_of_lt (by omega) (by omega)
  · have : a = 0 := by omega
    subst this
    have h : (0 - 1 + N) % N = 0 - 1 + N := Int.emod_eq_of_lt (by omega) (by omega)
    rw [← @Int.add_emod_self (0 - 1) N, h]
    omega

/-- The decision of `outportComputeCustom` between two distinct ring positions,
in terms of the clockwise distance. -/
theorem outportDirnCustom_eq {D : Type} (ru : RoutingUnit D) (route : RouteInfo D)
    (inport_dirn : PortDirection) (N my dest : Int) (hN : 0 < N)
    (hid : ru.m_router.get_id = my) (hnum : ru.m_router.get_net_ptr.getNumRouters = N)
    (hdest : route.dest_router = dest)
    (hmy : 0 ≤ my) (hmyN : my < N) (hd : 0 ≤ dest) (hdN : dest < N) (hne : my ≠ dest) :
    outportDirnCustom ru route inport_dirn =
      if (dest - my) % N ≤ N / 2 then
        (if inport_dirn = "Local" ∨ inport_dirn = "West" then .ok "East"
         else .error Abort.assertion)
      else
        (if inport_dirn = "Local" ∨ inport_dirn = "East" then .ok "West"
         else .error Abort.assertion) := by
  have h1 : (dest - my + N).tmod N = (dest - my) % N := by
    rw [Int.tmod_eq_emod (by omega) hN.le, Int.add_emod_self]
  have h2 : (my - dest + N).tmod N = (my - dest) % N := by
    rw [Int.tmod_eq_emod (by omega) hN.le, Int.add_emod_self]
  have h3 : N.tdiv 2 = N / 2 := Int.tdiv_eq_ediv hN.le (by decide)
  have hcw := ring_sub_emod N my dest hmy hmyN hd hdN
  have hccw := ring_sub_emod N dest my hd hdN hmy hmyN
  have hcwpos : ¬ (dest - my) % N ≤ 0 := by
    rw [hcw]; split <;> omega
  have hccwpos : ¬ (my - dest) % N ≤ 0 := by
    rw [hccw]; split <;> omega
  have hN' : ¬ ¬ (N > 0) := not_not.2 hN
  simp only [outportDirnCustom, hid, hnum, hdest, h1, h2, h3, hN', if_false, gt_iff_lt,
    Bool.not_eq_true', decide_eq_false_iff_not, not_lt, not_not]
  by_cases hle : (dest - my) % N ≤ N / 2
  · simp only [hle, if_true, hcwpos, if_false]
    split_ifs <;> rfl
  · simp only [hle, if_false, hccwpos]
    split_ifs <;> rfl

theorem walkRing_arrived {D : Type} (units : Int → RoutingUnit D) (route : RouteInfo D)
    (fuel : Nat) (cur : Int) (inport_dirn : PortDirection) (h : cur = route.dest_router) :
    walkRing units route fuel cur inport_dirn = .ok [] := by
  unfold walkRing
  simp [h]

theorem walkRing_step {D : Type} (units : Int → RoutingUnit D) (route : RouteInfo D)
    (fuel : Nat) (cur : Int) (inport_dirn d : PortDirection) (ds : List PortDirection)
    (h : cur ≠ route.dest_router)
    (hd : outportDirnCustom (units cur) route inport_dirn = .ok d)
    (hrest : walkRing units route fuel
      (ringNext (units cur).m_router.get_net_ptr.getNumRouters cur d) (oppositeDirn d)
        = .ok ds) :
    walkRing units route (fuel + 1) cur inport_dirn = .ok (d :: ds) := by
  rw [walkRing]
  simp only [h, if_false, hd, hrest]

theorem ring_east_next (N cur dest : Int) (k : Nat) (hcur : 0 ≤ cur) (hcurN : cur < N)
    (hd : 0 ≤ dest) (hdN : dest < N) (hk : (dest - cur) % N = ((k + 1 : Nat) : Int)) :
    0 ≤ (cur + 1) % N ∧ (cur + 1) % N < N ∧ (dest - (cur + 1) % N) % N = (k : Int) ∧
      cur ≠ dest := by
  have h1 := ring_succ_emod N cur hcur hcurN
  have h0 : 0 ≤ (cur + 1) % N := by rw [h1]; split <;> omega
  have h0N : (cur + 1) % N < N := by rw [h1]; split <;> omega
  have h2 := ring_sub_emod N cur dest hcur hcurN hd hdN
  have h3 := ring_sub_emod N ((cur + 1) % N) dest h0 h0N hd hdN
  refine ⟨h0, h0N, ?_, ?_⟩
  · rw [h3, h1]
    rw [h2] at hk
    push_cast at hk
    split_ifs at hk ⊢ <;> omega
  · rw [h2] at hk
    push_cast at hk
    split_ifs at hk <;> omega

theorem ring_west_next (N cur dest : Int) (j : Nat) (hcur : 0 ≤ cur) (hcurN : cur < N)
    (hd : 0 ≤ dest) (hdN : dest < N) (hj : (cur - dest) % N = ((j + 1 : Nat) : Int)) :
    0 ≤ (cur - 1) % N ∧ (cur - 1) % N < N ∧ ((cur - 1) % N - dest) % N = (j : Int) ∧
      cur ≠ dest ∧ (dest - cur) % N = N - ((j + 1 : Nat) : Int) := by
  have h1 := ring_pred_emod N cur hcur hcurN
  have h0 : 0 ≤ (cur - 1) % N := by rw [h1]; split <;> omega
  have h0N : (cur - 1) % N < N := by rw [h1]; split <;> omega
  have h2 := ring_sub_emod N dest cur hd hdN hcur hcurN
  have h3 := ring_sub_emod N dest ((cur - 1) % N) hd hdN h0 h0N
  have h4 := ring_sub_emod N cur dest hcur hcurN hd hdN
  refine ⟨h0, h0N, ?_, ?_, ?_⟩
  · rw [h3, h1]
    rw [h2] at hj
    push_cast at hj
    split_ifs at hj ⊢ <;> omega
  · rw [h2] at hj
    push_cast at hj
    split_ifs at hj <;> omega
  · rw [h4]
    rw [h2] at hj
    push_cast at hj ⊢
    split_ifs at hj ⊢ <;> omega

theorem ring_zero_dist (N cur dest : Int) (hcur : 0 ≤ cur) (hcurN : cur < N)
    (hd : 0 ≤ dest) (hdN : dest < N) (h : (dest - cur) % N = 0) : cur = dest := by
  rw [ring_sub_emod N cur dest hcur hcurN hd hdN] at h
  split_ifs at h <;> omega

/-- The clockwise phase: `k` hops East while the clockwise distance `k` is at
most `N / 2`. -/
theorem walkRing_east {D : Type} (units : Int → RoutingUnit D) (route : RouteInfo D)
    (N : Int) (hN : 0 < N)
    (hunits : ∀ id : Int, (units id).m_router.get_id = id ∧
      (units id).m_router.get_net_ptr.getNumRouters = N)
    (hd : 0 ≤ route.dest_router) (hdN : route.dest_router < N) :
    ∀ (k : Nat) (cur : Int) (inport_dirn : PortDirection) (fuel : Nat),
      0 ≤ cur → cur < N → (route.dest_router - cur) % N = (k : Int) → (k : Int) ≤ N / 2 →
      k ≤ fuel → (inport_dirn = "Local" ∨ inport_dirn = "West") →
      walkRing units route fuel cur inport_dirn = .ok (List.replicate k "East") := by
  intro k
  induction k with
  | zero =>
    intro cur inport_dirn fuel hcur hcurN hk _ _ _
    have := ring_zero_dist N cur route.dest_router hcur hcurN hd hdN (by simpa using hk)
    rw [walkRing_arrived units route fuel cur inport_dirn this]
    rfl
  | succ k ih =>
    intro cur inport_dirn fuel hcur hcurN hk hhalf hfuel hin
    obtain ⟨f, rfl⟩ : ∃ f, fuel = f + 1 := ⟨fuel - 1, by omega⟩
    obtain ⟨h0, h0N, hk', hne⟩ := ring_east_next N cur route.dest_router k hcur hcurN hd hdN hk
    obtain ⟨hid, hnum⟩ := hunits cur
    have hdir : outportDirnCustom (units cur) route inport_dirn = .ok "East" := by
      rw [outportDirnCustom_eq (units cur) route inport_dirn N cur route.dest_router hN hid
        hnum rfl hcur hcurN hd hdN hne, hk, if_pos hhalf, if_pos hin]
    have hnext : ringNext (units cur).m_router.get_net_ptr.getNumRouters cur "East"
        = (cur + 1) % N := by
      simp only [ringNext, if_true, hnum]
    have hrest := ih ((cur + 1) % N) "West" f h0 h0N hk'
      (le_trans (by push_cast; omega) hhalf) (Nat.le_of_succ_le_succ hfuel) (Or.inr rfl)
    rw [← hnext, ← oppositeDirn_east] at hrest
    rw [walkRing_step units route f cur inport_dirn "East" _ hne hdir hrest,
      List.replicate_succ]

/-- The counter-clockwise phase: `j` hops West while the clockwise distance
`N - j` exceeds `N / 2`. -/
theorem walkRing_west {D : Type} (units : Int → RoutingUnit D) (route : RouteInfo D)
    (N : Int) (hN : 0 < N)
    (hunits : ∀ id : Int, (units id).m_router.get_id = id ∧
      (units id).m_router.get_net_ptr.getNumRouters = N)
    (hd : 0 ≤ route.dest_router) (hdN : route.dest_router < N) :
    ∀ (j : Nat) (cur : Int) (inport_dirn : PortDirection) (fuel : Nat),
      0 ≤ cur → cur < N → (cur - route.dest_router) % N = (j : Int) →
      N / 2 < N - (j : Int) → j ≤ fuel →
      (inport_dirn = "Local" ∨ inport_dirn = "East") →
      walkRing units route fuel cur inport_dirn = .ok (List.replicate j "West") := by
  intro j
  induction j with
  | zero =>
    intro cur inport_dirn fuel hcur hcurN hj _ _ _
    have := ring_zero_dist N route.dest_router cur hd hdN hcur hcurN (by simpa using hj)
    rw [walkRing_arrived units route fuel cur inport_dirn this.symm]
    rfl
  | succ j ih =>
    intro cur inport_dirn fuel hcur hcurN hj hhalf hfuel hin
    obtain ⟨f, rfl⟩ : ∃ f, fuel = f + 1 := ⟨fuel - 1, by omega⟩
    obtain ⟨h0, h0N, hj', hne, hcw⟩ :=
      ring_west_next N cur route.dest_router j hcur hcurN hd hdN hj
    obtain ⟨hid, hnum⟩ := hunits cur
    have hdir : outportDirnCustom (units cur) route inport_dirn = .ok "West" := by
      rw [outportDirnCustom_eq (units cur) route inport_dirn N cur route.dest_router hN hid
        hnum rfl hcur hcurN hd hdN hne, hcw, if_neg (not_le.2 hhalf), if_pos hin]
    have hnext : ringNext (units cur).m_router.get_net_ptr.getNumRouters cur "West"
        = (cur - 1) % N := by
      have e1 : ("West" : String) ≠ "East" := by decide
      simp only [ringNext, e1, if_false, if_true, hnum]
    have hrest := ih ((cur - 1) % N) "East" f h0 h0N hj'
      (lt_of_lt_of_le hhalf (by push_cast; omega)) (Nat.le_of_succ_le_succ hfuel) (Or.inr rfl)
    rw [← hnext, ← oppositeDirn_west] at hrest
    rw [walkRing_step units route f cur inport_dirn "West" _ hne hdir hrest,
      List.replicate_succ]

theorem walkRing_foldl {D : Type} (units : Int → RoutingUnit D) (route : RouteInfo D) (N : Int)
    (hnum : ∀ id : Int, (units id).m_router.get_net_ptr.getNumRouters = N) :
    ∀ (fuel : Nat) (cur : Int) (inport_dirn : PortDirection) (ds : List PortDirection),
      walkRing units route fuel cur inport_dirn = .ok ds →
      ds.foldl (ringNext N) cur = route.dest_router := by
  intro fuel
  induction fuel with
  | zero =>
    intro cur inport_dirn ds h
    rw [walkRing] at h
    by_cases hc : cur = route.dest_router
    · simp only [hc, if_true] at h
      cases h
      exact hc
    · simp only [hc, if_false] at h
      cases h
  | succ f ih =>
    intro cur inport_dirn ds h
    rw [walkRing] at h
    by_cases hc : cur = route.dest_router
    · simp only [hc, if_true] at h
      cases h
      exact hc
    · simp only [hc, if_false] at h
      cases hd : outportDirnCustom (units cur) route inport_dirn with
      | error a => rw [hd] at h; cases h
      | ok d =>
        rw [hd] at h
        simp only at h
        cases hrest : walkRing units route f
            (ringNext (units cur).m_router.get_net_ptr.getNumRouters cur d)
            (oppositeDirn d) with
        | error a => rw [hrest] at h; cases h
        | ok ds' =>
          rw [hrest] at h
          cases h
          have := ih _ _ _ hrest
          rw [hnum cur] at this
          simpa using this

/-- The two ring distances of two positions, and the shorter of them. -/
theorem ring_distances (N a b : Int) (ha : 0 ≤ a) (haN : a < N) (hb : 0 ≤ b) (hbN : b < N) :
    0 ≤ (b - a) % N ∧ 0 ≤ (a - b) % N ∧
    ((b - a) % N ≤ N / 2 → min ((b - a) % N) ((a - b) % N) = (b - a) % N) ∧
    (¬ (b - a) % N ≤ N / 2 →
      min ((b - a) % N) ((a - b) % N) = (a - b) % N ∧ N / 2 < N - (a - b) % N) ∧
    min ((b - a) % N) ((a - b) % N) ≤ (N + 1) / 2 := by
  rw [ring_sub_emod N a b ha haN hb hbN, ring_sub_emod N b a hb hbN ha haN]
  split_ifs <;> omega

/-- C10: on a ring of `N` routers, where East leads from `id` to `(id + 1) mod N`
and West to `(id - 1) mod N` and the flit enters the next router on the
opposite-named port, starting on "Local", iterating `outportComputeCustom`
between two ring positions trips no assertion and reaches the destination after
exactly min(clockwise distance, counter-clockwise distance) hops, all of them
East when the clockwise distance is at most `N / 2` and all of them West
otherwise; that number of hops is at most ceil(N / 2). -/
theorem walkRing_shortest_distance {D : Type} (units : Int → RoutingUnit D)
    (route : RouteInfo D) (N src : Int) (fuel : Nat) (hN : 0 < N)
    (hunits : ∀ id : Int, (units id).m_router.get_id = id ∧
      (units id).m_router.get_net_ptr.getNumRouters = N)
    (hsrc : 0 ≤ src) (hsrcN : src < N)
    (hdst : 0 ≤ route.dest_router) (hdstN : route.dest_router < N)
    (hfuel : (min ((route.dest_router - src) % N) ((src - route.dest_router) % N)).toNat
      ≤ fuel) :
    walkRing units route fuel src "Local" =
      .ok (List.replicate
        (min ((route.dest_router - src) % N) ((src - route.dest_router) % N)).toNat
        (if (route.dest_router - src) % N ≤ N / 2 then "East" else "West")) ∧
    (((min ((route.dest_router - src) % N) ((src - route.dest_router) % N)).toNat : Nat) : Int)
      = min ((route.dest_router - src) % N) ((src - route.dest_router) % N) ∧
    min ((route.dest_router - src) % N) ((src - route.dest_router) % N) ≤ (N + 1) / 2 ∧
    (List.replicate
        (min ((route.dest_router - src) % N) ((src - route.dest_router) % N)).toNat
        (if (route.dest_router - src) % N ≤ N / 2 then "East" else "West")).foldl
      (ringNext N) src = route.dest_router := by
  obtain ⟨hcw0, hccw0, heast, hwest, hceil⟩ :=
    ring_distances N src route.dest_router hsrc hsrcN hdst hdstN
  have hmin0 : 0 ≤ min ((route.dest_router - src) % N) ((src - route.dest_router) % N) :=
    le_min hcw0 hccw0
  have hwalk : walkRing units route fuel src "Local" =
      .ok (List.replicate
        (min ((route.dest_router - src) % N) ((src - route.dest_router) % N)).toNat
        (if (route.dest_router - src) % N ≤ N / 2 then "East" else "West")) := by
    by_cases hle : (route.dest_router - src) % N ≤ N / 2
    · have hmin := heast hle
      rw [hmin] at hfuel ⊢
      rw [if_pos hle]
      exact walkRing_east units route N hN hunits hdst hdstN _ src "Local" fuel hsrc hsrcN
        (Int.toNat_of_nonneg hcw0).symm (by rw [Int.toNat_of_nonneg hcw0]; exact hle) hfuel
        (Or.inl rfl)
    · obtain ⟨hmin, hhalf⟩ := hwest hle
      rw [hmin] at hfuel ⊢
      rw [if_neg hle]
      exact walkRing_west units route N hN hunits hdst hdstN _ src "Local" fuel hsrc hsrcN
        (Int.toNat_of_nonneg hccw0).symm (by rw [Int.toNat_of_nonneg hccw0]; exact hhalf)
        hfuel (Or.inl rfl)
  exact ⟨hwalk, Int.toNat_of_nonneg hmin0, hceil,
    walkRing_foldl units route N (fun id => (hunits id).2) fuel src "Local" _ hwalk⟩

/-- Witness for C10: from router 1 to the antipodal-side router 6 of the ring of
9 routers. -/
theorem walkRing_shortest_distance_witness :
    walkRing (fun id => demoMeshUnit .CUSTOM_ id) (demoRoute 0 [1] 1 6) 4 1 "Local" =
      .ok (List.replicate
        (min (((demoRoute 0 [1] 1 6).dest_router - 1) % 9)
          ((1 - (demoRoute 0 [1] 1 6).dest_router) % 9)).toNat
        (if ((demoRoute 0 [1] 1 6).dest_router - 1) % 9 ≤ 9 / 2 then "East" else "West")) ∧
    (((min (((demoRoute 0 [1] 1 6).dest_router - 1) % 9)
          ((1 - (demoRoute 0 [1] 1 6).dest_router) % 9)).toNat : Nat) : Int)
      = min (((demoRoute 0 [1] 1 6).dest_router - 1) % 9)
          ((1 - (demoRoute 0 [1] 1 6).dest_router) % 9) ∧
    min (((demoRoute 0 [1] 1 6).dest_router - 1) % 9)
        ((1 - (demoRoute 0 [1] 1 6).dest_router) % 9) ≤ (9 + 1) / 2 ∧
    (List.replicate
        (min (((demoRoute 0 [1] 1 6).dest_router - 1) % 9)
          ((1 - (demoRoute 0 [1] 1 6).dest_router) % 9)).toNat
        (if ((demoRoute 0 [1] 1 6).dest_router - 1) % 9 ≤ 9 / 2 then "East" else "West")).foldl
      (ringNext 9) 1 = (demoRoute 0 [1] 1 6).dest_router :=
  walkRing_shortest_distance (fun id => demoMeshUnit .CUSTOM_ id) (demoRoute 0 [1] 1 6)
    9 1 4 (by decide) (fun _ => ⟨rfl, rfl⟩) (by decide) (by decide) (by decide) (by decide)
    (by decide)

/-! ## Claims about ring routing and about calls at the destination router -/

theorem outportComputeCustom_of_dirn {D : Type} (ru : RoutingUnit D) (route : RouteInfo D)
    (inport : Int) (inport_dirn d : PortDirection) (t_flit : RouteInfo D)
    (h : outportDirnCustom ru route inport_dirn = .ok d) :
    outportComputeCustom ru route inport inport_dirn t_flit = .ok (returnOutport ru t_flit d) := by
  unfold outportComputeCustom
  rw [h]

theorem half_iff_not_longer (N cw : Int) : cw ≤ N / 2 ↔ cw ≤ N - cw := by
  omega

/-- C11: on a ring of `N > 0` routers, for distinct ids current and destination
in `[0, N)` and `cw = (destination - current) mod N`, every returning call of
`outportComputeCustom` returns the port of "East" when `cw <= N - cw` and the
port of "West" otherwise, and a call entered on "Local" does return; in
particular the antipodal destination of an even ring (`2 * cw = N`) is routed
"East". -/
theorem outportComputeCustom_east_iff_clockwise_not_longer {D : Type} (ru : RoutingUnit D)
    (route : RouteInfo D) (inport : Int) (inport_dirn : PortDirection) (t_flit : RouteInfo D)
    (N : Int) (hN : 0 < N) (hnum : ru.m_router.get_net_ptr.getNumRouters = N)
    (hmy : 0 ≤ ru.m_router.get_id) (hmyN : ru.m_router.get_id < N)
    (hd : 0 ≤ route.dest_router) (hdN : route.dest_router < N)
    (hne : ru.m_router.get_id ≠ route.dest_router) :
    (∀ r : Routed D, outportComputeCustom ru route inport inport_dirn t_flit = .ok r →
      r = returnOutport ru t_flit
        (if (route.dest_router - ru.m_router.get_id) % N ≤
            N - (route.dest_router - ru.m_router.get_id) % N then "East" else "West")) ∧
    outportComputeCustom ru route inport "Local" t_flit =
      .ok (returnOutport ru t_flit
        (if (route.dest_router - ru.m_router.get_id) % N ≤
            N - (route.dest_router - ru.m_router.get_id) % N then "East" else "West")) ∧
    (2 * ((route.dest_router - ru.m_router.get_id) % N) = N →
      outportComputeCustom ru route inport "Local" t_flit =
        .ok (returnOutport ru t_flit "East")) := by
  have htree : ∀ dirn : PortDirection, outportDirnCustom ru route dirn =
      if (route.dest_router - ru.m_router.get_id) % N ≤
          N - (route.dest_router - ru.m_router.get_id) % N then
        (if dirn = "Local" ∨ dirn = "West" then .ok "East" else .error Abort.assertion)
      else
        (if dirn = "Local" ∨ dirn = "East" then .ok "West" else .error Abort.assertion) := by
    intro dirn
    rw [outportDirnCustom_eq ru route dirn N ru.m_router.get_id route.dest_router hN rfl hnum
      rfl hmy hmyN hd hdN hne]
    simp only [half_iff_not_longer]
  have hlocal : outportComputeCustom ru route inport "Local" t_flit =
      .ok (returnOutport ru t_flit
        (if (route.dest_router - ru.m_router.get_id) % N ≤
            N - (route.dest_router - ru.m_router.get_id) % N then "East" else "West")) := by
    apply outportComputeCustom_of_dirn
    rw [htree]
    split <;> simp
  refine ⟨?_, hlocal, ?_⟩
  · intro r hr
    unfold outportComputeCustom at hr
    rw [htree] at hr
    split_ifs at hr with h1 h2 h3
    all_goals simp only at hr
    all_goals cases hr
    · rw [if_pos h1]
    · rw [if_neg h1]
  · intro hanti
    rw [hlocal, if_pos (by omega)]

/-- Witness for C11: router 1 of the ring of 9 routers and destination 6. -/
theorem outportComputeCustom_east_iff_clockwise_not_longer_witness :
    (∀ r : Routed (List Nat),
      outportComputeCustom (demoMeshUnit .CUSTOM_ 1) (demoRoute 0 [1] 1 6) 0 "Local"
        (demoRoute 0 [1] 1 6) = .ok r →
      r = returnOutport (demoMeshUnit .CUSTOM_ 1) (demoRoute 0 [1] 1 6)
        (if ((demoRoute 0 [1] 1 6).dest_router - (demoMeshUnit .CUSTOM_ 1).m_router.get_id) % 9 ≤
            9 - ((demoRoute 0 [1] 1 6).dest_router -
              (demoMeshUnit .CUSTOM_ 1).m_router.get_id) % 9 then "East" else "West")) ∧
    outportComputeCustom (demoMeshUnit .CUSTOM_ 1) (demoRoute 0 [1] 1 6) 0 "Local"
        (demoRoute 0 [1] 1 6) =
      .ok (returnOutport (demoMeshUnit .CUSTOM_ 1) (demoRoute 0 [1] 1 6)
        (if ((demoRoute 0 [1] 1 6).dest_router - (demoMeshUnit .CUSTOM_ 1).m_router.get_id) % 9 ≤
            9 - ((demoRoute 0 [1] 1 6).dest_router -
              (demoMeshUnit .CUSTOM_ 1).m_router.get_id) % 9 then "East" else "West")) ∧
    (2 * (((demoRoute 0 [1] 1 6).dest_router - (demoMeshUnit .CUSTOM_ 1).m_router.get_id) % 9)
        = 9 →
      outportComputeCustom (demoMeshUnit .CUSTOM_ 1) (demoRoute 0 [1] 1 6) 0 "Local"
          (demoRoute 0 [1] 1 6) =
        .ok (returnOutport (demoMeshUnit .CUSTOM_ 1) (demoRoute 0 [1] 1 6) "East")) :=
  outportComputeCustom_east_iff_clockwise_not_longer (demoMeshUnit .CUSTOM_ 1)
    (demoRoute 0 [1] 1 6) 0 "Local" (demoRoute 0 [1] 1 6) 9 (by decide) rfl (by decide)
    (by decide) (by decide) (by decide) (by decide)

/-- C17: invoked with the destination router equal to the current router, each
topology algorithm (`outportComputeXY`, `outportComputeCustom`,
`outportComputeDragonflyMinimal`, `outportComputeUGAL`,
`outportComputeDragonflyVAL`) stops on a failed assertion and returns no port
index. -/
theorem topology_algorithms_abort_at_destination {D : Type} (ru : RoutingUnit D)
    (random_mt : List Nat) (route : RouteInfo D) (inport : Int) (inport_dirn : PortDirection)
    (t_flit : RouteInfo D) (hdest : route.dest_router = ru.m_router.get_id) :
    outportComputeXY ru route inport inport_dirn t_flit = .error Abort.assertion ∧
    outportComputeCustom ru route inport inport_dirn t_flit = .error Abort.assertion ∧
    outportComputeDragonflyMinimal ru route inport inport_dirn t_flit
      = .error Abort.assertion ∧
    outportComputeUGAL ru random_mt route inport inport_dirn t_flit
      = .error Abort.assertion ∧
    outportComputeDragonflyVAL ru random_mt route inport inport_dirn t_flit
      = .error Abort.assertion := by
  refine ⟨?_, ?_, ?_, ?_, ?_⟩
  · have h : outportDirnXY ru route inport_dirn = .error Abort.assertion := by
      simp only [outportDirnXY, hdest, sub_self, Int.natAbs_zero, Nat.cast_zero, and_self,
        if_true]
      split <;> rfl
    simp only [outportComputeXY, h]
  · have h : outportDirnCustom ru route inport_dirn = .error Abort.assertion := by
      by_cases hN : ru.m_router.get_net_ptr.getNumRouters > 0
      · have h1 : (ru.m_router.get_net_ptr.getNumRouters).tmod
            ru.m_router.get_net_ptr.getNumRouters = 0 := Int.tmod_self
        have h2 : ¬ (0 > (ru.m_router.get_net_ptr.getNumRouters).tdiv 2) := by
          rw [Int.tdiv_eq_ediv hN.le (by decide)]
          omega
        simp only [outportDirnCustom, hdest, sub_self, zero_add, h1, h2, decide_False,
          Bool.not_false, if_true, gt_iff_lt, lt_irrefl, not_false_eq_true]
        split <;> rfl
      · simp only [outportDirnCustom, hN, not_false_eq_true, if_true]
    simp only [outportComputeCustom, h]
  · have h : outportDirnDragonflyMinimal ru route inport_dirn = .error Abort.assertion := by
      simp only [outportDirnDragonflyMinimal, hdest, ne_eq, not_true_eq_false,
        not_false_eq_true, if_true]
      split <;> rfl
    simp only [outportComputeDragonflyMinimal, h]
  · have h : outportDirnUGAL ru random_mt route inport_dirn t_flit
        = .error Abort.assertion := by
      simp only [outportDirnUGAL, hdest, ne_eq, not_true_eq_false, not_false_eq_true, if_true]
      split <;> rfl
    simp only [outportComputeUGAL, h]
  · have h : outportDirnDragonflyVAL ru random_mt route inport_dirn t_flit
        = .error Abort.assertion := by
      simp only [outportDirnDragonflyVAL, hdest, ne_eq, not_true_eq_false, not_false_eq_true,
        if_true]
      split <;> rfl
    simp only [outportComputeDragonflyVAL, h]

/-- Witness for C17: router 4 of the demonstration network asked to route to
itself. -/
theorem topology_algorithms_abort_at_destination_witness :
    outportComputeXY (demoMeshUnit .XY_ 4) (demoRoute 0 [1] 0 4) 0 "Local"
      (demoRoute 0 [1] 0 4) = .error Abort.assertion ∧
    outportComputeCustom (demoMeshUnit .XY_ 4) (demoRoute 0 [1] 0 4) 0 "Local"
      (demoRoute 0 [1] 0 4) = .error Abort.assertion ∧
    outportComputeDragonflyMinimal (demoMeshUnit .XY_ 4) (demoRoute 0 [1] 0 4) 0 "Local"
      (demoRoute 0 [1] 0 4) = .error Abort.assertion ∧
    outportComputeUGAL (demoMeshUnit .XY_ 4) [2] (demoRoute 0 [1] 0 4) 0 "Local"
      (demoRoute 0 [1] 0 4) = .error Abort.assertion ∧
    outportComputeDragonflyVAL (demoMeshUnit .XY_ 4) [2] (demoRoute 0 [1] 0 4) 0 "Local"
      (demoRoute 0 [1] 0 4) = .error Abort.assertion :=
  topology_algorithms_abort_at_destination (demoMeshUnit .XY_ 4) [2] (demoRoute 0 [1] 0 4) 0
    "Local" (demoRoute 0 [1] 0 4) (by decide)

/-! ## Inbound and outbound directions of mesh XY routing -/

/-- C19 (as stated, refuted): router 1 of the 3 x 3 mesh (column 1, row 0)
receives on its "West" port a flit for router 4 (column 1, row 1);
`outportComputeXY` returns without aborting and the outbound direction is
"North", not "East". -/
theorem outportComputeXY_west_inport_turns_north :
    outportDirnXY (demoMeshUnit .XY_ 1) (demoRoute 0 [1] 0 4) "West" = .ok "North" ∧
    (outportComputeXY (demoMeshUnit .XY_ 1) (demoRoute 0 [1] 0 4) 2 "West"
      (demoRoute 0 [1] 0 4)).map Routed.outport = .ok 5 := by
  decide

/-- C19 (amended): for every call of `outportComputeXY` that returns, an inbound
"West" gives outbound "East" while the destination column is greater and
"North" or "South" once the columns are equal (never "West"); an inbound "East"
gives outbound "West" while the destination column is smaller and "North" or
"South" once the columns are equal (never "East"); an inbound "South" gives
outbound "North" and an inbound "North" gives outbound "South". -/
theorem outportComputeXY_inport_constrains_outport {D : Type} (ru : RoutingUnit D)
    (route : RouteInfo D) (inport : Int) (inport_dirn : PortDirection) (t_flit : RouteInfo D)
    (r : Routed D) (h : outportComputeXY ru route inport inport_dirn t_flit = .ok r) :
    ∃ d, outportDirnXY ru route inport_dirn = .ok d ∧ r = returnOutport ru t_flit d ∧
      (inport_dirn = "West" →
        (d = "East" ∧ route.dest_router.tmod ru.m_router.get_net_ptr.getNumCols >
            ru.m_router.get_id.tmod ru.m_router.get_net_ptr.getNumCols) ∨
        ((d = "North" ∨ d = "South") ∧
          route.dest_router.tmod ru.m_router.get_net_ptr.getNumCols =
            ru.m_router.get_id.tmod ru.m_router.get_net_ptr.getNumCols)) ∧
      (inport_dirn = "East" →
        (d = "West" ∧ route.dest_router.tmod ru.m_router.get_net_ptr.getNumCols <
            ru.m_router.get_id.tmod ru.m_router.get_net_ptr.getNumCols) ∨
        ((d = "North" ∨ d = "South") ∧
          route.dest_router.tmod ru.m_router.get_net_ptr.getNumCols =
            ru.m_router.get_id.tmod ru.m_router.get_net_ptr.getNumCols)) ∧
      (inport_dirn = "South" → d = "North") ∧
      (inport_dirn = "North" → d = "South") := by
  unfold outportComputeXY at h
  cases hd : outportDirnXY ru route inport_dirn with
  | error a => rw [hd] at h; cases h
  | ok d =>
    rw [hd] at h
    cases h
    have hrc : ru.m_router.get_net_ptr.getNumRows > 0 ∧
        ru.m_router.get_net_ptr.getNumCols > 0 := by
      by_contra hn
      simp only [outportDirnXY, hn, not_false_eq_true, if_true] at hd
      cases hd
    refine ⟨d, rfl, rfl, ?_⟩
    rw [outportDirnXY_eq ru route inport_dirn hrc.1 hrc.2] at hd
    generalize route.dest_router.tmod ru.m_router.get_net_ptr.getNumCols = dx at hd ⊢
    generalize ru.m_router.get_id.tmod ru.m_router.get_net_ptr.getNumCols = x at hd ⊢
    generalize route.dest_router.tdiv ru.m_router.get_net_ptr.getNumCols = dy at hd ⊢
    generalize ru.m_router.get_id.tdiv ru.m_router.get_net_ptr.getNumCols = y at hd ⊢
    have e1 : ("West" : String) ≠ "Local" := by decide
    have e2 : ("West" : String) ≠ "East" := by decide
    have e3 : ("East" : String) ≠ "Local" := by decide
    have e4 : ("East" : String) ≠ "West" := by decide
    have e5 : ("South" : String) ≠ "Local" := by decide
    have e6 : ("South" : String) ≠ "West" := by decide
    have e7 : ("South" : String) ≠ "East" := by decide
    have e8 : ("North" : String) ≠ "Local" := by decide
    have e9 : ("North" : String) ≠ "West" := by decide
    have e10 : ("North" : String) ≠ "East" := by decide
    split_ifs at hd with h1 h2 h3 h4 h5 h6 h7 h8
    all_goals cases hd
    · -- outbound East
      refine ⟨fun _ => Or.inl ⟨rfl, h1⟩, ?_, ?_, ?_⟩
      · intro hi; subst hi
        rcases h2 with h2 | h2
        · exact absurd h2 e3
        · exact absurd h2 e4
      · intro hi; subst hi
        rcases h2 with h2 | h2
        · exact absurd h2 e5
        · exact absurd h2 e6
      · intro hi; subst hi
        rcases h2 with h2 | h2
        · exact absurd h2 e8
        · exact absurd h2 e9
    · -- outbound West
      refine ⟨?_, fun _ => Or.inl ⟨rfl, h3⟩, ?_, ?_⟩
      · intro hi; subst hi
        rcases h4 with h4 | h4
        · exact absurd h4 e1
        · exact absurd h4 e2
      · intro hi; subst hi
        rcases h4 with h4 | h4
        · exact absurd h4 e5
        · exact absurd h4 e7
      · intro hi; subst hi
        rcases h4 with h4 | h4
        · exact absurd h4 e8
        · exact absurd h4 e10
    · -- outbound North
      have hx : dx = x := le_antisymm (not_lt.1 h1) (not_lt.1 h3)
      refine ⟨fun _ => Or.inr ⟨Or.inl rfl, hx⟩, fun _ => Or.inr ⟨Or.inl rfl, hx⟩,
        fun _ => rfl, ?_⟩
      intro hi
      exact absurd hi h6
    · -- outbound South
      have hx : dx = x := le_antisymm (not_lt.1 h1) (not_lt.1 h3)
      refine ⟨fun _ => Or.inr ⟨Or.inr rfl, hx⟩, fun _ => Or.inr ⟨Or.inr rfl, hx⟩,
        ?_, fun _ => rfl⟩
      intro hi
      exact absurd hi h8

/-- Witness for C19 (amended): the call of the refutation, which returns. -/
theorem outportComputeXY_inport_constrains_outport_witness :
    ∃ d, outportDirnXY (demoMeshUnit .XY_ 1) (demoRoute 0 [1] 0 4) "West" = .ok d ∧
      returnOutport (demoMeshUnit .XY_ 1) (demoRoute 0 [1] 0 4) "North"
        = returnOutport (demoMeshUnit .XY_ 1) (demoRoute 0 [1] 0 4) d ∧
      (("West" : String) = "West" →
        (d = "East" ∧ (demoRoute 0 [1] 0 4).dest_router.tmod
            (demoMeshUnit .XY_ 1).m_router.get_net_ptr.getNumCols >
            (demoMeshUnit .XY_ 1).m_router.get_id.tmod
              (demoMeshUnit .XY_ 1).m_router.get_net_ptr.getNumCols) ∨
        ((d = "North" ∨ d = "South") ∧
          (demoRoute 0 [1] 0 4).dest_router.tmod
              (demoMeshUnit .XY_ 1).m_router.get_net_ptr.getNumCols =
            (demoMeshUnit .XY_ 1).m_router.get_id.tmod
              (demoMeshUnit .XY_ 1).m_router.get_net_ptr.getNumCols)) ∧
      (("West" : String) = "East" →
        (d = "West" ∧ (demoRoute 0 [1] 0 4).dest_router.tmod
            (demoMeshUnit .XY_ 1).m_router.get_net_ptr.getNumCols <
            (demoMeshUnit .XY_ 1).m_router.get_id.tmod
              (demoMeshUnit .XY_ 1).m_router.get_net_ptr.getNumCols) ∨
        ((d = "North" ∨ d = "South") ∧
          (demoRoute 0 [1] 0 4).dest_router.tmod
              (demoMeshUnit .XY_ 1).m_router.get_net_ptr.getNumCols =
            (demoMeshUnit .XY_ 1).m_router.get_id.tmod
              (demoMeshUnit .XY_ 1).m_router.get_net_ptr.getNumCols)) ∧
      (("West" : String) = "South" → d = "North") ∧
      (("West" : String) = "North" → d = "South") :=
  outportComputeXY_inport_constrains_outport (demoMeshUnit .XY_ 1) (demoRoute 0 [1] 0 4) 2
    "West" (demoRoute 0 [1] 0 4)
    (returnOutport (demoMeshUnit .XY_ 1) (demoRoute 0 [1] 0 4) "North") rfl

/-! ## The dragonfly algorithms and the minimal label -/

/-- A returning `outportComputeDragonflyMinimal` passed its guards and computed
the minimal label towards the destination's group. -/
theorem outportDirnDragonflyMinimal_ok {D : Type} (ru : RoutingUnit D) (route : RouteInfo D)
    (inport_dirn d : PortDirection)
    (h : outportDirnDragonflyMinimal ru route inport_dirn = .ok d) :
    ru.m_router.get_net_ptr.getNumRouters > 0 ∧ ru.m_router.get_id ≠ route.dest_router ∧
    ru.m_router.get_net_ptr.getRoutersPerGroup ≠ 0 ∧
    d = minimalDirn ru.m_router.get_net_ptr.getNumGroups
      ru.m_router.get_net_ptr.getRoutersPerGroup
      ru.m_router.get_net_ptr.getGlobalChannelsPerRouter ru.m_router.get_id
      (route.dest_router.tdiv ru.m_router.get_net_ptr.getRoutersPerGroup)
      route.dest_router := by
  unfold outportDirnDragonflyMinimal at h
  dsimp only at h
  by_cases h1 : ¬ ru.m_router.get_net_ptr.getNumRouters > 0
  · rw [if_pos h1] at h; cases h
  rw [if_neg h1] at h
  by_cases h2 : ¬ ru.m_router.get_id ≠ route.dest_router
  · rw [if_pos h2] at h; cases h
  rw [if_neg h2] at h
  by_cases h3 : ru.m_router.get_net_ptr.getRoutersPerGroup = 0
  · rw [if_pos h3] at h; cases h
  rw [if_neg h3] at h
  refine ⟨not_not.1 h1, not_not.1 h2, h3, ?_⟩
  unfold minimalDirn
  dsimp only
  split_ifs at h ⊢
  all_goals cases h
  all_goals rfl

/-- With allowed inbound port and non-zero divisors, `outportComputeDragonflyMinimal`
returns the minimal label. -/
theorem outportDirnDragonflyMinimal_local {D : Type} (ru : RoutingUnit D)
    (route : RouteInfo D)
    (hnum : ru.m_router.get_net_ptr.getNumRouters > 0)
    (hne : ru.m_router.get_id ≠ route.dest_router)
    (hR : ru.m_router.get_net_ptr.getRoutersPerGroup ≠ 0)
    (hC : ru.m_router.get_net_ptr.getGlobalChannelsPerRouter ≠ 0) :
    outportDirnDragonflyMinimal ru route "Local" =
      .ok (minimalDirn ru.m_router.get_net_ptr.getNumGroups
        ru.m_router.get_net_ptr.getRoutersPerGroup
        ru.m_router.get_net_ptr.getGlobalChannelsPerRouter ru.m_router.get_id
        (route.dest_router.tdiv ru.m_router.get_net_ptr.getRoutersPerGroup)
        route.dest_router) := by
  unfold outportDirnDragonflyMinimal minimalDirn
  dsimp only
  rw [if_neg (not_not.2 hnum), if_neg (not_not.2 hne), if_neg hR, if_neg hC]
  have e1 : ¬ ¬ (("Local" : String) = "Local") := by decide
  have e2 : ¬ ¬ (("Local" : String) = "Local" ∨ String.take "Local" 5 = "Local") := by decide
  have e3 : ¬ ¬ (("Local" : String) = "Local" ∨ String.take "Local" 6 = "Global") := by decide
  rw [if_neg e1, if_neg e2, if_neg e3]
  split_ifs <;> rfl

/-- On arrival in the intermediate group the shared tail clears the detour and
goes on as from a state without detour. -/
theorem detourTail_cleared {D : Type} (ru : RoutingUnit D) (inport_dirn : PortDirection)
    (group_cur group_dst : Int) (st : DetourState D)
    (hc : st.group_mid ≠ -1 ∧ group_cur = st.group_mid) :
    detourTail ru inport_dirn group_cur group_dst st =
      detourTail ru inport_dirn group_cur group_dst
        { group_mid := -1, route := { st.route with intermediate_group := -1 },
          t_flit := { st.route with intermediate_group := -1 } } := by
  unfold detourTail
  dsimp only
  have hn : ¬ ((-1 : Int) ≠ -1 ∧ group_cur = -1) := fun h => h.1 rfl
  rw [if_pos hc, if_neg hn]

/-- What the shared tail returns from a state whose detour is not cleared at
this router: the flit keeps its route, and the label is the minimal label
towards the pending intermediate group, or towards the destination's group
when no detour is pending. -/
theorem detourTail_pending_ok {D : Type} (ru : RoutingUnit D) (inport_dirn d : PortDirection)
    (group_dst : Int) (st : DetourState D) (fr : RouteInfo D)
    (hc : ¬ (st.group_mid ≠ -1 ∧
      ru.m_router.get_id.tdiv ru.m_router.get_net_ptr.getRoutersPerGroup = st.group_mid))
    (h : detourTail ru inport_dirn
      (ru.m_router.get_id.tdiv ru.m_router.get_net_ptr.getRoutersPerGroup) group_dst st
        = .ok (d, fr)) :
    fr = st.t_flit ∧
    d = minimalDirn ru.m_router.get_net_ptr.getNumGroups
      ru.m_router.get_net_ptr.getRoutersPerGroup
      ru.m_router.get_net_ptr.getGlobalChannelsPerRouter ru.m_router.get_id
      (if st.group_mid ≠ -1 then st.group_mid else group_dst) st.route.dest_router := by
  unfold detourTail at h
  dsimp only at h
  rw [if_neg hc] at h
  unfold minimalDirn
  dsimp only
  generalize (if st.group_mid ≠ -1 then st.group_mid else group_dst) = target at h ⊢
  generalize ru.m_router.get_id.tdiv ru.m_router.get_net_ptr.getRoutersPerGroup = gc at h ⊢
  simp only [gt_iff_lt, sub_pos] at h ⊢
  split_ifs at h ⊢
  all_goals cases h
  all_goals exact ⟨rfl, rfl⟩

/-- From a state whose detour is not cleared at this router, entered on "Local"
or on a "Global" port, the shared tail returns the minimal label towards its
target group and leaves the flit's route alone. -/
theorem detourTail_pending_returns {D : Type} (ru : RoutingUnit D)
    (inport_dirn : PortDirection) (group_dst : Int) (st : DetourState D)
    (hc : ¬ (st.group_mid ≠ -1 ∧
      ru.m_router.get_id.tdiv ru.m_router.get_net_ptr.getRoutersPerGroup = st.group_mid))
    (hin : inport_dirn = "Local" ∨ inport_dirn.take 6 = "Global")
    (hC : ru.m_router.get_net_ptr.getGlobalChannelsPerRouter ≠ 0) :
    detourTail ru inport_dirn
      (ru.m_router.get_id.tdiv ru.m_router.get_net_ptr.getRoutersPerGroup) group_dst st =
      .ok (minimalDirn ru.m_router.get_net_ptr.getNumGroups
        ru.m_router.get_net_ptr.getRoutersPerGroup
        ru.m_router.get_net_ptr.getGlobalChannelsPerRouter ru.m_router.get_id
        (if st.group_mid ≠ -1 then st.group_mid else group_dst) st.route.dest_router,
        st.t_flit) := by
  unfold detourTail minimalDirn
  dsimp only
  rw [if_neg hc, if_neg hC, if_neg (not_not.2 hin)]
  generalize (if st.group_mid ≠ -1 then st.group_mid else group_dst) = target
  generalize ru.m_router.get_id.tdiv ru.m_router.get_net_ptr.getRoutersPerGroup = gc
  simp only [gt_iff_lt, sub_pos]
  split_ifs <;> rfl

/-- What the shared tail returns in general: the flit's route is cleared exactly
when the current group is the pending intermediate group, and the label is the
minimal label towards the group the flit is then aimed at. -/
theorem detourTail_ok {D : Type} (ru : RoutingUnit D) (inport_dirn d : PortDirection)
    (group_dst : Int) (st : DetourState D) (fr : RouteInfo D)
    (h : detourTail ru inport_dirn
      (ru.m_router.get_id.tdiv ru.m_router.get_net_ptr.getRoutersPerGroup) group_dst st
        = .ok (d, fr)) :
    (st.group_mid ≠ -1 ∧
        ru.m_router.get_id.tdiv ru.m_router.get_net_ptr.getRoutersPerGroup = st.group_mid →
      fr = { st.route with intermediate_group := -1 } ∧
      d = minimalDirn ru.m_router.get_net_ptr.getNumGroups
        ru.m_router.get_net_ptr.getRoutersPerGroup
        ru.m_router.get_net_ptr.getGlobalChannelsPerRouter ru.m_router.get_id
        group_dst st.route.dest_router) ∧
    (¬ (st.group_mid ≠ -1 ∧
        ru.m_router.get_id.tdiv ru.m_router.get_net_ptr.getRoutersPerGroup = st.group_mid) →
      fr = st.t_flit ∧
      d = minimalDirn ru.m_router.get_net_ptr.getNumGroups
        ru.m_router.get_net_ptr.getRoutersPerGroup
        ru.m_router.get_net_ptr.getGlobalChannelsPerRouter ru.m_router.get_id
        (if st.group_mid ≠ -1 then st.group_mid else group_dst) st.route.dest_router) := by
  constructor
  · intro hc
    rw [detourTail_cleared ru inport_dirn _ group_dst st hc] at h
    have hn : ¬ ((-1 : Int) ≠ -1 ∧
        ru.m_router.get_id.tdiv ru.m_router.get_net_ptr.getRoutersPerGroup = -1) :=
      fun h => h.1 rfl
    have := detourTail_pending_ok ru inport_dirn d group_dst _ fr hn h
    simpa using this
  · intro hc
    exact detourTail_pending_ok ru inport_dirn d group_dst st fr hc h

/-- The tail returns whenever it is entered on "Local" or on a "Global" port and
the number of global channels is not zero. -/
theorem detourTail_returns {D : Type} (ru : RoutingUnit D)
    (inport_dirn : PortDirection) (group_dst : Int) (st : DetourState D)
    (hin : inport_dirn = "Local" ∨ inport_dirn.take 6 = "Global")
    (hC : ru.m_router.get_net_ptr.getGlobalChannelsPerRouter ≠ 0) :
    ∃ d fr, detourTail ru inport_dirn
      (ru.m_router.get_id.tdiv ru.m_router.get_net_ptr.getRoutersPerGroup) group_dst st
        = .ok (d, fr) := by
  by_cases hc : st.group_mid ≠ -1 ∧
      ru.m_router.get_id.tdiv ru.m_router.get_net_ptr.getRoutersPerGroup = st.group_mid
  · rw [detourTail_cleared ru inport_dirn _ group_dst st hc]
    have hn : ¬ ((-1 : Int) ≠ -1 ∧
        ru.m_router.get_id.tdiv ru.m_router.get_net_ptr.getRoutersPerGroup = -1) :=
      fun h => h.1 rfl
    exact ⟨_, _, detourTail_pending_returns ru inport_dirn group_dst _ hn hin hC⟩
  · exact ⟨_, _, detourTail_pending_returns ru inport_dirn group_dst st hc hin hC⟩

/-- Away from the source block, `outportComputeUGAL` is its guards followed by
the shared tail on the route's own intermediate group. -/
theorem outportDirnUGAL_not_source {D : Type} (ru : RoutingUnit D) (random_mt : List Nat)
    (route : RouteInfo D) (inport_dirn : PortDirection) (t_flit : RouteInfo D)
    (hsrc : ¬ (ru.m_router.get_net_ptr.getNumGroups > 2 ∧
      ru.m_router.get_id.tdiv ru.m_router.get_net_ptr.getRoutersPerGroup ≠
        route.dest_router.tdiv ru.m_router.get_net_ptr.getRoutersPerGroup ∧
      ru.m_router.get_id = route.src_router)) :
    outportDirnUGAL ru random_mt route inport_dirn t_flit =
      if ¬ (ru.m_router.get_net_ptr.getNumRouters > 0) then .error Abort.assertion
      else if ¬ (ru.m_router.get_id ≠ route.dest_router) then .error Abort.assertion
      else if ru.m_router.get_net_ptr.getRoutersPerGroup = 0 then .error Abort.divideByZero
      else detourTail ru inport_dirn
        (ru.m_router.get_id.tdiv ru.m_router.get_net_ptr.getRoutersPerGroup)
        (route.dest_router.tdiv ru.m_router.get_net_ptr.getRoutersPerGroup)
        { group_mid := route.intermediate_group, route := route, t_flit := t_flit } := by
  unfold outportDirnUGAL
  dsimp only
  rw [if_neg hsrc]

/-- Away from the source block, `outportComputeDragonflyVAL` is its guards
followed by the shared tail on the route's own intermediate group. -/
theorem outportDirnDragonflyVAL_not_source {D : Type} (ru : RoutingUnit D)
    (random_mt : List Nat) (route : RouteInfo D) (inport_dirn : PortDirection)
    (t_flit : RouteInfo D)
    (hsrc : ¬ (ru.m_router.get_net_ptr.getNumGroups > 2 ∧
      ru.m_router.get_id.tdiv ru.m_router.get_net_ptr.getRoutersPerGroup ≠
        route.dest_router.tdiv ru.m_router.get_net_ptr.getRoutersPerGroup ∧
      ru.m_router.get_id = route.src_router)) :
    outportDirnDragonflyVAL ru random_mt route inport_dirn t_flit =
      if ¬ (ru.m_router.get_net_ptr.getNumRouters > 0) then .error Abort.assertion
      else if ¬ (ru.m_router.get_id ≠ route.dest_router) then .error Abort.assertion
      else if ru.m_router.get_net_ptr.getRoutersPerGroup = 0 then .error Abort.divideByZero
      else detourTail ru inport_dirn
        (ru.m_router.get_id.tdiv ru.m_router.get_net_ptr.getRoutersPerGroup)
        (route.dest_router.tdiv ru.m_router.get_net_ptr.getRoutersPerGroup)
        { group_mid := route.intermediate_group, route := route, t_flit := t_flit } := by
  unfold outportDirnDragonflyVAL
  dsimp only
  rw [if_neg hsrc]

/-- In the source block, `outportComputeUGAL` is its guards, the source block and
the shared tail. -/
theorem outportDirnUGAL_source {D : Type} (ru : RoutingUnit D) (random_mt : List Nat)
    (route : RouteInfo D) (inport_dirn : PortDirection) (t_flit : RouteInfo D)
    (hnum : ru.m_router.get_net_ptr.getNumRouters > 0)
    (hne : ru.m_router.get_id ≠ route.dest_router)
    (hR : ru.m_router.get_net_ptr.getRoutersPerGroup ≠ 0)
    (hsrc : ru.m_router.get_net_ptr.getNumGroups > 2 ∧
      ru.m_router.get_id.tdiv ru.m_router.get_net_ptr.getRoutersPerGroup ≠
        route.dest_router.tdiv ru.m_router.get_net_ptr.getRoutersPerGroup ∧
      ru.m_router.get_id = route.src_router) :
    outportDirnUGAL ru random_mt route inport_dirn t_flit =
      match ugalSourceBlock ru random_mt
        (ru.m_router.get_id.tdiv ru.m_router.get_net_ptr.getRoutersPerGroup)
        (route.dest_router.tdiv ru.m_router.get_net_ptr.getRoutersPerGroup)
        { group_mid := route.intermediate_group, route := route, t_flit := t_flit } with
      | .error a => .error a
      | .ok st => detourTail ru inport_dirn
        (ru.m_router.get_id.tdiv ru.m_router.get_net_ptr.getRoutersPerGroup)
        (route.dest_router.tdiv ru.m_router.get_net_ptr.getRoutersPerGroup) st := by
  unfold outportDirnUGAL
  dsimp only
  rw [if_neg (not_not.2 hnum), if_neg (not_not.2 hne), if_neg hR, if_pos hsrc]

/-- In the source block, `outportComputeDragonflyVAL` is its guards, the source
block and the shared tail. -/
theorem outportDirnDragonflyVAL_source {D : Type} (ru : RoutingUnit D)
    (random_mt : List Nat) (route : RouteInfo D) (inport_dirn : PortDirection)
    (t_flit : RouteInfo D)
    (hnum : ru.m_router.get_net_ptr.getNumRouters > 0)
    (hne : ru.m_router.get_id ≠ route.dest_router)
    (hR : ru.m_router.get_net_ptr.getRoutersPerGroup ≠ 0)
    (hsrc : ru.m_router.get_net_ptr.getNumGroups > 2 ∧
      ru.m_router.get_id.tdiv ru.m_router.get_net_ptr.getRoutersPerGroup ≠
        route.dest_router.tdiv ru.m_router.get_net_ptr.getRoutersPerGroup ∧
      ru.m_router.get_id = route.src_router) :
    outportDirnDragonflyVAL ru random_mt route inport_dirn t_flit =
      match valSourceBlock random_mt
        (ru.m_router.get_id.tdiv ru.m_router.get_net_ptr.getRoutersPerGroup)
        (route.dest_router.tdiv ru.m_router.get_net_ptr.getRoutersPerGroup)
        { group_mid := route.intermediate_group, route := route, t_flit := t_flit } with
      | .error a => .error a
      | .ok st => detourTail ru inport_dirn
        (ru.m_router.get_id.tdiv ru.m_router.get_net_ptr.getRoutersPerGroup)
        (route.dest_router.tdiv ru.m_router.get_net_ptr.getRoutersPerGroup) st := by
  unfold outportDirnDragonflyVAL
  dsimp only
  rw [if_neg (not_not.2 hnum), if_neg (not_not.2 hne), if_neg hR, if_pos hsrc]

/-- A returning `outportComputeUGAL` or `outportComputeDragonflyVAL` passed the
three guards. -/
theorem detour_guards {D : Type} (ru : RoutingUnit D) (route : RouteInfo D)
    (x : Except Abort (PortDirection × RouteInfo D)) (p : PortDirection × RouteInfo D)
    (h : (if ¬ (ru.m_router.get_net_ptr.getNumRouters > 0) then .error Abort.assertion
      else if ¬ (ru.m_router.get_id ≠ route.dest_router) then .error Abort.assertion
      else if ru.m_router.get_net_ptr.getRoutersPerGroup = 0 then .error Abort.divideByZero
      else x) = .ok p) : x = .ok p := by
  split_ifs at h
  exact h

/-- The draw the selection loop stops on: one of the draws, and neither the
current nor the destination group. -/
theorem pickGroupMid_ok (group_cur group_dst : Int) (random_mt : List Nat) (g : Int)
    (h : pickGroupMid group_cur group_dst random_mt = .ok g) :
    (∃ draw ∈ random_mt, g = (draw : Int)) ∧ g ≠ group_cur ∧ g ≠ group_dst := by
  induction random_mt with
  | nil => simp [pickGroupMid] at h
  | cons x rest ih =>
    unfold pickGroupMid at h
    by_cases hx : (x : Int) = group_cur ∨ (x : Int) = group_dst
    · rw [if_pos hx] at h
      obtain ⟨⟨draw, hmem, hg⟩, h2, h3⟩ := ih h
      exact ⟨⟨draw, List.mem_cons_of_mem _ hmem, hg⟩, h2, h3⟩
    · rw [if_neg hx] at h
      cases h
      exact ⟨⟨x, List.mem_cons_self _ _, rfl⟩, fun h => hx (Or.inl h), fun h => hx (Or.inr h)⟩

/-! ## Claims about minimal dragonfly routing -/

/-- The index of the local channel from in-group position `a` to the different
in-group position `b` of a group of `R` routers. -/
theorem local_channel_index (R a b k : Int) (ha : 0 ≤ a) (haR : a < R) (hb : 0 ≤ b)
    (hbR : b < R) (hab : a ≠ b)
    (hk : k = if b - a > 0 then b - a - 1 else b - a - 1 + R) :
    0 ≤ k ∧ k ≤ R - 2 ∧ (a + k + 1) % R = b := by
  split_ifs at hk with h
  · refine ⟨by omega, by omega, ?_⟩
    have : a + k + 1 = b := by omega
    rw [this]
    exact Int.emod_eq_of_lt hb hbR
  · refine ⟨by omega, by omega, ?_⟩
    have : a + k + 1 = b + R := by omega
    rw [this, Int.add_emod_self]
    exact Int.emod_eq_of_lt hb hbR

/-- The minimal label inside the target group. -/
theorem minimalDirn_same_group (G R C my gd dest : Int) (hgc : my.tdiv R = gd) :
    minimalDirn G R C my gd dest =
      "Local" ++ toString (if dest - my > 0 then dest - my - 1 else dest - my - 1 + R) := by
  unfold minimalDirn
  dsimp only
  rw [if_neg (not_not.2 hgc)]

/-- The minimal label towards another group, in terms of the group gap and of
the in-group index of the exit router. -/
theorem minimalDirn_cross_group (G R C my gd dest gc gap e : Int) (hgc : my.tdiv R = gc)
    (hne : gc ≠ gd)
    (hgap : (if gd - gc > 0 then gd - gc - 1 else gd - gc - 1 + G) = gap)
    (he : gap.tdiv C = e) :
    minimalDirn G R C my gd dest =
      if my ≠ gc * R + e then
        "Local" ++ toString
          (if gc * R + e - my > 0 then gc * R + e - my - 1 else gc * R + e - my - 1 + R)
      else "Global" ++ toString (gap - e * C) := by
  unfold minimalDirn
  dsimp only
  rw [hgc, if_pos hne, hgap, he]

/-- The gap the source computes between two different groups of `[0, G)` is
`(group_dst - group_cur - 1) mod G`, and lies in `[0, G - 2]`. -/
theorem group_gap_eq (G gc gd : Int) (hgc : 0 ≤ gc) (hgcG : gc < G) (hgd : 0 ≤ gd)
    (hgdG : gd < G) (hne : gc ≠ gd) :
    (if gd - gc > 0 then gd - gc - 1 else gd - gc - 1 + G) = (gd - gc - 1) % G ∧
    0 ≤ (gd - gc - 1) % G ∧ (gd - gc - 1) % G ≤ G - 2 := by
  have key : (if gd - gc > 0 then gd - gc - 1 else gd - gc - 1 + G) = (gd - gc - 1) % G := by
    split_ifs with h
    · exact (Int.emod_eq_of_lt (by omega) (by omega)).symm
    · rw [← @Int.add_emod_self (gd - gc - 1) G]
      exact (Int.emod_eq_of_lt (by omega) (by omega)).symm
  refine ⟨key, ?_, ?_⟩
  · rw [← key]; split_ifs <;> omega
  · rw [← key]; split_ifs <;> omega

/-- A returning `outportComputeDragonflyMinimal` returns the port of the label
it computed. -/
theorem outportComputeDragonflyMinimal_ok {D : Type} (ru : RoutingUnit D)
    (route : RouteInfo D) (inport : Int) (inport_dirn : PortDirection) (t_flit : RouteInfo D)
    (r : Routed D)
    (h : outportComputeDragonflyMinimal ru route inport inport_dirn t_flit = .ok r) :
    ru.m_router.get_id ≠ route.dest_router ∧
    r = returnOutport ru t_flit (minimalDirn ru.m_router.get_net_ptr.getNumGroups
      ru.m_router.get_net_ptr.getRoutersPerGroup
      ru.m_router.get_net_ptr.getGlobalChannelsPerRouter ru.m_router.get_id
      (route.dest_router.tdiv ru.m_router.get_net_ptr.getRoutersPerGroup)
      route.dest_router) := by
  unfold outportComputeDragonflyMinimal at h
  cases hd : outportDirnDragonflyMinimal ru route inport_dirn with
  | error a => rw [hd] at h; cases h
  | ok d =>
    rw [hd] at h
    cases h
    obtain ⟨_, hne, _, hlabel⟩ := outportDirnDragonflyMinimal_ok ru route inport_dirn d hd
    exact ⟨hne, by rw [hlabel]⟩

/-- C12: for `R >= 2` routers per group and two routers of the same group,
whenever `outportComputeDragonflyMinimal` returns it returns the port of the
label "Local" followed by `k`, with `0 <= k <= R - 2` and
`(current_in_group + k + 1) mod R = destination_in_group`: the one local
channel that reaches the destination router. -/
theorem outportComputeDragonflyMinimal_same_group_local_channel {D : Type}
    (ru : RoutingUnit D) (route : RouteInfo D) (inport : Int) (inport_dirn : PortDirection)
    (t_flit : RouteInfo D) (r : Routed D) (R : Int)
    (hR : ru.m_router.get_net_ptr.getRoutersPerGroup = R) (hR2 : 2 ≤ R)
    (hmy : 0 ≤ ru.m_router.get_id) (hd : 0 ≤ route.dest_router)
    (hgrp : ru.m_router.get_id / R = route.dest_router / R)
    (h : outportComputeDragonflyMinimal ru route inport inport_dirn t_flit = .ok r) :
    ∃ k : Int, r = returnOutport ru t_flit ("Local" ++ toString k) ∧
      0 ≤ k ∧ k ≤ R - 2 ∧ (ru.m_router.get_id % R + k + 1) % R = route.dest_router % R := by
  obtain ⟨hne, hr⟩ := outportComputeDragonflyMinimal_ok ru route inport inport_dirn t_flit r h
  rw [hR] at hr
  have hR0 : 0 ≤ R := by omega
  have hsame : ru.m_router.get_id.tdiv R = route.dest_router.tdiv R := by
    rw [Int.tdiv_eq_ediv hmy hR0, Int.tdiv_eq_ediv hd hR0, hgrp]
  rw [minimalDirn_same_group _ R _ _ _ _ hsame] at hr
  refine ⟨_, hr, ?_⟩
  have h1 := Int.ediv_add_emod ru.m_router.get_id R
  have h2 := Int.ediv_add_emod route.dest_router R
  rw [← hgrp] at h2
  have ha0 := Int.emod_nonneg ru.m_router.get_id (show R ≠ 0 by omega)
  have ha1 := Int.emod_lt_of_pos ru.m_router.get_id (show 0 < R by omega)
  have hb0 := Int.emod_nonneg route.dest_router (show R ≠ 0 by omega)
  have hb1 := Int.emod_lt_of_pos route.dest_router (show 0 < R by omega)
  apply local_channel_index R _ _ _ ha0 ha1 hb0 hb1
  · intro hab
    apply hne
    omega
  · have hdiff : route.dest_router - ru.m_router.get_id =
        route.dest_router % R - ru.m_router.get_id % R := by
      omega
    rw [hdiff]

/-- Witness for C12: router 0 of a dragonfly of 3 groups of 3 routers routes to
router 2 of its own group. -/
theorem outportComputeDragonflyMinimal_same_group_local_channel_witness :
    ∃ k : Int,
      returnOutport (dragonflyUnit .DRAGONFLY_MINIMAL_ 3 3 1 0 (fun _ _ => 0) (fun _ _ => []))
          (detourRoute 0 2 (-1)) "Local1" =
        returnOutport (dragonflyUnit .DRAGONFLY_MINIMAL_ 3 3 1 0 (fun _ _ => 0) (fun _ _ => []))
          (detourRoute 0 2 (-1)) ("Local" ++ toString k) ∧
      0 ≤ k ∧ k ≤ 3 - 2 ∧
      ((dragonflyUnit .DRAGONFLY_MINIMAL_ 3 3 1 0 (fun _ _ => 0)
          (fun _ _ => [])).m_router.get_id % 3 + k + 1) % 3 =
        (detourRoute 0 2 (-1)).dest_router % 3 :=
  outportComputeDragonflyMinimal_same_group_local_channel
    (dragonflyUnit .DRAGONFLY_MINIMAL_ 3 3 1 0 (fun _ _ => 0) (fun _ _ => []))
    (detourRoute 0 2 (-1)) 0 "Local" (detourRoute 0 2 (-1))
    (returnOutport (dragonflyUnit .DRAGONFLY_MINIMAL_ 3 3 1 0 (fun _ _ => 0) (fun _ _ => []))
      (detourRoute 0 2 (-1)) "Local1")
    3 rfl (by decide) (by decide) (by decide) (by decide) rfl

/-- C13 (as stated, refuted): with G = 4 groups, R = 2 routers per group and
C = 1 global channel per router, router 0 routes to router 6 of group 3: the
gap is 2, the exit router 0 * 2 + 2 / 1 = 2 is not the current router, and
`outportComputeDragonflyMinimal` returns the port of "Local1", whose index
k = 1 exceeds R - 2 = 0. -/
theorem outportComputeDragonflyMinimal_exit_outside_group :
    ((6 : Int) / 2 - 0 / 2 - 1) % 4 = 2 ∧
    outportDirnDragonflyMinimal
      (dragonflyUnit .DRAGONFLY_MINIMAL_ 4 2 1 0 (fun _ _ => 0) (fun _ _ => []))
      (detourRoute 0 6 (-1)) "Local" = .ok "Local1" ∧
    (outportComputeDragonflyMinimal
      (dragonflyUnit .DRAGONFLY_MINIMAL_ 4 2 1 0 (fun _ _ => 0) (fun _ _ => []))
      (detourRoute 0 6 (-1)) 0 "Local" (detourRoute 0 6 (-1))).map Routed.outport = .ok 2 ∧
    ¬ ((1 : Int) ≤ 2 - 2) := by
  decide

/-- The minimal label towards another group of a dragonfly in which every
remote group has its exit router inside the current group. -/
theorem minimalDirn_cross_group_spec (G R C my gd dest : Int) (hR : 0 < R) (hC : 0 < C)
    (hmy : 0 ≤ my) (hmyG : my < G * R) (hgd : 0 ≤ gd) (hgdG : gd < G) (hne : my / R ≠ gd)
    (hwf : G ≤ R * C + 1) :
    (my ≠ my / R * R + (gd - my / R - 1) % G / C →
      ∃ k : Int, minimalDirn G R C my gd dest = "Local" ++ toString k ∧ 0 ≤ k ∧ k ≤ R - 2 ∧
        (my % R + k + 1) % R = (my / R * R + (gd - my / R - 1) % G / C) % R) ∧
    (my = my / R * R + (gd - my / R - 1) % G / C →
      minimalDirn G R C my gd dest = "Global" ++ toString ((gd - my / R - 1) % G % C) ∧
      0 ≤ (gd - my / R - 1) % G % C ∧ (gd - my / R - 1) % G % C < C) := by
  have hgc0 : 0 ≤ my / R := Int.ediv_nonneg hmy hR.le
  have hgcG : my / R < G := Int.ediv_lt_of_lt_mul hR hmyG
  obtain ⟨hgap, hgap0, hgapG⟩ := group_gap_eq G (my / R) gd hgc0 hgcG hgd hgdG hne
  have he0 : 0 ≤ (gd - my / R - 1) % G / C := Int.ediv_nonneg hgap0 hC.le
  have heR : (gd - my / R - 1) % G / C < R :=
    Int.ediv_lt_of_lt_mul hC (by omega)
  have hlabel := minimalDirn_cross_group G R C my gd dest (my / R) ((gd - my / R - 1) % G)
    ((gd - my / R - 1) % G / C) (Int.tdiv_eq_ediv hmy hR.le) hne hgap
    (Int.tdiv_eq_ediv hgap0 hC.le)
  have hmyeq := Int.ediv_add_emod my R
  have ha0 := Int.emod_nonneg my hR.ne'
  have ha1 := Int.emod_lt_of_pos my hR
  have hexit : (my / R * R + (gd - my / R - 1) % G / C) % R = (gd - my / R - 1) % G / C := by
    rw [add_comm, Int.add_mul_emod_self]
    exact Int.emod_eq_of_lt he0 heR
  have hcomm : my / R * R = R * (my / R) := mul_comm _ _
  constructor
  · intro hexitne
    rw [hlabel, if_pos hexitne, hexit]
    refine ⟨_, rfl, ?_⟩
    apply local_channel_index R _ _ _ ha0 ha1 he0 heR
    · intro hab
      apply hexitne
      omega
    · have hdiff : my / R * R + (gd - my / R - 1) % G / C - my =
          (gd - my / R - 1) % G / C - my % R := by
        omega
      rw [hdiff]
  · intro hexiteq
    rw [hlabel, if_neg (not_not.2 hexiteq)]
    have hmod : (gd - my / R - 1) % G - (gd - my / R - 1) % G / C * C =
        (gd - my / R - 1) % G % C := by
      rw [Int.emod_def ((gd - my / R - 1) % G) C, mul_comm]
    rw [hmod]
    exact ⟨rfl, Int.emod_nonneg _ hC.ne', Int.emod_lt_of_pos _ hC⟩

/-- C13 (amended): for G groups, R routers per group and C global channels per
router with `G <= R * C + 1`, router ids in `[0, G * R)` and a destination in
another group, let `gap = (group_dst - group_cur - 1) mod G` and
`exit = group_cur * R + gap / C`.  Whenever `outportComputeDragonflyMinimal`
returns: if the current router is not `exit` it returns the port of "Local"
followed by `k`, with `0 <= k <= R - 2` and
`(current_in_group + k + 1) mod R = exit_in_group`; if the current router is
`exit` it returns the port of "Global" followed by `gap mod C`, which lies in
`[0, C)`. -/
theorem outportComputeDragonflyMinimal_cross_group_channels {D : Type}
    (ru : RoutingUnit D) (route : RouteInfo D) (inport : Int) (inport_dirn : PortDirection)
    (t_flit : RouteInfo D) (r : Routed D) (G R C : Int)
    (hG : ru.m_router.get_net_ptr.getNumGroups = G)
    (hR : ru.m_router.get_net_ptr.getRoutersPerGroup = R)
    (hC : ru.m_router.get_net_ptr.getGlobalChannelsPerRouter = C)
    (hRpos : 0 < R) (hCpos : 0 < C) (hwf : G ≤ R * C + 1)
    (hmy : 0 ≤ ru.m_router.get_id) (hmyG : ru.m_router.get_id < G * R)
    (hd : 0 ≤ route.dest_router) (hdG : route.dest_router < G * R)
    (hgrp : ru.m_router.get_id / R ≠ route.dest_router / R)
    (h : outportComputeDragonflyMinimal ru route inport inport_dirn t_flit = .ok r) :
    (ru.m_router.get_id ≠ ru.m_router.get_id / R * R +
        (route.dest_router / R - ru.m_router.get_id / R - 1) % G / C →
      ∃ k : Int, r = returnOutport ru t_flit ("Local" ++ toString k) ∧ 0 ≤ k ∧ k ≤ R - 2 ∧
        (ru.m_router.get_id % R + k + 1) % R =
          (ru.m_router.get_id / R * R +
            (route.dest_router / R - ru.m_router.get_id / R - 1) % G / C) % R) ∧
    (ru.m_router.get_id = ru.m_router.get_id / R * R +
        (route.dest_router / R - ru.m_router.get_id / R - 1) % G / C →
      r = returnOutport ru t_flit
        ("Global" ++ toString ((route.dest_router / R - ru.m_router.get_id / R - 1) % G % C)) ∧
      0 ≤ (route.dest_router / R - ru.m_router.get_id / R - 1) % G % C ∧
      (route.dest_router / R - ru.m_router.get_id / R - 1) % G % C < C) := by
  obtain ⟨_, hr⟩ := outportComputeDragonflyMinimal_ok ru route inport inport_dirn t_flit r h
  rw [hG, hR, hC, Int.tdiv_eq_ediv hd hRpos.le] at hr
  obtain ⟨hloc, hglob⟩ := minimalDirn_cross_group_spec G R C ru.m_router.get_id
    (route.dest_router / R) route.dest_router hRpos hCpos hmy hmyG
    (Int.ediv_nonneg hd hRpos.le) (Int.ediv_lt_of_lt_mul hRpos hdG) hgrp hwf
  constructor
  · intro hne
    obtain ⟨k, hk, hk0, hk1, hk2⟩ := hloc hne
    exact ⟨k, by rw [hr, hk], hk0, hk1, hk2⟩
  · intro heq
    obtain ⟨hk, hk0, hk1⟩ := hglob heq
    exact ⟨by rw [hr, hk], hk0, hk1⟩

/-- Witness for C13 (amended): router 1 of a dragonfly of 3 groups of 3 routers
with one global channel each routes to router 4 of group 1, through the exit
router 0. -/
theorem outportComputeDragonflyMinimal_cross_group_channels_witness :
    ((dragonflyUnit .DRAGONFLY_MINIMAL_ 3 3 1 1 (fun _ _ => 0) (fun _ _ => [])).m_router.get_id ≠
        (dragonflyUnit .DRAGONFLY_MINIMAL_ 3 3 1 1 (fun _ _ => 0)
          (fun _ _ => [])).m_router.get_id / 3 * 3 +
        ((detourRoute 1 4 (-1)).dest_router / 3 -
          (dragonflyUnit .DRAGONFLY_MINIMAL_ 3 3 1 1 (fun _ _ => 0)
            (fun _ _ => [])).m_router.get_id / 3 - 1) % 3 / 1 →
      ∃ k : Int,
        returnOutport (dragonflyUnit .DRAGONFLY_MINIMAL_ 3 3 1 1 (fun _ _ => 0) (fun _ _ => []))
            (detourRoute 1 4 (-1)) "Local1" =
          returnOutport (dragonflyUnit .DRAGONFLY_MINIMAL_ 3 3 1 1 (fun _ _ => 0) (fun _ _ => []))
            (detourRoute 1 4 (-1)) ("Local" ++ toString k) ∧
        0 ≤ k ∧ k ≤ 3 - 2 ∧
        ((dragonflyUnit .DRAGONFLY_MINIMAL_ 3 3 1 1 (fun _ _ => 0)
            (fun _ _ => [])).m_router.get_id % 3 + k + 1) % 3 =
          ((dragonflyUnit .DRAGONFLY_MINIMAL_ 3 3 1 1 (fun _ _ => 0)
              (fun _ _ => [])).m_router.get_id / 3 * 3 +
            ((detourRoute 1 4 (-1)).dest_router / 3 -
              (dragonflyUnit .DRAGONFLY_MINIMAL_ 3 3 1 1 (fun _ _ => 0)
                (fun _ _ => [])).m_router.get_id / 3 - 1) % 3 / 1) % 3) ∧
    ((dragonflyUnit .DRAGONFLY_MINIMAL_ 3 3 1 1 (fun _ _ => 0) (fun _ _ => [])).m_router.get_id =
        (dragonflyUnit .DRAGONFLY_MINIMAL_ 3 3 1 1 (fun _ _ => 0)
          (fun _ _ => [])).m_router.get_id / 3 * 3 +
        ((detourRoute 1 4 (-1)).dest_router / 3 -
          (dragonflyUnit .DRAGONFLY_MINIMAL_ 3 3 1 1 (fun _ _ => 0)
            (fun _ _ => [])).m_router.get_id / 3 - 1) % 3 / 1 →
      returnOutport (dragonflyUnit .DRAGONFLY_MINIMAL_ 3 3 1 1 (fun _ _ => 0) (fun _ _ => []))
          (detourRoute 1 4 (-1)) "Local1" =
        returnOutport (dragonflyUnit .DRAGONFLY_MINIMAL_ 3 3 1 1 (fun _ _ => 0) (fun _ _ => []))
          (detourRoute 1 4 (-1))
          ("Global" ++ toString (((detourRoute 1 4 (-1)).dest_router / 3 -
            (dragonflyUnit .DRAGONFLY_MINIMAL_ 3 3 1 1 (fun _ _ => 0)
              (fun _ _ => [])).m_router.get_id / 3 - 1) % 3 % 1)) ∧
      0 ≤ ((detourRoute 1 4 (-1)).dest_router / 3 -
        (dragonflyUnit .DRAGONFLY_MINIMAL_ 3 3 1 1 (fun _ _ => 0)
          (fun _ _ => [])).m_router.get_id / 3 - 1) % 3 % 1 ∧
      ((detourRoute 1 4 (-1)).dest_router / 3 -
        (dragonflyUnit .DRAGONFLY_MINIMAL_ 3 3 1 1 (fun _ _ => 0)
          (fun _ _ => [])).m_router.get_id / 3 - 1) % 3 % 1 < 1) :=
  outportComputeDragonflyMinimal_cross_group_channels
    (dragonflyUnit .DRAGONFLY_MINIMAL_ 3 3 1 1 (fun _ _ => 0) (fun _ _ => []))
    (detourRoute 1 4 (-1)) 0 "Local" (detourRoute 1 4 (-1))
    (returnOutport (dragonflyUnit .DRAGONFLY_MINIMAL_ 3 3 1 1 (fun _ _ => 0) (fun _ _ => []))
      (detourRoute 1 4 (-1)) "Local1")
    3 3 1 rfl rfl rfl (by decide) (by decide) (by decide) (by decide) (by decide) (by decide)
    (by decide) (by decide) rfl

/-! ## Claims about the adaptive dragonfly algorithms -/

theorem accumulate_foldl (v : List Nat) : ∀ acc : Nat,
    v.foldl (fun acc x => (acc + x) % 2 ^ 32) (acc % 2 ^ 32) = (acc + v.sum) % 2 ^ 32 := by
  induction v with
  | nil => intro acc; simp
  | cons x xs ih =>
    intro acc
    rw [List.foldl_cons, List.sum_cons]
    have h := ih (acc % 2 ^ 32 + x)
    rw [h]
    omega

/-- The `unsigned int` sum is the exact sum as long as it fits in an `int`. -/
theorem toInt_accumulate (v : List Nat) (hfit : v.sum < 2 ^ 31) :
    toInt (accumulate v) = (v.sum : Int) := by
  have h := accumulate_foldl v 0
  have hacc : accumulate v = v.sum := by
    unfold accumulate
    rw [show (0 : Nat) = 0 % 2 ^ 32 by rfl, h]
    omega
  rw [hacc]
  unfold toInt
  have hmod : v.sum % 2 ^ 32 = v.sum := by omega
  rw [hmod, if_pos hfit]

/-- An entry of a sample whose sum fits in an `int` converts to itself. -/
theorem toInt_entry (v : List Nat) (i x : Nat) (hfit : v.sum < 2 ^ 31)
    (hx : v[i]? = some x) : toInt x = (x : Int) := by
  have hle : x ≤ v.sum := List.le_sum_of_mem (List.getElem?_mem hx)
  unfold toInt
  have hmod : x % 2 ^ 32 = x := by omega
  rw [hmod, if_pos (by omega)]

/-- The source block of `outportComputeUGAL` once the candidate group is drawn
and both samples hold the entries read: it commits to the candidate exactly
when the comparison of the machine values favours the detour. -/
theorem ugalSourceBlock_ok {D : Type} (ru : RoutingUnit D) (random_mt : List Nat)
    (group_cur group_dst : Int) (st : DetourState D) (g : Int) (m3 v0 : Nat)
    (hpick : pickGroupMid group_cur group_dst random_mt = .ok g)
    (hC : ru.m_router.get_net_ptr.getGlobalChannelsPerRouter ≠ 0)
    (hm3 : (ugalSamples ru group_cur group_dst g).1[3]? = some m3)
    (hv0 : (ugalSamples ru group_cur group_dst g).2[0]? = some v0) :
    (ugalCommits (toInt (accumulate (ugalSamples ru group_cur group_dst g).1))
        (toInt (accumulate (ugalSamples ru group_cur group_dst g).2)) (toInt m3) (toInt v0)
        (ugalSampledPorts ru.m_router.get_net_ptr.getNumGroups
          ru.m_router.get_net_ptr.getRoutersPerGroup
          ru.m_router.get_net_ptr.getGlobalChannelsPerRouter ru.m_router.get_id
          group_cur group_dst g).1.1
        (ugalSampledPorts ru.m_router.get_net_ptr.getNumGroups
          ru.m_router.get_net_ptr.getRoutersPerGroup
          ru.m_router.get_net_ptr.getGlobalChannelsPerRouter ru.m_router.get_id
          group_cur group_dst g).2.1 →
      ugalSourceBlock ru random_mt group_cur group_dst st =
        .ok { group_mid := g, route := { st.route with intermediate_group := g },
              t_flit := { st.route with intermediate_group := g } }) ∧
    (¬ ugalCommits (toInt (accumulate (ugalSamples ru group_cur group_dst g).1))
        (toInt (accumulate (ugalSamples ru group_cur group_dst g).2)) (toInt m3) (toInt v0)
        (ugalSampledPorts ru.m_router.get_net_ptr.getNumGroups
          ru.m_router.get_net_ptr.getRoutersPerGroup
          ru.m_router.get_net_ptr.getGlobalChannelsPerRouter ru.m_router.get_id
          group_cur group_dst g).1.1
        (ugalSampledPorts ru.m_router.get_net_ptr.getNumGroups
          ru.m_router.get_net_ptr.getRoutersPerGroup
          ru.m_router.get_net_ptr.getGlobalChannelsPerRouter ru.m_router.get_id
          group_cur group_dst g).2.1 →
      ugalSourceBlock ru random_mt group_cur group_dst st =
        .ok { st with group_mid := -1 }) := by
  unfold ugalSamples ugalSampledPorts at hm3 hv0
  dsimp only at hm3 hv0
  unfold ugalCommits ugalSamples ugalSampledPorts ugalSourceBlock
  dsimp only
  rw [hpick]
  dsimp only
  rw [if_neg hC, hm3, hv0]
  dsimp only
  constructor
  · intro h
    rw [if_pos h]
  · intro h
    rw [if_neg h]

/-- A product that fits in an `int` is computed exactly. -/
theorem mulInt_exact (a b : Int) (h0 : -2 ^ 31 ≤ a * b) (h1 : a * b < 2 ^ 31) :
    mulInt a b = a * b := by
  unfold mulInt
  generalize a * b = x at h0 h1
  omega

/-- For samples whose sums, times 3 on the minimal side and times 5 on the detour
side, fit in an `int`, the test of the code on its machine values is the
comparison of the exact sums and entries. -/
theorem ugalCommits_iff_prefers (s1 s2 : List Nat) (m3 v0 : Nat) (router_min router_val : Int)
    (hfit1 : 3 * s1.sum < 2 ^ 31) (hfit2 : 5 * s2.sum < 2 ^ 31)
    (hm3 : s1[3]? = some m3) (hv0 : s2[0]? = some v0) :
    ugalCommits (toInt (accumulate s1)) (toInt (accumulate s2)) (toInt m3) (toInt v0)
        router_min router_val ↔
      ugalPrefersDetour (s1.sum : Int) (s2.sum : Int) (m3 : Int) (v0 : Int)
        router_min router_val := by
  have hm3le : m3 ≤ s1.sum := List.le_sum_of_mem (List.getElem?_mem hm3)
  have hv0le : v0 ≤ s2.sum := List.le_sum_of_mem (List.getElem?_mem hv0)
  rw [toInt_accumulate s1 (by omega), toInt_accumulate s2 (by omega),
    toInt_entry s1 3 m3 (by omega) hm3, toInt_entry s2 0 v0 (by omega) hv0]
  unfold ugalCommits ugalPrefersDetour
  rw [mulInt_exact (s2.sum : Int) 5 (by omega) (by omega),
    mulInt_exact (s1.sum : Int) 3 (by omega) (by omega),
    mulInt_exact (v0 : Int) 5 (by omega) (by omega),
    mulInt_exact (m3 : Int) 3 (by omega) (by omega)]

/-- A returning `outportComputeUGAL` is a returning label computation followed by
the map read. -/
theorem outportComputeUGAL_inv {D : Type} (ru : RoutingUnit D) (random_mt : List Nat)
    (route : RouteInfo D) (inport : Int) (inport_dirn : PortDirection) (t_flit : RouteInfo D)
    (r : Routed D)
    (h : outportComputeUGAL ru random_mt route inport inport_dirn t_flit = .ok r) :
    ∃ d fr, outportDirnUGAL ru random_mt route inport_dirn t_flit = .ok (d, fr) ∧
      r = returnOutport ru fr d := by
  unfold outportComputeUGAL at h
  cases hd : outportDirnUGAL ru random_mt route inport_dirn t_flit with
  | error a => rw [hd] at h; cases h
  | ok p =>
    obtain ⟨d, fr⟩ := p
    rw [hd] at h
    cases h
    exact ⟨d, fr, rfl, rfl⟩

/-- A returning `outportComputeDragonflyVAL` is a returning label computation
followed by the map read. -/
theorem outportComputeDragonflyVAL_inv {D : Type} (ru : RoutingUnit D) (random_mt : List Nat)
    (route : RouteInfo D) (inport : Int) (inport_dirn : PortDirection) (t_flit : RouteInfo D)
    (r : Routed D)
    (h : outportComputeDragonflyVAL ru random_mt route inport inport_dirn t_flit = .ok r) :
    ∃ d fr, outportDirnDragonflyVAL ru random_mt route inport_dirn t_flit = .ok (d, fr) ∧
      r = returnOutport ru fr d := by
  unfold outportComputeDragonflyVAL at h
  cases hd : outportDirnDragonflyVAL ru random_mt route inport_dirn t_flit with
  | error a => rw [hd] at h; cases h
  | ok p =>
    obtain ⟨d, fr⟩ := p
    rw [hd] at h
    cases h
    exact ⟨d, fr, rfl, rfl⟩

/-- A returning label computation makes `outportComputeUGAL` return. -/
theorem outportComputeUGAL_of_dirn {D : Type} (ru : RoutingUnit D) (random_mt : List Nat)
    (route : RouteInfo D) (inport : Int) (inport_dirn d : PortDirection)
    (t_flit fr : RouteInfo D)
    (h : outportDirnUGAL ru random_mt route inport_dirn t_flit = .ok (d, fr)) :
    outportComputeUGAL ru random_mt route inport inport_dirn t_flit =
      .ok (returnOutport ru fr d) := by
  unfold outportComputeUGAL
  rw [h]

/-- A returning label computation makes `outportComputeDragonflyVAL` return. -/
theorem outportComputeDragonflyVAL_of_dirn {D : Type} (ru : RoutingUnit D)
    (random_mt : List Nat) (route : RouteInfo D) (inport : Int) (inport_dirn d : PortDirection)
    (t_flit fr : RouteInfo D)
    (h : outportDirnDragonflyVAL ru random_mt route inport_dirn t_flit = .ok (d, fr)) :
    outportComputeDragonflyVAL ru random_mt route inport inport_dirn t_flit =
      .ok (returnOutport ru fr d) := by
  unfold outportComputeDragonflyVAL
  rw [h]

/-- The tail run on a state that carries a drawn candidate group `g`, different
from the current group: the flit keeps the state's route and the label is the
minimal label towards group `g`. -/
theorem detourTail_committed {D : Type} (ru : RoutingUnit D) (inport_dirn : PortDirection)
    (group_dst g : Int) (route t_flit : RouteInfo D) (hg0 : 0 ≤ g)
    (hg : g ≠ ru.m_router.get_id.tdiv ru.m_router.get_net_ptr.getRoutersPerGroup) :
    (∀ d fr, detourTail ru inport_dirn
        (ru.m_router.get_id.tdiv ru.m_router.get_net_ptr.getRoutersPerGroup) group_dst
        { group_mid := g, route := route, t_flit := t_flit } = .ok (d, fr) →
      fr = t_flit ∧ d = minimalDirn ru.m_router.get_net_ptr.getNumGroups
        ru.m_router.get_net_ptr.getRoutersPerGroup
        ru.m_router.get_net_ptr.getGlobalChannelsPerRouter ru.m_router.get_id g
        route.dest_router) ∧
    (ru.m_router.get_net_ptr.getGlobalChannelsPerRouter ≠ 0 →
      inport_dirn = "Local" ∨ inport_dirn.take 6 = "Global" →
      detourTail ru inport_dirn
        (ru.m_router.get_id.tdiv ru.m_router.get_net_ptr.getRoutersPerGroup) group_dst
        { group_mid := g, route := route, t_flit := t_flit } =
        .ok (minimalDirn ru.m_router.get_net_ptr.getNumGroups
          ru.m_router.get_net_ptr.getRoutersPerGroup
          ru.m_router.get_net_ptr.getGlobalChannelsPerRouter ru.m_router.get_id g
          route.dest_router, t_flit)) := by
  have hg1 : g ≠ -1 := by omega
  have hc : ¬ ((DetourState.mk g route t_flit).group_mid ≠ -1 ∧
      ru.m_router.get_id.tdiv ru.m_router.get_net_ptr.getRoutersPerGroup =
        (DetourState.mk g route t_flit).group_mid) := fun h => hg h.2.symm
  constructor
  · intro d fr h
    have := detourTail_pending_ok ru inport_dirn d group_dst _ fr hc h
    simpa [hg1] using this
  · intro hC hin
    have := detourTail_pending_returns ru inport_dirn group_dst _ hc hin hC
    simpa [hg1] using this

/-- The tail run on a state without pending detour: the flit keeps its route and
the label is the minimal label towards the given target group. -/
theorem detourTail_no_detour {D : Type} (ru : RoutingUnit D) (inport_dirn : PortDirection)
    (group_dst : Int) (route t_flit : RouteInfo D) :
    (∀ d fr, detourTail ru inport_dirn
        (ru.m_router.get_id.tdiv ru.m_router.get_net_ptr.getRoutersPerGroup) group_dst
        { group_mid := -1, route := route, t_flit := t_flit } = .ok (d, fr) →
      fr = t_flit ∧ d = minimalDirn ru.m_router.get_net_ptr.getNumGroups
        ru.m_router.get_net_ptr.getRoutersPerGroup
        ru.m_router.get_net_ptr.getGlobalChannelsPerRouter ru.m_router.get_id group_dst
        route.dest_router) ∧
    (ru.m_router.get_net_ptr.getGlobalChannelsPerRouter ≠ 0 →
      inport_dirn = "Local" ∨ inport_dirn.take 6 = "Global" →
      detourTail ru inport_dirn
        (ru.m_router.get_id.tdiv ru.m_router.get_net_ptr.getRoutersPerGroup) group_dst
        { group_mid := -1, route := route, t_flit := t_flit } =
        .ok (minimalDirn ru.m_router.get_net_ptr.getNumGroups
          ru.m_router.get_net_ptr.getRoutersPerGroup
          ru.m_router.get_net_ptr.getGlobalChannelsPerRouter ru.m_router.get_id group_dst
          route.dest_router, t_flit)) := by
  have hc : ¬ ((DetourState.mk (-1) route t_flit).group_mid ≠ -1 ∧
      ru.m_router.get_id.tdiv ru.m_router.get_net_ptr.getRoutersPerGroup =
        (DetourState.mk (-1) route t_flit).group_mid) := fun h => h.1 rfl
  constructor
  · intro d fr h
    have := detourTail_pending_ok ru inport_dirn d group_dst _ fr hc h
    simpa using this
  · intro hC hin
    have := detourTail_pending_returns ru inport_dirn group_dst _ hc hin hC
    simpa using this

/-- C14 (as stated, refuted): router 2 of a dragonfly of 3 groups of 3 routers is
the source of a packet for router 4 and draws the candidate group 2.  The
minimal-side sample is 100, 0, 0, 100 (sum 200) and the detour-side sample
500000000, 0, 0, 0.  On the sums the stated condition fails, since
2500000000 < 600 is false and the two routers (0 and 1) differ; but the `int`
product 500000000 * 5 is -1794967296, which is below 600, and
`outportComputeUGAL` commits: the flit gets `intermediate_group = 2` and leaves
by "Local1". -/
theorem outportComputeUGAL_commits_on_wrapped_product :
    ugalSamples heavyUgalUnit 0 1 2 = ([100, 0, 0, 100], [500000000, 0, 0, 0]) ∧
    (ugalSampledPorts 3 3 1 2 0 1 2).1.1 = 0 ∧ (ugalSampledPorts 3 3 1 2 0 1 2).2.1 = 1 ∧
    ¬ ugalPrefersDetour 200 500000000 100 500000000 0 1 ∧
    mulInt 500000000 5 = -1794967296 ∧
    outportComputeUGAL heavyUgalUnit [2] (detourRoute 2 4 (-1)) 0 "Local"
        (detourRoute 2 4 (-1)) =
      .ok (returnOutport heavyUgalUnit (detourRoute 2 4 2) "Local1") := by
  refine ⟨by decide, by decide, by decide, ?_, by decide, rfl⟩
  unfold ugalPrefersDetour
  decide

/-- C14 (amended): in `outportComputeUGAL` at the source router of a cross-group
packet with more than two groups, for the candidate group `g` the selection loop
stops on and the two load samples read through the sampled ports, when 3 times
the sum of the minimal-side sample and 5 times the sum of the detour-side
sample are below 2^31: if
`(load_val*5 < load_min*3 or router_min = router_val) and
(q_nm_vc*5 < q_m_vc*3 or router_min != router_val)` holds, with `load_min` and
`load_val` the sums of the two samples, `q_m_vc` entry 3 of the minimal-side
sample and `q_nm_vc` entry 0 of the detour-side sample, every returning call
leaves the flit with the route rewritten to `intermediate_group = g` and
returns the minimal port towards group `g`; otherwise it leaves the flit's
route unchanged and returns the minimal port towards the destination.  Entered
on "Local" the call does return. -/
theorem outportComputeUGAL_commits_iff_loads_favour_detour {D : Type} (ru : RoutingUnit D)
    (random_mt : List Nat) (route : RouteInfo D) (inport : Int) (inport_dirn : PortDirection)
    (t_flit : RouteInfo D) (g : Int) (m3 v0 : Nat)
    (hnum : ru.m_router.get_net_ptr.getNumRouters > 0)
    (hC : ru.m_router.get_net_ptr.getGlobalChannelsPerRouter ≠ 0)
    (hsrc : ru.m_router.get_net_ptr.getNumGroups > 2 ∧
      ru.m_router.get_id.tdiv ru.m_router.get_net_ptr.getRoutersPerGroup ≠
        route.dest_router.tdiv ru.m_router.get_net_ptr.getRoutersPerGroup ∧
      ru.m_router.get_id = route.src_router)
    (hpick : pickGroupMid
      (ru.m_router.get_id.tdiv ru.m_router.get_net_ptr.getRoutersPerGroup)
      (route.dest_router.tdiv ru.m_router.get_net_ptr.getRoutersPerGroup) random_mt = .ok g)
    (hm3 : (ugalSamples ru
          (ru.m_router.get_id.tdiv ru.m_router.get_net_ptr.getRoutersPerGroup)
          (route.dest_router.tdiv ru.m_router.get_net_ptr.getRoutersPerGroup) g).1[3]? = some m3)
    (hv0 : (ugalSamples ru
          (ru.m_router.get_id.tdiv ru.m_router.get_net_ptr.getRoutersPerGroup)
          (route.dest_router.tdiv ru.m_router.get_net_ptr.getRoutersPerGroup) g).2[0]? = some v0)
    (hfit1 : 3 * (ugalSamples ru
          (ru.m_router.get_id.tdiv ru.m_router.get_net_ptr.getRoutersPerGroup)
          (route.dest_router.tdiv ru.m_router.get_net_ptr.getRoutersPerGroup) g).1.sum < 2 ^ 31)
    (hfit2 : 5 * (ugalSamples ru
          (ru.m_router.get_id.tdiv ru.m_router.get_net_ptr.getRoutersPerGroup)
          (route.dest_router.tdiv ru.m_router.get_net_ptr.getRoutersPerGroup) g).2.sum < 2 ^ 31) :
    (ugalPrefersDetour
        ((ugalSamples ru
          (ru.m_router.get_id.tdiv ru.m_router.get_net_ptr.getRoutersPerGroup)
          (route.dest_router.tdiv ru.m_router.get_net_ptr.getRoutersPerGroup) g).1.sum : Int)
        ((ugalSamples ru
          (ru.m_router.get_id.tdiv ru.m_router.get_net_ptr.getRoutersPerGroup)
          (route.dest_router.tdiv ru.m_router.get_net_ptr.getRoutersPerGroup) g).2.sum : Int)
        (m3 : Int) (v0 : Int)
        (ugalSampledPorts ru.m_router.get_net_ptr.getNumGroups
          ru.m_router.get_net_ptr.getRoutersPerGroup
          ru.m_router.get_net_ptr.getGlobalChannelsPerRouter ru.m_router.get_id
          (ru.m_router.get_id.tdiv ru.m_router.get_net_ptr.getRoutersPerGroup)
          (route.dest_router.tdiv ru.m_router.get_net_ptr.getRoutersPerGroup) g).1.1
        (ugalSampledPorts ru.m_router.get_net_ptr.getNumGroups
          ru.m_router.get_net_ptr.getRoutersPerGroup
          ru.m_router.get_net_ptr.getGlobalChannelsPerRouter ru.m_router.get_id
          (ru.m_router.get_id.tdiv ru.m_router.get_net_ptr.getRoutersPerGroup)
          (route.dest_router.tdiv ru.m_router.get_net_ptr.getRoutersPerGroup) g).2.1 →
      (∀ r : Routed D,
        outportComputeUGAL ru random_mt route inport inport_dirn t_flit = .ok r →
        r = returnOutport ru { route with intermediate_group := g }
          (minimalDirn ru.m_router.get_net_ptr.getNumGroups
            ru.m_router.get_net_ptr.getRoutersPerGroup
            ru.m_router.get_net_ptr.getGlobalChannelsPerRouter ru.m_router.get_id g
            route.dest_router)) ∧
      outportComputeUGAL ru random_mt route inport "Local" t_flit =
        .ok (returnOutport ru { route with intermediate_group := g }
          (minimalDirn ru.m_router.get_net_ptr.getNumGroups
            ru.m_router.get_net_ptr.getRoutersPerGroup
            ru.m_router.get_net_ptr.getGlobalChannelsPerRouter ru.m_router.get_id g
            route.dest_router))) ∧
    (¬ ugalPrefersDetour
        ((ugalSamples ru
          (ru.m_router.get_id.tdiv ru.m_router.get_net_ptr.getRoutersPerGroup)
          (route.dest_router.tdiv ru.m_router.get_net_ptr.getRoutersPerGroup) g).1.sum : Int)
        ((ugalSamples ru
          (ru.m_router.get_id.tdiv ru.m_router.get_net_ptr.getRoutersPerGroup)
          (route.dest_router.tdiv ru.m_router.get_net_ptr.getRoutersPerGroup) g).2.sum : Int)
        (m3 : Int) (v0 : Int)
        (ugalSampledPorts ru.m_router.get_net_ptr.getNumGroups
          ru.m_router.get_net_ptr.getRoutersPerGroup
          ru.m_router.get_net_ptr.getGlobalChannelsPerRouter ru.m_router.get_id
          (ru.m_router.get_id.tdiv ru.m_router.get_net_ptr.getRoutersPerGroup)
          (route.dest_router.tdiv ru.m_router.get_net_ptr.getRoutersPerGroup) g).1.1
        (ugalSampledPorts ru.m_router.get_net_ptr.getNumGroups
          ru.m_router.get_net_ptr.getRoutersPerGroup
          ru.m_router.get_net_ptr.getGlobalChannelsPerRouter ru.m_router.get_id
          (ru.m_router.get_id.tdiv ru.m_router.get_net_ptr.getRoutersPerGroup)
          (route.dest_router.tdiv ru.m_router.get_net_ptr.getRoutersPerGroup) g).2.1 →
      (∀ r : Routed D,
        outportComputeUGAL ru random_mt route inport inport_dirn t_flit = .ok r →
        r = returnOutport ru t_flit
          (minimalDirn ru.m_router.get_net_ptr.getNumGroups
            ru.m_router.get_net_ptr.getRoutersPerGroup
            ru.m_router.get_net_ptr.getGlobalChannelsPerRouter ru.m_router.get_id
            (route.dest_router.tdiv ru.m_router.get_net_ptr.getRoutersPerGroup)
            route.dest_router)) ∧
      outportComputeUGAL ru random_mt route inport "Local" t_flit =
        .ok (returnOutport ru t_flit
          (minimalDirn ru.m_router.get_net_ptr.getNumGroups
            ru.m_router.get_net_ptr.getRoutersPerGroup
            ru.m_router.get_net_ptr.getGlobalChannelsPerRouter ru.m_router.get_id
            (route.dest_router.tdiv ru.m_router.get_net_ptr.getRoutersPerGroup)
            route.dest_router))) := by
  have hne : ru.m_router.get_id ≠ route.dest_router := by
    intro h
    exact hsrc.2.1 (by rw [h])
  have hR : ru.m_router.get_net_ptr.getRoutersPerGroup ≠ 0 := by
    intro h
    exact hsrc.2.1 (by rw [h, Int.tdiv_zero, Int.tdiv_zero])
  obtain ⟨⟨draw, _, hdraw⟩, hgc, _⟩ := pickGroupMid_ok _ _ random_mt g hpick
  have hg0 : 0 ≤ g := by rw [hdraw]; exact Int.ofNat_nonneg draw
  have hblock := ugalSourceBlock_ok ru random_mt _ _
    { group_mid := route.intermediate_group, route := route, t_flit := t_flit } g m3 v0
    hpick hC hm3 hv0
  rw [ugalCommits_iff_prefers _ _ m3 v0 _ _ hfit1 hfit2 hm3 hv0] at hblock
  have hsource : ∀ dirn : PortDirection, ∀ st : DetourState D,
      ugalSourceBlock ru random_mt
        (ru.m_router.get_id.tdiv ru.m_router.get_net_ptr.getRoutersPerGroup)
        (route.dest_router.tdiv ru.m_router.get_net_ptr.getRoutersPerGroup)
        { group_mid := route.intermediate_group, route := route, t_flit := t_flit } = .ok st →
      outportDirnUGAL ru random_mt route dirn t_flit =
        detourTail ru dirn
          (ru.m_router.get_id.tdiv ru.m_router.get_net_ptr.getRoutersPerGroup)
          (route.dest_router.tdiv ru.m_router.get_net_ptr.getRoutersPerGroup) st := by
    intro dirn st hst
    rw [outportDirnUGAL_source ru random_mt route dirn t_flit hnum hne hR hsrc, hst]
  refine ⟨?_, ?_⟩
  · intro hcond
    have hst := hblock.1 hcond
    obtain ⟨hok, hret⟩ := detourTail_committed ru inport_dirn
      (route.dest_router.tdiv ru.m_router.get_net_ptr.getRoutersPerGroup) g
      { route with intermediate_group := g } { route with intermediate_group := g } hg0 hgc
    constructor
    · intro r hr
      obtain ⟨d, fr, hd, hrd⟩ := outportComputeUGAL_inv ru random_mt route inport inport_dirn
        t_flit r hr
      rw [hsource inport_dirn _ hst] at hd
      obtain ⟨hfr, hlabel⟩ := hok d fr hd
      rw [hrd, hfr, hlabel]
    · apply outportComputeUGAL_of_dirn
      rw [hsource "Local" _ hst]
      exact (detourTail_committed ru "Local"
        (route.dest_router.tdiv ru.m_router.get_net_ptr.getRoutersPerGroup) g
        { route with intermediate_group := g } { route with intermediate_group := g }
        hg0 hgc).2 hC (Or.inl rfl)
  · intro hcond
    have hst := hblock.2 hcond
    constructor
    · intro r hr
      obtain ⟨d, fr, hd, hrd⟩ := outportComputeUGAL_inv ru random_mt route inport inport_dirn
        t_flit r hr
      rw [hsource inport_dirn _ hst] at hd
      obtain ⟨hfr, hlabel⟩ := (detourTail_no_detour ru inport_dirn
        (route.dest_router.tdiv ru.m_router.get_net_ptr.getRoutersPerGroup) route t_flit).1
        d fr hd
      rw [hrd, hfr, hlabel]
    · apply outportComputeUGAL_of_dirn
      rw [hsource "Local" _ hst]
      exact (detourTail_no_detour ru "Local"
        (route.dest_router.tdiv ru.m_router.get_net_ptr.getRoutersPerGroup) route t_flit).2
        hC (Or.inl rfl)

/-! ## Hops after the source router -/

/-- Past the source block, a returning label computation of `outportComputeUGAL`
is a returning shared tail on the route as received. -/
theorem outportDirnUGAL_not_source_ok {D : Type} (ru : RoutingUnit D) (random_mt : List Nat)
    (route : RouteInfo D) (inport_dirn : PortDirection) (t_flit : RouteInfo D)
    (p : PortDirection × RouteInfo D)
    (hsrc : ¬ (ru.m_router.get_net_ptr.getNumGroups > 2 ∧
      ru.m_router.get_id.tdiv ru.m_router.get_net_ptr.getRoutersPerGroup ≠
        route.dest_router.tdiv ru.m_router.get_net_ptr.getRoutersPerGroup ∧
      ru.m_router.get_id = route.src_router))
    (h : outportDirnUGAL ru random_mt route inport_dirn t_flit = .ok p) :
    detourTail ru inport_dirn
      (ru.m_router.get_id.tdiv ru.m_router.get_net_ptr.getRoutersPerGroup)
      (route.dest_router.tdiv ru.m_router.get_net_ptr.getRoutersPerGroup)
      { group_mid := route.intermediate_group, route := route, t_flit := t_flit } = .ok p := by
  rw [outportDirnUGAL_not_source ru random_mt route inport_dirn t_flit hsrc] at h
  exact detour_guards ru route _ p h

/-- The twin of `outportDirnUGAL_not_source_ok` for `outportComputeDragonflyVAL`. -/
theorem outportDirnDragonflyVAL_not_source_ok {D : Type} (ru : RoutingUnit D)
    (random_mt : List Nat) (route : RouteInfo D) (inport_dirn : PortDirection)
    (t_flit : RouteInfo D) (p : PortDirection × RouteInfo D)
    (hsrc : ¬ (ru.m_router.get_net_ptr.getNumGroups > 2 ∧
      ru.m_router.get_id.tdiv ru.m_router.get_net_ptr.getRoutersPerGroup ≠
        route.dest_router.tdiv ru.m_router.get_net_ptr.getRoutersPerGroup ∧
      ru.m_router.get_id = route.src_router))
    (h : outportDirnDragonflyVAL ru random_mt route inport_dirn t_flit = .ok p) :
    detourTail ru inport_dirn
      (ru.m_router.get_id.tdiv ru.m_router.get_net_ptr.getRoutersPerGroup)
      (route.dest_router.tdiv ru.m_router.get_net_ptr.getRoutersPerGroup)
      { group_mid := route.intermediate_group, route := route, t_flit := t_flit } = .ok p := by
  rw [outportDirnDragonflyVAL_not_source ru random_mt route inport_dirn t_flit hsrc] at h
  exact detour_guards ru route _ p h

/-- Past the source block and with the guards met, `outportComputeUGAL` is the
shared tail. -/
theorem outportDirnUGAL_not_source_guarded {D : Type} (ru : RoutingUnit D)
    (random_mt : List Nat) (route : RouteInfo D) (inport_dirn : PortDirection)
    (t_flit : RouteInfo D)
    (hnum : ru.m_router.get_net_ptr.getNumRouters > 0)
    (hne : ru.m_router.get_id ≠ route.dest_router)
    (hR : ru.m_router.get_net_ptr.getRoutersPerGroup ≠ 0)
    (hsrc : ¬ (ru.m_router.get_net_ptr.getNumGroups > 2 ∧
      ru.m_router.get_id.tdiv ru.m_router.get_net_ptr.getRoutersPerGroup ≠
        route.dest_router.tdiv ru.m_router.get_net_ptr.getRoutersPerGroup ∧
      ru.m_router.get_id = route.src_router)) :
    outportDirnUGAL ru random_mt route inport_dirn t_flit =
      detourTail ru inport_dirn
        (ru.m_router.get_id.tdiv ru.m_router.get_net_ptr.getRoutersPerGroup)
        (route.dest_router.tdiv ru.m_router.get_net_ptr.getRoutersPerGroup)
        { group_mid := route.intermediate_group, route := route, t_flit := t_flit } := by
  rw [outportDirnUGAL_not_source ru random_mt route inport_dirn t_flit hsrc,
    if_neg (not_not.2 hnum), if_neg (not_not.2 hne), if_neg hR]

/-- Past the source block and with the guards met, `outportComputeDragonflyVAL`
is the shared tail. -/
theorem outportDirnDragonflyVAL_not_source_guarded {D : Type} (ru : RoutingUnit D)
    (random_mt : List Nat) (route : RouteInfo D) (inport_dirn : PortDirection)
    (t_flit : RouteInfo D)
    (hnum : ru.m_router.get_net_ptr.getNumRouters > 0)
    (hne : ru.m_router.get_id ≠ route.dest_router)
    (hR : ru.m_router.get_net_ptr.getRoutersPerGroup ≠ 0)
    (hsrc : ¬ (ru.m_router.get_net_ptr.getNumGroups > 2 ∧
      ru.m_router.get_id.tdiv ru.m_router.get_net_ptr.getRoutersPerGroup ≠
        route.dest_router.tdiv ru.m_router.get_net_ptr.getRoutersPerGroup ∧
      ru.m_router.get_id = route.src_router)) :
    outportDirnDragonflyVAL ru random_mt route inport_dirn t_flit =
      detourTail ru inport_dirn
        (ru.m_router.get_id.tdiv ru.m_router.get_net_ptr.getRoutersPerGroup)
        (route.dest_router.tdiv ru.m_router.get_net_ptr.getRoutersPerGroup)
        { group_mid := route.intermediate_group, route := route, t_flit := t_flit } := by
  rw [outportDirnDragonflyVAL_not_source ru random_mt route inport_dirn t_flit hsrc,
    if_neg (not_not.2 hnum), if_neg (not_not.2 hne), if_neg hR]

/-- The shared tail on a route with a pending intermediate group `m >= 0`: cleared
and aimed at the destination in group `m`, unchanged and aimed at `m` elsewhere. -/
theorem detourTail_pending_route {D : Type} (ru : RoutingUnit D) (inport_dirn d : PortDirection)
    (group_dst : Int) (route t_flit fr : RouteInfo D) (hm : 0 ≤ route.intermediate_group)
    (h : detourTail ru inport_dirn
      (ru.m_router.get_id.tdiv ru.m_router.get_net_ptr.getRoutersPerGroup) group_dst
      { group_mid := route.intermediate_group, route := route, t_flit := t_flit } = .ok (d, fr)) :
    (ru.m_router.get_id.tdiv ru.m_router.get_net_ptr.getRoutersPerGroup =
        route.intermediate_group →
      fr = { route with intermediate_group := -1 } ∧
      d = minimalDirn ru.m_router.get_net_ptr.getNumGroups
        ru.m_router.get_net_ptr.getRoutersPerGroup
        ru.m_router.get_net_ptr.getGlobalChannelsPerRouter ru.m_router.get_id
        group_dst route.dest_router) ∧
    (ru.m_router.get_id.tdiv ru.m_router.get_net_ptr.getRoutersPerGroup ≠
        route.intermediate_group →
      fr = t_flit ∧
      d = minimalDirn ru.m_router.get_net_ptr.getNumGroups
        ru.m_router.get_net_ptr.getRoutersPerGroup
        ru.m_router.get_net_ptr.getGlobalChannelsPerRouter ru.m_router.get_id
        route.intermediate_group route.dest_router) := by
  have hm1 : route.intermediate_group ≠ -1 := by omega
  obtain ⟨h1, h2⟩ := detourTail_ok ru inport_dirn d group_dst _ fr h
  constructor
  · intro hc
    exact h1 ⟨hm1, hc⟩
  · intro hc
    have h3 := h2 (fun hh => hc hh.2)
    rw [if_pos hm1] at h3
    exact h3

/-- C15: in `outportComputeUGAL` and `outportComputeDragonflyVAL` at a router that
is not the packet's source router, for a route whose `intermediate_group` is
`m >= 0`: if the current router's group equals `m`, every returning call leaves
the flit with the route rewritten to `intermediate_group = -1` and returns the
minimal port towards the true destination; if the current group differs from
`m`, it leaves the flit's route as it was and returns the minimal port towards
group `m`.  With the assertions of the methods met and the packet entering on
"Local" or a "Global" port, both calls return. -/
theorem detour_cleared_exactly_on_arrival {D : Type} (ru : RoutingUnit D)
    (random_mt : List Nat) (route : RouteInfo D) (inport : Int) (inport_dirn : PortDirection)
    (t_flit : RouteInfo D)
    (hnsrc : ru.m_router.get_id ≠ route.src_router)
    (hm : 0 ≤ route.intermediate_group) :
    (ru.m_router.get_id.tdiv ru.m_router.get_net_ptr.getRoutersPerGroup =
        route.intermediate_group →
      (∀ r : Routed D,
        outportComputeUGAL ru random_mt route inport inport_dirn t_flit = .ok r ∨
          outportComputeDragonflyVAL ru random_mt route inport inport_dirn t_flit = .ok r →
        r = returnOutport ru { route with intermediate_group := -1 }
          (minimalDirn ru.m_router.get_net_ptr.getNumGroups
            ru.m_router.get_net_ptr.getRoutersPerGroup
            ru.m_router.get_net_ptr.getGlobalChannelsPerRouter ru.m_router.get_id
            (route.dest_router.tdiv ru.m_router.get_net_ptr.getRoutersPerGroup)
            route.dest_router))) ∧
    (ru.m_router.get_id.tdiv ru.m_router.get_net_ptr.getRoutersPerGroup ≠
        route.intermediate_group →
      (∀ r : Routed D,
        outportComputeUGAL ru random_mt route inport inport_dirn t_flit = .ok r ∨
          outportComputeDragonflyVAL ru random_mt route inport inport_dirn t_flit = .ok r →
        r = returnOutport ru t_flit
          (minimalDirn ru.m_router.get_net_ptr.getNumGroups
            ru.m_router.get_net_ptr.getRoutersPerGroup
            ru.m_router.get_net_ptr.getGlobalChannelsPerRouter ru.m_router.get_id
            route.intermediate_group route.dest_router))) ∧
    (ru.m_router.get_net_ptr.getNumRouters > 0 →
      ru.m_router.get_id ≠ route.dest_router →
      ru.m_router.get_net_ptr.getRoutersPerGroup ≠ 0 →
      ru.m_router.get_net_ptr.getGlobalChannelsPerRouter ≠ 0 →
      inport_dirn = "Local" ∨ inport_dirn.take 6 = "Global" →
      (∃ r : Routed D,
        outportComputeUGAL ru random_mt route inport inport_dirn t_flit = .ok r) ∧
      (∃ r : Routed D,
        outportComputeDragonflyVAL ru random_mt route inport inport_dirn t_flit = .ok r)) := by
  have hsrc : ¬ (ru.m_router.get_net_ptr.getNumGroups > 2 ∧
      ru.m_router.get_id.tdiv ru.m_router.get_net_ptr.getRoutersPerGroup ≠
        route.dest_router.tdiv ru.m_router.get_net_ptr.getRoutersPerGroup ∧
      ru.m_router.get_id = route.src_router) := fun h => hnsrc h.2.2
  have htail : ∀ r : Routed D,
      outportComputeUGAL ru random_mt route inport inport_dirn t_flit = .ok r ∨
        outportComputeDragonflyVAL ru random_mt route inport inport_dirn t_flit = .ok r →
      ∃ d fr, detourTail ru inport_dirn
        (ru.m_router.get_id.tdiv ru.m_router.get_net_ptr.getRoutersPerGroup)
        (route.dest_router.tdiv ru.m_router.get_net_ptr.getRoutersPerGroup)
        { group_mid := route.intermediate_group, route := route, t_flit := t_flit } =
          .ok (d, fr) ∧ r = returnOutport ru fr d := by
    intro r hr
    rcases hr with hr | hr
    · obtain ⟨d, fr, hd, hrd⟩ := outportComputeUGAL_inv ru random_mt route inport inport_dirn
        t_flit r hr
      exact ⟨d, fr, outportDirnUGAL_not_source_ok ru random_mt route inport_dirn t_flit _
        hsrc hd, hrd⟩
    · obtain ⟨d, fr, hd, hrd⟩ := outportComputeDragonflyVAL_inv ru random_mt route inport
        inport_dirn t_flit r hr
      exact ⟨d, fr, outportDirnDragonflyVAL_not_source_ok ru random_mt route inport_dirn
        t_flit _ hsrc hd, hrd⟩
  refine ⟨?_, ?_, ?_⟩
  · intro hc r hr
    obtain ⟨d, fr, hd, hrd⟩ := htail r hr
    obtain ⟨hfr, hlabel⟩ := (detourTail_pending_route ru inport_dirn d _ route t_flit fr hm
      hd).1 hc
    rw [hrd, hfr, hlabel]
  · intro hc r hr
    obtain ⟨d, fr, hd, hrd⟩ := htail r hr
    obtain ⟨hfr, hlabel⟩ := (detourTail_pending_route ru inport_dirn d _ route t_flit fr hm
      hd).2 hc
    rw [hrd, hfr, hlabel]
  · intro hnum hne hR hC hin
    obtain ⟨d, fr, hd⟩ := detourTail_returns ru inport_dirn
      (route.dest_router.tdiv ru.m_router.get_net_ptr.getRoutersPerGroup)
      { group_mid := route.intermediate_group, route := route, t_flit := t_flit } hin hC
    constructor
    · refine ⟨returnOutport ru fr d, ?_⟩
      apply outportComputeUGAL_of_dirn
      rw [outportDirnUGAL_not_source_guarded ru random_mt route inport_dirn t_flit hnum hne hR
        hsrc]
      exact hd
    · refine ⟨returnOutport ru fr d, ?_⟩
      apply outportComputeDragonflyVAL_of_dirn
      rw [outportDirnDragonflyVAL_not_source_guarded ru random_mt route inport_dirn t_flit hnum
        hne hR hsrc]
      exact hd

/-- Router 2 of a 3 x 3 x 1 dragonfly sends to router 4 with candidate group 2: the
link into router 0 holds 16 flits, the link into router 1 holds 4, and 4 * 5 < 16 * 3,
so the flit commits to group 2 and leaves by "Local1". -/
theorem outportComputeUGAL_commits_iff_loads_favour_detour_witness :
    (∀ r : Routed (List Nat),
      outportComputeUGAL demoUgalUnit [2] (detourRoute 2 4 (-1)) 0 "Local"
        (detourRoute 2 4 (-1)) = .ok r →
      r = returnOutport demoUgalUnit (detourRoute 2 4 2) "Local1") ∧
    outportComputeUGAL demoUgalUnit [2] (detourRoute 2 4 (-1)) 0 "Local"
        (detourRoute 2 4 (-1)) =
      .ok (returnOutport demoUgalUnit (detourRoute 2 4 2) "Local1") :=
  (outportComputeUGAL_commits_iff_loads_favour_detour demoUgalUnit [2] (detourRoute 2 4 (-1))
    0 "Local" (detourRoute 2 4 (-1)) 2 4 1 (by decide) (by decide) (by decide) rfl rfl
    rfl (by decide) (by decide)).1 (by unfold ugalPrefersDetour; decide)

/-- Router 6 (group 2) of a 3 x 3 x 1 dragonfly holds a packet from router 2 to
router 4 whose intermediate group is 2: the field is cleared and the packet
leaves by "Local0" towards the exit router to group 1. -/
theorem detour_cleared_exactly_on_arrival_witness :
    returnOutport (dragonflyUnit .UGAL_ 3 3 1 6 (fun _ _ => 0) (fun _ _ => []))
        (detourRoute 2 4 (-1)) "Local0" =
      returnOutport (dragonflyUnit .UGAL_ 3 3 1 6 (fun _ _ => 0) (fun _ _ => []))
        { detourRoute 2 4 2 with intermediate_group := -1 } (minimalDirn 3 3 1 6 1 4) ∧
    (∃ r : Routed (List Nat),
      outportComputeUGAL (dragonflyUnit .UGAL_ 3 3 1 6 (fun _ _ => 0) (fun _ _ => [])) []
        (detourRoute 2 4 2) 0 "Global0" (detourRoute 2 4 2) = .ok r) ∧
    (∃ r : Routed (List Nat),
      outportComputeDragonflyVAL
        (dragonflyUnit .UGAL_ 3 3 1 6 (fun _ _ => 0) (fun _ _ => [])) []
        (detourRoute 2 4 2) 0 "Global0" (detourRoute 2 4 2) = .ok r) :=
  ⟨(detour_cleared_exactly_on_arrival
      (dragonflyUnit .UGAL_ 3 3 1 6 (fun _ _ => 0) (fun _ _ => [])) []
      (detourRoute 2 4 2) 0 "Global0" (detourRoute 2 4 2) (by decide) (by decide)).1 rfl
      (returnOutport (dragonflyUnit .UGAL_ 3 3 1 6 (fun _ _ => 0) (fun _ _ => []))
        (detourRoute 2 4 (-1)) "Local0") (Or.inl rfl),
    (detour_cleared_exactly_on_arrival
      (dragonflyUnit .UGAL_ 3 3 1 6 (fun _ _ => 0) (fun _ _ => [])) []
      (detourRoute 2 4 2) 0 "Global0" (detourRoute 2 4 2) (by decide) (by decide)).2.2
      (by decide) (by decide) (by decide) (by decide) (Or.inr (by decide))⟩

/-- The label `outportComputeDragonflyVAL` computes reads neither the port lookup
nor the load samples of the network. -/
theorem outportDirnDragonflyVAL_withLoads {D : Type} (ru : RoutingUnit D)
    (portIdx : Int → PortDirection → Int) (vcLoad : Int → Int → List Nat)
    (random_mt : List Nat) (route : RouteInfo D) (inport_dirn : PortDirection)
    (t_flit : RouteInfo D) :
    outportDirnDragonflyVAL (withLoads ru portIdx vcLoad) random_mt route inport_dirn t_flit =
      outportDirnDragonflyVAL ru random_mt route inport_dirn t_flit := rfl

/-- The port and the flit route `outportComputeDragonflyVAL` returns, read off the
label computation. -/
theorem outportComputeDragonflyVAL_map_outport {D : Type} (ru : RoutingUnit D)
    (random_mt : List Nat) (route : RouteInfo D) (inport : Int) (inport_dirn : PortDirection)
    (t_flit : RouteInfo D) :
    (outportComputeDragonflyVAL ru random_mt route inport inport_dirn t_flit).map
        Routed.outport =
      (outportDirnDragonflyVAL ru random_mt route inport_dirn t_flit).map
        (fun p => (mapIndex ru.m_outports_dirn2idx p.1).1) ∧
    (outportComputeDragonflyVAL ru random_mt route inport inport_dirn t_flit).map
        Routed.flit_route =
      (outportDirnDragonflyVAL ru random_mt route inport_dirn t_flit).map Prod.snd := by
  unfold outportComputeDragonflyVAL
  cases outportDirnDragonflyVAL ru random_mt route inport_dirn t_flit with
  | error a => exact ⟨rfl, rfl⟩
  | ok p => exact ⟨rfl, rfl⟩

/-- C16: in `outportComputeDragonflyVAL` at the source router of a cross-group
packet with more than two groups, for every sequence of values of the random
source (each in `0 .. G-1`) on which the selection loop stops with `g`:
`0 <= g < G`, `g` is neither the current nor the destination group, every
returning call leaves the flit with the route rewritten to
`intermediate_group = g` and returns the minimal port towards group `g`, and
entered on "Local" the call does return.  With two or fewer groups, or a
same-group destination, a returning call either leaves the flit's route as it
was or clears its `intermediate_group` to -1, and for a route without an
intermediate group it returns the minimal port towards the destination.  No
load is consulted: replacing the network's port lookup and load samples changes
neither the returned port nor the flit's route. -/
theorem outportComputeDragonflyVAL_source_commits_drawn_group {D : Type} (ru : RoutingUnit D)
    (random_mt : List Nat) (route : RouteInfo D) (inport : Int) (inport_dirn : PortDirection)
    (t_flit : RouteInfo D) :
    (∀ g : Int,
      ru.m_router.get_net_ptr.getNumRouters > 0 →
      ru.m_router.get_net_ptr.getNumGroups > 2 →
      ru.m_router.get_id.tdiv ru.m_router.get_net_ptr.getRoutersPerGroup ≠
        route.dest_router.tdiv ru.m_router.get_net_ptr.getRoutersPerGroup →
      ru.m_router.get_id = route.src_router →
      (∀ x ∈ random_mt, (x : Int) ≤ ru.m_router.get_net_ptr.getNumGroups - 1) →
      pickGroupMid
        (ru.m_router.get_id.tdiv ru.m_router.get_net_ptr.getRoutersPerGroup)
        (route.dest_router.tdiv ru.m_router.get_net_ptr.getRoutersPerGroup) random_mt = .ok g →
      0 ≤ g ∧ g < ru.m_router.get_net_ptr.getNumGroups ∧
      g ≠ ru.m_router.get_id.tdiv ru.m_router.get_net_ptr.getRoutersPerGroup ∧
      g ≠ route.dest_router.tdiv ru.m_router.get_net_ptr.getRoutersPerGroup ∧
      (∀ r : Routed D,
        outportComputeDragonflyVAL ru random_mt route inport inport_dirn t_flit = .ok r →
        r = returnOutport ru { route with intermediate_group := g }
          (minimalDirn ru.m_router.get_net_ptr.getNumGroups
            ru.m_router.get_net_ptr.getRoutersPerGroup
            ru.m_router.get_net_ptr.getGlobalChannelsPerRouter ru.m_router.get_id g
            route.dest_router)) ∧
      (ru.m_router.get_net_ptr.getGlobalChannelsPerRouter ≠ 0 →
        outportComputeDragonflyVAL ru random_mt route inport "Local" t_flit =
          .ok (returnOutport ru { route with intermediate_group := g }
            (minimalDirn ru.m_router.get_net_ptr.getNumGroups
              ru.m_router.get_net_ptr.getRoutersPerGroup
              ru.m_router.get_net_ptr.getGlobalChannelsPerRouter ru.m_router.get_id g
              route.dest_router)))) ∧
    (ru.m_router.get_net_ptr.getNumGroups ≤ 2 ∨
        ru.m_router.get_id.tdiv ru.m_router.get_net_ptr.getRoutersPerGroup =
          route.dest_router.tdiv ru.m_router.get_net_ptr.getRoutersPerGroup →
      ∀ r : Routed D,
        outportComputeDragonflyVAL ru random_mt route inport inport_dirn t_flit = .ok r →
        (r.flit_route = t_flit ∨ r.flit_route = { route with intermediate_group := -1 }) ∧
        (route.intermediate_group = -1 →
          r = returnOutport ru t_flit
            (minimalDirn ru.m_router.get_net_ptr.getNumGroups
              ru.m_router.get_net_ptr.getRoutersPerGroup
              ru.m_router.get_net_ptr.getGlobalChannelsPerRouter ru.m_router.get_id
              (route.dest_router.tdiv ru.m_router.get_net_ptr.getRoutersPerGroup)
              route.dest_router))) ∧
    (∀ (portIdx : Int → PortDirection → Int) (vcLoad : Int → Int → List Nat),
      (outportComputeDragonflyVAL (withLoads ru portIdx vcLoad) random_mt route inport
          inport_dirn t_flit).map Routed.outport =
        (outportComputeDragonflyVAL ru random_mt route inport inport_dirn t_flit).map
          Routed.outport ∧
      (outportComputeDragonflyVAL (withLoads ru portIdx vcLoad) random_mt route inport
          inport_dirn t_flit).map Routed.flit_route =
        (outportComputeDragonflyVAL ru random_mt route inport inport_dirn t_flit).map
          Routed.flit_route) := by
  refine ⟨?_, ?_, ?_⟩
  · intro g hnum hG hcross hmy hrange hpick
    have hsrc : ru.m_router.get_net_ptr.getNumGroups > 2 ∧
        ru.m_router.get_id.tdiv ru.m_router.get_net_ptr.getRoutersPerGroup ≠
          route.dest_router.tdiv ru.m_router.get_net_ptr.getRoutersPerGroup ∧
        ru.m_router.get_id = route.src_router := ⟨hG, hcross, hmy⟩
    have hne : ru.m_router.get_id ≠ route.dest_router := by
      intro h
      exact hcross (by rw [h])
    have hR : ru.m_router.get_net_ptr.getRoutersPerGroup ≠ 0 := by
      intro h
      exact hcross (by rw [h, Int.tdiv_zero, Int.tdiv_zero])
    obtain ⟨⟨draw, hmem, hdraw⟩, hgc, hgd⟩ := pickGroupMid_ok _ _ random_mt g hpick
    have hg0 : 0 ≤ g := by rw [hdraw]; exact Int.ofNat_nonneg draw
    have hgG : g < ru.m_router.get_net_ptr.getNumGroups := by
      have := hrange draw hmem
      rw [hdraw]
      omega
    have hblock : valSourceBlock random_mt
        (ru.m_router.get_id.tdiv ru.m_router.get_net_ptr.getRoutersPerGroup)
        (route.dest_router.tdiv ru.m_router.get_net_ptr.getRoutersPerGroup)
        { group_mid := route.intermediate_group, route := route, t_flit := t_flit } =
        .ok { group_mid := g, route := { route with intermediate_group := g },
              t_flit := { route with intermediate_group := g } } := by
      unfold valSourceBlock
      rw [hpick]
    have hsource : ∀ dirn : PortDirection,
        outportDirnDragonflyVAL ru random_mt route dirn t_flit =
          detourTail ru dirn
            (ru.m_router.get_id.tdiv ru.m_router.get_net_ptr.getRoutersPerGroup)
            (route.dest_router.tdiv ru.m_router.get_net_ptr.getRoutersPerGroup)
            { group_mid := g, route := { route with intermediate_group := g },
              t_flit := { route with intermediate_group := g } } := by
      intro dirn
      rw [outportDirnDragonflyVAL_source ru random_mt route dirn t_flit hnum hne hR hsrc,
        hblock]
    refine ⟨hg0, hgG, hgc, hgd, ?_, ?_⟩
    · intro r hr
      obtain ⟨d, fr, hd, hrd⟩ := outportComputeDragonflyVAL_inv ru random_mt route inport
        inport_dirn t_flit r hr
      rw [hsource inport_dirn] at hd
      obtain ⟨hfr, hlabel⟩ := (detourTail_committed ru inport_dirn
        (route.dest_router.tdiv ru.m_router.get_net_ptr.getRoutersPerGroup) g
        { route with intermediate_group := g } { route with intermediate_group := g }
        hg0 hgc).1 d fr hd
      rw [hrd, hfr, hlabel]
    · intro hC
      apply outportComputeDragonflyVAL_of_dirn
      rw [hsource "Local"]
      exact (detourTail_committed ru "Local"
        (route.dest_router.tdiv ru.m_router.get_net_ptr.getRoutersPerGroup) g
        { route with intermediate_group := g } { route with intermediate_group := g }
        hg0 hgc).2 hC (Or.inl rfl)
  · intro hfew r hr
    have hsrc : ¬ (ru.m_router.get_net_ptr.getNumGroups > 2 ∧
        ru.m_router.get_id.tdiv ru.m_router.get_net_ptr.getRoutersPerGroup ≠
          route.dest_router.tdiv ru.m_router.get_net_ptr.getRoutersPerGroup ∧
        ru.m_router.get_id = route.src_router) := by
      intro h
      rcases hfew with h2 | h2
      · omega
      · exact h.2.1 h2
    obtain ⟨d, fr, hd, hrd⟩ := outportComputeDragonflyVAL_inv ru random_mt route inport
      inport_dirn t_flit r hr
    have htail := outportDirnDragonflyVAL_not_source_ok ru random_mt route inport_dirn t_flit
      _ hsrc hd
    obtain ⟨h1, h2⟩ := detourTail_ok ru inport_dirn d _ _ fr htail
    constructor
    · by_cases hc : route.intermediate_group ≠ -1 ∧
          ru.m_router.get_id.tdiv ru.m_router.get_net_ptr.getRoutersPerGroup =
            route.intermediate_group
      · right
        rw [hrd]
        exact (h1 hc).1
      · left
        rw [hrd]
        exact (h2 hc).1
    · intro hnone
      obtain ⟨hfr, hlabel⟩ := h2 (fun hh => hh.1 hnone)
      rw [if_neg (not_not.2 hnone)] at hlabel
      rw [hrd, hfr, hlabel]
  · intro portIdx vcLoad
    have h1 := outportComputeDragonflyVAL_map_outport (withLoads ru portIdx vcLoad) random_mt
      route inport inport_dirn t_flit
    have h2 := outportComputeDragonflyVAL_map_outport ru random_mt route inport inport_dirn
      t_flit
    rw [outportDirnDragonflyVAL_withLoads] at h1
    exact ⟨h1.1.trans h2.1.symm, h1.2.trans h2.2.symm⟩

/-- Two returning runs of the shared tail that agree on the router id, G, R, C,
the pending group and the destination compute the same label and treat the
flit the same way. -/
theorem detourTail_agree {D : Type} (ru ru' : RoutingUnit D)
    (inport_dirn d d' : PortDirection) (group_dst : Int) (st st' : DetourState D)
    (fr fr' : RouteInfo D)
    (hid : ru.m_router.get_id = ru'.m_router.get_id)
    (hG : ru.m_router.get_net_ptr.getNumGroups = ru'.m_router.get_net_ptr.getNumGroups)
    (hR : ru.m_router.get_net_ptr.getRoutersPerGroup =
      ru'.m_router.get_net_ptr.getRoutersPerGroup)
    (hC : ru.m_router.get_net_ptr.getGlobalChannelsPerRouter =
      ru'.m_router.get_net_ptr.getGlobalChannelsPerRouter)
    (hgm : st.group_mid = st'.group_mid)
    (hdest : st.route.dest_router = st'.route.dest_router)
    (h : detourTail ru inport_dirn
      (ru.m_router.get_id.tdiv ru.m_router.get_net_ptr.getRoutersPerGroup) group_dst st =
        .ok (d, fr))
    (h' : detourTail ru' inport_dirn
      (ru'.m_router.get_id.tdiv ru'.m_router.get_net_ptr.getRoutersPerGroup) group_dst st' =
        .ok (d', fr')) :
    d = d' ∧
      ((fr = st.t_flit ∧ fr' = st'.t_flit) ∨
        (fr = { st.route with intermediate_group := -1 } ∧
          fr' = { st'.route with intermediate_group := -1 })) := by
  obtain ⟨a1, a2⟩ := detourTail_ok ru inport_dirn d group_dst st fr h
  obtain ⟨b1, b2⟩ := detourTail_ok ru' inport_dirn d' group_dst st' fr' h'
  rw [← hid, ← hG, ← hR, ← hC, ← hgm, ← hdest] at b1 b2
  by_cases hc : st.group_mid ≠ -1 ∧
      ru.m_router.get_id.tdiv ru.m_router.get_net_ptr.getRoutersPerGroup = st.group_mid
  · obtain ⟨x1, x2⟩ := a1 hc
    obtain ⟨y1, y2⟩ := b1 hc
    exact ⟨x2.trans y2.symm, Or.inr ⟨x1, y1⟩⟩
  · obtain ⟨x1, x2⟩ := a2 hc
    obtain ⟨y1, y2⟩ := b2 hc
    exact ⟨x2.trans y2.symm, Or.inl ⟨x1, y1⟩⟩

/-- C20: at a router whose id differs from `route.src_router`, two returning calls
of `outportComputeUGAL`, and two of `outportComputeDragonflyVAL`, that agree on
the current id, the destination id, `route.intermediate_group`, the inbound
direction, the constants G, R, C and the outbound port map return the same port
and write the flit the same way (both leave it unchanged, or both store the
route with `intermediate_group = -1`), whatever the two random sources return
and whatever the port lookups and load samples of the two networks are.  On one
routing unit the whole outcome of either method is the same for every two
random sources. -/
theorem later_hops_ignore_random_source_and_loads {D : Type} (ru ru' : RoutingUnit D)
    (random_mt random_mt' : List Nat) (route route' : RouteInfo D) (inport inport' : Int)
    (inport_dirn : PortDirection) (t_flit t_flit' : RouteInfo D)
    (hid : ru.m_router.get_id = ru'.m_router.get_id)
    (hG : ru.m_router.get_net_ptr.getNumGroups = ru'.m_router.get_net_ptr.getNumGroups)
    (hR : ru.m_router.get_net_ptr.getRoutersPerGroup =
      ru'.m_router.get_net_ptr.getRoutersPerGroup)
    (hC : ru.m_router.get_net_ptr.getGlobalChannelsPerRouter =
      ru'.m_router.get_net_ptr.getGlobalChannelsPerRouter)
    (hmap : ru.m_outports_dirn2idx = ru'.m_outports_dirn2idx)
    (hdest : route.dest_router = route'.dest_router)
    (hig : route.intermediate_group = route'.intermediate_group)
    (hnsrc : ru.m_router.get_id ≠ route.src_router)
    (hnsrc' : ru'.m_router.get_id ≠ route'.src_router) :
    (∀ r r' : Routed D,
      outportComputeUGAL ru random_mt route inport inport_dirn t_flit = .ok r →
      outportComputeUGAL ru' random_mt' route' inport' inport_dirn t_flit' = .ok r' →
      r.outport = r'.outport ∧
        ((r.flit_route = t_flit ∧ r'.flit_route = t_flit') ∨
          (r.flit_route = { route with intermediate_group := -1 } ∧
            r'.flit_route = { route' with intermediate_group := -1 }))) ∧
    (∀ r r' : Routed D,
      outportComputeDragonflyVAL ru random_mt route inport inport_dirn t_flit = .ok r →
      outportComputeDragonflyVAL ru' random_mt' route' inport' inport_dirn t_flit' = .ok r' →
      r.outport = r'.outport ∧
        ((r.flit_route = t_flit ∧ r'.flit_route = t_flit') ∨
          (r.flit_route = { route with intermediate_group := -1 } ∧
            r'.flit_route = { route' with intermediate_group := -1 }))) ∧
    (∀ other : List Nat,
      outportComputeUGAL ru other route inport inport_dirn t_flit =
        outportComputeUGAL ru random_mt route inport inport_dirn t_flit ∧
      outportComputeDragonflyVAL ru other route inport inport_dirn t_flit =
        outportComputeDragonflyVAL ru random_mt route inport inport_dirn t_flit) := by
  have hsrc : ¬ (ru.m_router.get_net_ptr.getNumGroups > 2 ∧
      ru.m_router.get_id.tdiv ru.m_router.get_net_ptr.getRoutersPerGroup ≠
        route.dest_router.tdiv ru.m_router.get_net_ptr.getRoutersPerGroup ∧
      ru.m_router.get_id = route.src_router) := fun h => hnsrc h.2.2
  have hsrc' : ¬ (ru'.m_router.get_net_ptr.getNumGroups > 2 ∧
      ru'.m_router.get_id.tdiv ru'.m_router.get_net_ptr.getRoutersPerGroup ≠
        route'.dest_router.tdiv ru'.m_router.get_net_ptr.getRoutersPerGroup ∧
      ru'.m_router.get_id = route'.src_router) := fun h => hnsrc' h.2.2
  have hgd : route.dest_router.tdiv ru.m_router.get_net_ptr.getRoutersPerGroup =
      route'.dest_router.tdiv ru'.m_router.get_net_ptr.getRoutersPerGroup := by
    rw [hdest, hR]
  have hkey : ∀ (d d' : PortDirection) (fr fr' : RouteInfo D),
      detourTail ru inport_dirn
        (ru.m_router.get_id.tdiv ru.m_router.get_net_ptr.getRoutersPerGroup)
        (route.dest_router.tdiv ru.m_router.get_net_ptr.getRoutersPerGroup)
        { group_mid := route.intermediate_group, route := route, t_flit := t_flit } =
          .ok (d, fr) →
      detourTail ru' inport_dirn
        (ru'.m_router.get_id.tdiv ru'.m_router.get_net_ptr.getRoutersPerGroup)
        (route'.dest_router.tdiv ru'.m_router.get_net_ptr.getRoutersPerGroup)
        { group_mid := route'.intermediate_group, route := route', t_flit := t_flit' } =
          .ok (d', fr') →
      (returnOutport ru fr d).outport = (returnOutport ru' fr' d').outport ∧
        (((returnOutport ru fr d).flit_route = t_flit ∧
            (returnOutport ru' fr' d').flit_route = t_flit') ∨
          ((returnOutport ru fr d).flit_route = { route with intermediate_group := -1 } ∧
            (returnOutport ru' fr' d').flit_route =
              { route' with intermediate_group := -1 })) := by
    intro d d' fr fr' h h'
    rw [← hgd] at h'
    obtain ⟨hd, hfr⟩ := detourTail_agree ru ru' inport_dirn d d' _
      { group_mid := route.intermediate_group, route := route, t_flit := t_flit }
      { group_mid := route'.intermediate_group, route := route', t_flit := t_flit' }
      fr fr' hid hG hR hC hig hdest h h'
    refine ⟨?_, hfr⟩
    show (mapIndex ru.m_outports_dirn2idx d).1 = (mapIndex ru'.m_outports_dirn2idx d').1
    rw [hmap, hd]
  refine ⟨?_, ?_, ?_⟩
  · intro r r' hr hr'
    obtain ⟨d, fr, hd, hrd⟩ := outportComputeUGAL_inv ru random_mt route inport inport_dirn
      t_flit r hr
    obtain ⟨d', fr', hd', hrd'⟩ := outportComputeUGAL_inv ru' random_mt' route' inport'
      inport_dirn t_flit' r' hr'
    rw [hrd, hrd']
    exact hkey d d' fr fr'
      (outportDirnUGAL_not_source_ok ru random_mt route inport_dirn t_flit _ hsrc hd)
      (outportDirnUGAL_not_source_ok ru' random_mt' route' inport_dirn t_flit' _ hsrc' hd')
  · intro r r' hr hr'
    obtain ⟨d, fr, hd, hrd⟩ := outportComputeDragonflyVAL_inv ru random_mt route inport
      inport_dirn t_flit r hr
    obtain ⟨d', fr', hd', hrd'⟩ := outportComputeDragonflyVAL_inv ru' random_mt' route' inport'
      inport_dirn t_flit' r' hr'
    rw [hrd, hrd']
    exact hkey d d' fr fr'
      (outportDirnDragonflyVAL_not_source_ok ru random_mt route inport_dirn t_flit _ hsrc hd)
      (outportDirnDragonflyVAL_not_source_ok ru' random_mt' route' inport_dirn t_flit' _ hsrc'
        hd')
  · intro other
    constructor
    · unfold outportComputeUGAL
      rw [outportDirnUGAL_not_source ru other route inport_dirn t_flit hsrc,
        outportDirnUGAL_not_source ru random_mt route inport_dirn t_flit hsrc]
    · unfold outportComputeDragonflyVAL
      rw [outportDirnDragonflyVAL_not_source ru other route inport_dirn t_flit hsrc,
        outportDirnDragonflyVAL_not_source ru random_mt route inport_dirn t_flit hsrc]

/-- C18 (the code at the spec's scenario): 3 groups of 2 routers with 1 global
channel each, router 0 sending to router 3 with candidate group 2.  Router 0 is
itself the minimal-path exit router, and the label looked up there for load
sampling is "Local1": its index 1 exceeds R - 2 = 0, so it names no local
channel of a group of 2 routers.  The sample read through that label still
decides the route: with no flits behind it the packet stays minimal and leaves
by "Global0", with 100 flits per virtual channel behind it the packet commits
to group 2 and leaves by "Local0".  For every G, R, C and pair of groups, a
current router that is itself the minimal-path exit router looks up the label
with index R - 1 there. -/
theorem outportComputeUGAL_samples_own_router_through_missing_channel :
    ugalSampledPorts 3 2 1 0 0 1 2 = ((0, "Local1"), (1, "Local0")) ∧
    ¬ ((1 : Int) ≤ 2 - 2) ∧
    outportComputeUGAL (pairedUgalUnit 0) [2] (detourRoute 0 3 (-1)) 0 "Local"
        (detourRoute 0 3 (-1)) =
      .ok (returnOutport (pairedUgalUnit 0) (detourRoute 0 3 (-1)) "Global0") ∧
    outportComputeUGAL (pairedUgalUnit 100) [2] (detourRoute 0 3 (-1)) 0 "Local"
        (detourRoute 0 3 (-1)) =
      .ok (returnOutport (pairedUgalUnit 100) (detourRoute 0 3 2) "Local0") ∧
    (∀ G R C group_cur group_dst group_mid : Int,
      (ugalSampledPorts G R C
          (ugalSampledPorts G R C 0 group_cur group_dst group_mid).1.1
          group_cur group_dst group_mid).1 =
        ((ugalSampledPorts G R C 0 group_cur group_dst group_mid).1.1,
          "Local" ++ toString (R - 1))) := by
  refine ⟨by decide, by decide, rfl, rfl, ?_⟩
  intro G R C group_cur group_dst group_mid
  unfold ugalSampledPorts
  dsimp only
  rw [if_neg (lt_irrefl _), sub_self, zero_add]

/-- Router 2 of a 3 x 3 x 1 dragonfly sends to router 4 and the random source
returns 0, 1, 2: the loop stops on group 2 and the packet leaves by "Local1". -/
theorem outportComputeDragonflyVAL_source_commits_drawn_group_witness :
    (0 : Int) ≤ 2 ∧ (2 : Int) < 3 ∧ (2 : Int) ≠ 0 ∧ (2 : Int) ≠ 1 ∧
    (∀ r : Routed (List Nat),
      outportComputeDragonflyVAL
          (dragonflyUnit .VAL_ 3 3 1 2 (fun _ _ => 0) (fun _ _ => [])) [0, 1, 2]
          (detourRoute 2 4 (-1)) 0 "Local" (detourRoute 2 4 (-1)) = .ok r →
      r = returnOutport (dragonflyUnit .VAL_ 3 3 1 2 (fun _ _ => 0) (fun _ _ => []))
        (detourRoute 2 4 2) "Local1") ∧
    ((1 : Int) ≠ 0 →
      outportComputeDragonflyVAL
          (dragonflyUnit .VAL_ 3 3 1 2 (fun _ _ => 0) (fun _ _ => [])) [0, 1, 2]
          (detourRoute 2 4 (-1)) 0 "Local" (detourRoute 2 4 (-1)) =
        .ok (returnOutport
          (dragonflyUnit .VAL_ 3 3 1 2 (fun _ _ => 0) (fun _ _ => []))
          (detourRoute 2 4 2) "Local1")) :=
  (outportComputeDragonflyVAL_source_commits_drawn_group
    (dragonflyUnit .VAL_ 3 3 1 2 (fun _ _ => 0) (fun _ _ => [])) [0, 1, 2]
    (detourRoute 2 4 (-1)) 0 "Local" (detourRoute 2 4 (-1))).1 2 (by decide) (by decide)
    (by decide) rfl (by decide) rfl

/-- Router 6 of a 3 x 3 x 1 dragonfly, once in an idle network with an empty
random source and once in a loaded one with draws 0 and 1, forwards the same
packet through the same port and writes the same route. -/
theorem later_hops_ignore_random_source_and_loads_witness :
    (returnOutport (dragonflyUnit .UGAL_ 3 3 1 6 (fun _ _ => 0) (fun _ _ => []))
        (detourRoute 2 4 (-1)) "Local0").outport =
      (returnOutport (dragonflyUnit .UGAL_ 3 3 1 6 (fun _ _ => 5) (fun _ _ => [9, 9, 9, 9]))
        (detourRoute 2 4 (-1)) "Local0").outport ∧
    (((returnOutport (dragonflyUnit .UGAL_ 3 3 1 6 (fun _ _ => 0) (fun _ _ => []))
          (detourRoute 2 4 (-1)) "Local0").flit_route = detourRoute 2 4 2 ∧
        (returnOutport (dragonflyUnit .UGAL_ 3 3 1 6 (fun _ _ => 5) (fun _ _ => [9, 9, 9, 9]))
          (detourRoute 2 4 (-1)) "Local0").flit_route = detourRoute 2 4 2) ∨
      ((returnOutport (dragonflyUnit .UGAL_ 3 3 1 6 (fun _ _ => 0) (fun _ _ => []))
          (detourRoute 2 4 (-1)) "Local0").flit_route = detourRoute 2 4 (-1) ∧
        (returnOutport (dragonflyUnit .UGAL_ 3 3 1 6 (fun _ _ => 5) (fun _ _ => [9, 9, 9, 9]))
          (detourRoute 2 4 (-1)) "Local0").flit_route = detourRoute 2 4 (-1))) :=
  (later_hops_ignore_random_source_and_loads
    (dragonflyUnit .UGAL_ 3 3 1 6 (fun _ _ => 0) (fun _ _ => []))
    (dragonflyUnit .UGAL_ 3 3 1 6 (fun _ _ => 5) (fun _ _ => [9, 9, 9, 9]))
    [] [0, 1] (detourRoute 2 4 2) (detourRoute 2 4 2) 0 0 "Global0"
    (detourRoute 2 4 2) (detourRoute 2 4 2) rfl rfl rfl rfl rfl rfl rfl
    (by decide) (by decide)).1 _ _ rfl rfl

/-! ## Claims about the construction of the routing table -/

/-- Rows `m_routing_table.resize` adds are empty; rows already there are kept. -/
theorem resizeTable_getElem? {D : Type} (t : List (List D)) (n v : Nat) :
    (resizeTable t n)[v]? =
      if v < t.length then t[v]? else if v < n then some [] else none := by
  unfold resizeTable
  by_cases hv : v < t.length
  · rw [if_pos hv, List.getElem?_append_left hv]
  · rw [if_neg hv, List.getElem?_append_right (not_lt.1 hv), List.getElem?_replicate]
    by_cases hn : v < n
    · rw [if_pos (by omega), if_pos hn]
    · rw [if_neg (by omega), if_neg hn]

/-- A growing `m_routing_table.resize(n)` leaves `n` rows. -/
theorem resizeTable_length {D : Type} (t : List (List D)) (n : Nat) (h : n > t.length) :
    (resizeTable t n).length = n := by
  unfold resizeTable
  rw [List.length_append, List.length_replicate]
  omega

/-- The loop of `addRoute` keeps the number of rows. -/
theorem addRouteLoop_length {D : Type} (t : List (List D)) (e : List D)
    (h : e.length ≤ t.length) : (addRouteLoop t e).length = t.length := by
  induction t generalizing e with
  | nil =>
    cases e with
    | nil => rfl
    | cons x xs => simp at h
  | cons row rows ih =>
    cases e with
    | nil => rfl
    | cons x xs =>
      simp only [addRouteLoop, List.length_cons]
      rw [ih xs (by simpa using h)]

/-- The loop of `addRoute` appends `routing_table_entry[v]` to row `v` and leaves
the rows past the entry alone. -/
theorem addRouteLoop_getElem? {D : Type} (t : List (List D)) (e : List D) (v : Nat)
    (h : e.length ≤ t.length) :
    (addRouteLoop t e)[v]? =
      match e[v]? with
      | some x => t[v]?.map (fun row => row ++ [x])
      | none => t[v]? := by
  induction t generalizing e v with
  | nil =>
    cases e with
    | nil => rfl
    | cons x xs => simp at h
  | cons row rows ih =>
    cases e with
    | nil => rfl
    | cons x xs =>
      cases v with
      | zero => simp [addRouteLoop]
      | succ v =>
        simp only [addRouteLoop, List.getElem?_cons_succ]
        exact ih xs v (by simpa using h)

/-- One `addRoute` call, row by row. -/
theorem addRoute_getElem? {D : Type} (ru : RoutingUnit D) (e : List D) (v : Nat) :
    (addRoute ru e).m_routing_table[v]? =
      match e[v]? with
      | some x =>
        some ((if v < ru.m_routing_table.length then ru.m_routing_table[v]?.getD [] else [])
          ++ [x])
      | none => ru.m_routing_table[v]? := by
  unfold addRoute
  dsimp only
  by_cases hlen : e.length > ru.m_routing_table.length
  · rw [if_pos hlen, addRouteLoop_getElem? _ e v (by rw [resizeTable_length _ _ hlen]),
      resizeTable_getElem?]
    cases hx : e[v]? with
    | none =>
      have hv : e.length ≤ v := List.getElem?_eq_none_iff.1 hx
      dsimp only
      rw [if_neg (by omega), if_neg (by omega)]
      exact (List.getElem?_eq_none_iff.2 (by omega)).symm
    | some x =>
      have hv : v < e.length := (List.getElem?_eq_some_iff.1 hx).1
      dsimp only
      by_cases hvt : v < ru.m_routing_table.length
      · rw [if_pos hvt, if_pos hvt, List.getElem?_eq_getElem hvt]
        rfl
      · rw [if_neg hvt, if_neg hvt, if_pos hv]
        rfl
  · rw [if_neg hlen, addRouteLoop_getElem? _ e v (by omega)]
    cases hx : e[v]? with
    | none => rfl
    | some x =>
      have hv : v < e.length := (List.getElem?_eq_some_iff.1 hx).1
      dsimp only
      rw [if_pos (by omega), List.getElem?_eq_getElem (by omega)]
      rfl

/-- After any sequence of `addRoute` calls on a fresh routing unit, row `v` of the
table lists, in call order, the `v`-th destination set of every call that
carried one, and the table has a row for every position some call filled. -/
theorem addRoute_foldl_rows {D : Type} (router : Router) (calls : List (List D)) (v : Nat) :
    (calls.foldl addRoute (RoutingUnit.new D router)).m_routing_table[v]? =
      if ∃ e ∈ calls, v < e.length then some (calls.filterMap (fun e => e[v]?)) else none := by
  induction calls using List.reverseRecOn with
  | nil =>
    rw [if_neg (by simp)]
    rfl
  | append_singleton cs e ih =>
    rw [List.foldl_append, List.foldl_cons, List.foldl_nil, addRoute_getElem?,
      List.filterMap_append]
    cases hx : e[v]? with
    | some x =>
      have hv : v < e.length := (List.getElem?_eq_some_iff.1 hx).1
      have hex : ∃ e' ∈ cs ++ [e], v < e'.length := ⟨e, by simp, hv⟩
      rw [if_pos hex]
      dsimp only
      have hlast : List.filterMap (fun e => e[v]?) [e] = [x] := by
        simp [List.filterMap_cons, hx]
      rw [hlast]
      congr 2
      by_cases hcs : ∃ e' ∈ cs, v < e'.length
      · rw [if_pos hcs] at ih
        have hlt : v < (cs.foldl addRoute (RoutingUnit.new D router)).m_routing_table.length := by
          by_contra hge
          rw [List.getElem?_eq_none_iff.2 (not_lt.1 hge)] at ih
          cases ih
        rw [if_pos hlt, ih]
        rfl
      · rw [if_neg hcs] at ih
        have hge : ¬ v < (cs.foldl addRoute (RoutingUnit.new D router)).m_routing_table.length := by
          intro hlt
          rw [List.getElem?_eq_getElem hlt] at ih
          cases ih
        rw [if_neg hge]
        symm
        rw [List.filterMap_eq_nil_iff]
        intro e' he'
        apply List.getElem?_eq_none_iff.2
        by_contra hlt
        exact hcs ⟨e', he', not_le.1 hlt⟩
    | none =>
      have hv : e.length ≤ v := List.getElem?_eq_none_iff.1 hx
      dsimp only
      have hlast : List.filterMap (fun e => e[v]?) [e] = [] := by
        simp [List.filterMap_cons, hx]
      rw [hlast, List.append_nil, ih]
      by_cases hcs : ∃ e' ∈ cs, v < e'.length
      · obtain ⟨e', he', hlt⟩ := hcs
        rw [if_pos ⟨e', he', hlt⟩, if_pos ⟨e', by simp [he'], hlt⟩]
      · rw [if_neg hcs, if_neg]
        rintro ⟨e', he', hlt⟩
        rcases List.mem_append.1 he' with h1 | h1
        · exact hcs ⟨e', h1, hlt⟩
        · rw [List.mem_singleton.1 h1] at hlt
          omega

/-- Where every element yields a value, `filterMap` keeps length and positions. -/
theorem filterMap_all_some {A B : Type} (f : A → Option B) (cs : List A)
    (h : ∀ e ∈ cs, ∃ x, f e = some x) :
    (cs.filterMap f).length = cs.length ∧
      ∀ i : Nat, (cs.filterMap f)[i]? = cs[i]?.bind f := by
  induction cs with
  | nil => exact ⟨rfl, fun i => rfl⟩
  | cons c cs ih =>
    obtain ⟨x, hx⟩ := h c (List.mem_cons_self _ _)
    obtain ⟨ih1, ih2⟩ := ih (fun e he => h e (List.mem_cons_of_mem _ he))
    rw [List.filterMap_cons_some hx]
    constructor
    · rw [List.length_cons, List.length_cons, ih1]
    · intro i
      cases i with
      | zero => simp [hx]
      | succ i => simpa using ih2 i

/-- C23: after any sequence of `addRoute` calls on a fresh routing unit, each call
carrying `V` destination sets (one per virtual network), every row of the
routing table has as many entries as calls were made, the table has `V` rows as
soon as one call was made, and entry `i` of virtual network `v` is the `v`-th
destination set passed in the `i`-th call. -/
theorem addRoute_rows_hold_one_entry_per_call {D : Type} (router : Router)
    (calls : List (List D)) (V : Nat) (hV : ∀ e ∈ calls, e.length = V) :
    (∀ row ∈ (calls.foldl addRoute (RoutingUnit.new D router)).m_routing_table,
      row.length = calls.length) ∧
    (calls ≠ [] →
      (calls.foldl addRoute (RoutingUnit.new D router)).m_routing_table.length = V) ∧
    (∀ (i v : Nat) (e : List D) (x : D), calls[i]? = some e → e[v]? = some x →
      ∃ row, (calls.foldl addRoute (RoutingUnit.new D router)).m_routing_table[v]? = some row ∧
        row[i]? = some x) := by
  have hall : ∀ v : Nat, v < V → ∀ e ∈ calls, ∃ x, e[v]? = some x := by
    intro v hv e he
    have hlen := hV e he
    exact ⟨e[v], List.getElem?_eq_getElem (by omega)⟩
  refine ⟨?_, ?_, ?_⟩
  · intro row hrow
    obtain ⟨v, hv⟩ := List.mem_iff_getElem?.1 hrow
    rw [addRoute_foldl_rows] at hv
    by_cases hex : ∃ e ∈ calls, v < e.length
    · rw [if_pos hex] at hv
      obtain ⟨e, he, hlt⟩ := hex
      rw [hV e he] at hlt
      cases hv
      exact (filterMap_all_some _ calls (hall v hlt)).1
    · rw [if_neg hex] at hv
      cases hv
  · intro hne
    obtain ⟨e0, he0⟩ := List.exists_mem_of_ne_nil calls hne
    have hnone := addRoute_foldl_rows router calls V
    rw [if_neg] at hnone
    · have hle := List.getElem?_eq_none_iff.1 hnone
      by_contra hneq
      have hlt : (calls.foldl addRoute (RoutingUnit.new D router)).m_routing_table.length < V := by
        omega
      have hsome := addRoute_foldl_rows router calls
        (calls.foldl addRoute (RoutingUnit.new D router)).m_routing_table.length
      rw [if_pos ⟨e0, he0, by rw [hV e0 he0]; exact hlt⟩,
        List.getElem?_eq_none_iff.2 (le_refl _)] at hsome
      cases hsome
    · rintro ⟨e, he, hlt⟩
      rw [hV e he] at hlt
      omega
  · intro i v e x hi hx
    have he : e ∈ calls := List.getElem?_mem hi
    have hv : v < V := by
      rw [← hV e he]
      exact (List.getElem?_eq_some_iff.1 hx).1
    refine ⟨calls.filterMap (fun e => e[v]?), ?_, ?_⟩
    · rw [addRoute_foldl_rows, if_pos ⟨e, he, by rw [hV e he]; exact hv⟩]
    · rw [(filterMap_all_some _ calls (hall v hv)).2 i, hi]
      exact hx

/-- Witness for C23: two output links and two virtual networks; the table holds
the rows [[1], [3]] and [[2], [4]]. -/
theorem addRoute_rows_hold_one_entry_per_call_witness :
    (∀ row ∈ ([[[1], [2]], [[3], [4]]].foldl addRoute
        (RoutingUnit.new (List Nat) (demoRouter .TABLE_ 0))).m_routing_table,
      row.length = [[[1], [2]], [[3], [4]]].length) ∧
    (([[[1], [2]], [[3], [4]]] : List (List (List Nat))) ≠ [] →
      ([[[1], [2]], [[3], [4]]].foldl addRoute
        (RoutingUnit.new (List Nat) (demoRouter .TABLE_ 0))).m_routing_table.length = 2) ∧
    (∀ (i v : Nat) (e : List (List Nat)) (x : List Nat),
      [[[1], [2]], [[3], [4]]][i]? = some e → e[v]? = some x →
      ∃ row, ([[[1], [2]], [[3], [4]]].foldl addRoute
          (RoutingUnit.new (List Nat) (demoRouter .TABLE_ 0))).m_routing_table[v]? = some row ∧
        row[i]? = some x) ∧
    ([[[1], [2]], [[3], [4]]].foldl addRoute
        (RoutingUnit.new (List Nat) (demoRouter .TABLE_ 0))).m_routing_table =
      [[[1], [3]], [[2], [4]]] :=
  have h := addRoute_rows_hold_one_entry_per_call (demoRouter .TABLE_ 0)
    [[[1], [2]], [[3], [4]]] 2 (by decide)
  ⟨h.1, h.2.1, h.2.2, by decide⟩

/-! ## What a routing call leaves behind -/

/-- The final map read leaves the routing unit as it was when the label is
registered, and otherwise adds the label with index 0 to `m_outports_dirn2idx`,
returns 0 and changes nothing else. -/
theorem returnOutport_unit {D : Type} (ru : RoutingUnit D) (t_flit : RouteInfo D)
    (outport_dirn : PortDirection) :
    (mapFind ru.m_outports_dirn2idx outport_dirn ≠ none →
      (returnOutport ru t_flit outport_dirn).unit = ru) ∧
    (mapFind ru.m_outports_dirn2idx outport_dirn = none →
      (returnOutport ru t_flit outport_dirn).outport = 0 ∧
      (returnOutport ru t_flit outport_dirn).unit =
        { ru with m_outports_dirn2idx := mapAssign ru.m_outports_dirn2idx outport_dirn 0 }) := by
  unfold returnOutport mapIndex
  cases h : mapFind ru.m_outports_dirn2idx outport_dirn with
  | none => exact ⟨fun hne => absurd rfl hne, fun _ => ⟨rfl, rfl⟩⟩
  | some v => exact ⟨fun _ => rfl, fun hn => by cases hn⟩

/-- A returning table lookup made for `outportCompute` leaves the routing unit and
the flit as they were. -/
theorem tableOutport_unit {D : Type} [NetDest D] (INFINITE_ : Int) (ru : RoutingUnit D)
    (rand : Nat) (route t_flit : RouteInfo D) (r : Routed D)
    (h : tableOutport INFINITE_ ru rand route t_flit = .ok r) :
    r.unit = ru ∧ r.flit_route = t_flit ∧
      lookupRoutingTable INFINITE_ ru rand route.vnet route.net_dest = .ok r.outport := by
  unfold tableOutport at h
  cases hl : lookupRoutingTable INFINITE_ ru rand route.vnet route.net_dest with
  | error a => rw [hl] at h; cases h
  | ok L =>
    rw [hl] at h
    cases h
    exact ⟨rfl, rfl, rfl⟩

/-- A returning `outportCompute` is a returning table lookup or a returning
topology algorithm, whose last statement is the map read. -/
theorem outportCompute_inv {D : Type} [NetDest D] (INFINITE_ : Int) (ru : RoutingUnit D)
    (rand : Nat) (random_mt : List Nat) (route : RouteInfo D) (inport : Int)
    (inport_dirn : PortDirection) (t_flit : RouteInfo D) (r : Routed D)
    (h : outportCompute INFINITE_ ru rand random_mt route inport inport_dirn t_flit = .ok r) :
    tableOutport INFINITE_ ru rand route t_flit = .ok r ∨
      ∃ d fr, r = returnOutport ru fr d := by
  unfold outportCompute at h
  by_cases hdest : route.dest_router = ru.m_router.get_id
  · rw [if_pos hdest] at h
    exact Or.inl h
  · rw [if_neg hdest] at h
    dsimp only at h
    cases halg : ru.m_router.get_net_ptr.getRoutingAlgorithm with
    | TABLE_ =>
      rw [halg] at h
      dsimp only at h
      cases hx : tableOutport INFINITE_ ru rand route t_flit with
      | error a => rw [hx] at h; cases h
      | ok r0 =>
        rw [hx] at h
        dsimp only at h
        split_ifs at h
        cases h
        exact Or.inl rfl
    | OTHER_ code =>
      rw [halg] at h
      dsimp only at h
      cases hx : tableOutport INFINITE_ ru rand route t_flit with
      | error a => rw [hx] at h; cases h
      | ok r0 =>
        rw [hx] at h
        dsimp only at h
        split_ifs at h
        cases h
        exact Or.inl rfl
    | XY_ =>
      rw [halg] at h
      dsimp only at h
      cases hx : outportComputeXY ru route inport inport_dirn t_flit with
      | error a => rw [hx] at h; cases h
      | ok r0 =>
        rw [hx] at h
        dsimp only at h
        split_ifs at h
        cases h
        unfold outportComputeXY at hx
        cases hd : outportDirnXY ru route inport_dirn with
        | error a => rw [hd] at hx; cases hx
        | ok d =>
          rw [hd] at hx
          cases hx
          exact Or.inr ⟨d, t_flit, rfl⟩
    | CUSTOM_ =>
      rw [halg] at h
      dsimp only at h
      cases hx : outportComputeCustom ru route inport inport_dirn t_flit with
      | error a => rw [hx] at h; cases h
      | ok r0 =>
        rw [hx] at h
        dsimp only at h
        split_ifs at h
        cases h
        unfold outportComputeCustom at hx
        cases hd : outportDirnCustom ru route inport_dirn with
        | error a => rw [hd] at hx; cases hx
        | ok d =>
          rw [hd] at hx
          cases hx
          exact Or.inr ⟨d, t_flit, rfl⟩
    | DRAGONFLY_MINIMAL_ =>
      rw [halg] at h
      dsimp only at h
      cases hx : outportComputeDragonflyMinimal ru route inport inport_dirn t_flit with
      | error a => rw [hx] at h; cases h
      | ok r0 =>
        rw [hx] at h
        dsimp only at h
        split_ifs at h
        cases h
        exact Or.inr ⟨_, t_flit,
          (outportComputeDragonflyMinimal_ok ru route inport inport_dirn t_flit _ hx).2⟩
    | UGAL_ =>
      rw [halg] at h
      dsimp only at h
      cases hx : outportComputeUGAL ru random_mt route inport inport_dirn t_flit with
      | error a => rw [hx] at h; cases h
      | ok r0 =>
        rw [hx] at h
        dsimp only at h
        split_ifs at h
        cases h
        obtain ⟨d, fr, _, hrd⟩ := outportComputeUGAL_inv ru random_mt route inport inport_dirn
          t_flit _ hx
        exact Or.inr ⟨d, fr, hrd⟩
    | VAL_ =>
      rw [halg] at h
      dsimp only at h
      cases hx : outportComputeDragonflyVAL ru random_mt route inport inport_dirn t_flit with
      | error a => rw [hx] at h; cases h
      | ok r0 =>
        rw [hx] at h
        dsimp only at h
        split_ifs at h
        cases h
        obtain ⟨d, fr, _, hrd⟩ := outportComputeDragonflyVAL_inv ru random_mt route inport
          inport_dirn t_flit _ hx
        exact Or.inr ⟨d, fr, hrd⟩

/-- C22 (as stated, refuted): router 0 of a dragonfly with 4 routers per group has
registered "Local0", "Local1" and "Global0".  Minimal routing towards router 3
computes the label "Local2", which was never registered; `outportCompute`
returns 0 and leaves `m_outports_dirn2idx` with the new key "Local2". -/
theorem outportCompute_adds_unregistered_label :
    (dragonflyUnit .DRAGONFLY_MINIMAL_ 4 4 1 0 (fun _ _ => 0)
        (fun _ _ => [])).m_outports_dirn2idx =
      [("Local0", 1), ("Local1", 2), ("Global0", 3)] ∧
    (outportCompute 10000
        (dragonflyUnit .DRAGONFLY_MINIMAL_ 4 4 1 0 (fun _ _ => 0) (fun _ _ => []))
        0 [] (detourRoute 0 3 (-1)) 0 "Local" (detourRoute 0 3 (-1))).map
        (fun r => (r.outport, r.unit.m_outports_dirn2idx)) =
      .ok (0, [("Local0", 1), ("Local1", 2), ("Global0", 3), ("Local2", 0)]) := by
  decide

/-- C22 (amended): every returning `outportCompute`, under any configured
algorithm, leaves the routing table, the weight table, the two inbound port maps
and the map from outbound index to label as they were.  The map from outbound
label to index is left as it was as well, unless the call returns 0 for a label
that was never registered: then that label has been added with index 0 and
nothing else has changed.  A table lookup changes nothing. -/
theorem outportCompute_changes_at_most_one_outport_label {D : Type} [NetDest D]
    (INFINITE_ : Int) (ru : RoutingUnit D) (rand : Nat) (random_mt : List Nat)
    (route : RouteInfo D) (inport : Int) (inport_dirn : PortDirection) (t_flit : RouteInfo D)
    (r : Routed D)
    (h : outportCompute INFINITE_ ru rand random_mt route inport inport_dirn t_flit = .ok r) :
    r.unit.m_routing_table = ru.m_routing_table ∧
    r.unit.m_weight_table = ru.m_weight_table ∧
    r.unit.m_inports_dirn2idx = ru.m_inports_dirn2idx ∧
    r.unit.m_inports_idx2dirn = ru.m_inports_idx2dirn ∧
    r.unit.m_outports_idx2dirn = ru.m_outports_idx2dirn ∧
    (r.unit = ru ∨
      ∃ d, mapFind ru.m_outports_dirn2idx d = none ∧ r.outport = 0 ∧
        r.unit = { ru with m_outports_dirn2idx := mapAssign ru.m_outports_dirn2idx d 0 }) ∧
    (∀ r0 : Routed D, tableOutport INFINITE_ ru rand route t_flit = .ok r0 → r0.unit = ru) := by
  have hframe : r.unit = ru ∨
      ∃ d, mapFind ru.m_outports_dirn2idx d = none ∧ r.outport = 0 ∧
        r.unit = { ru with m_outports_dirn2idx := mapAssign ru.m_outports_dirn2idx d 0 } := by
    rcases outportCompute_inv INFINITE_ ru rand random_mt route inport inport_dirn t_flit r h
      with ht | ⟨d, fr, hr⟩
    · exact Or.inl (tableOutport_unit INFINITE_ ru rand route t_flit r ht).1
    · obtain ⟨h1, h2⟩ := returnOutport_unit ru fr d
      by_cases hreg : mapFind ru.m_outports_dirn2idx d = none
      · right
        rw [hr]
        exact ⟨d, hreg, (h2 hreg).1, (h2 hreg).2⟩
      · left
        rw [hr]
        exact h1 hreg
  refine ⟨?_, ?_, ?_, ?_, ?_, hframe, ?_⟩
  · rcases hframe with hu | ⟨d, _, _, hu⟩ <;> rw [hu]
  · rcases hframe with hu | ⟨d, _, _, hu⟩ <;> rw [hu]
  · rcases hframe with hu | ⟨d, _, _, hu⟩ <;> rw [hu]
  · rcases hframe with hu | ⟨d, _, _, hu⟩ <;> rw [hu]
  · rcases hframe with hu | ⟨d, _, _, hu⟩ <;> rw [hu]
  · intro r0 hr0
    exact (tableOutport_unit INFINITE_ ru rand route t_flit r0 hr0).1

/-- Witness for C22: router 1 of the mesh forwards a flit for router 4 by XY
routing through the registered port "North". -/
theorem outportCompute_changes_at_most_one_outport_label_witness :
    (returnOutport (demoMeshUnit .XY_ 1) (demoRoute 0 [1] 0 4) "North").unit.m_routing_table =
      (demoMeshUnit .XY_ 1).m_routing_table ∧
    ((returnOutport (demoMeshUnit .XY_ 1) (demoRoute 0 [1] 0 4) "North").unit =
        demoMeshUnit .XY_ 1 ∨
      ∃ d, mapFind (demoMeshUnit .XY_ 1).m_outports_dirn2idx d = none ∧
        (returnOutport (demoMeshUnit .XY_ 1) (demoRoute 0 [1] 0 4) "North").outport = 0 ∧
        (returnOutport (demoMeshUnit .XY_ 1) (demoRoute 0 [1] 0 4) "North").unit =
          { demoMeshUnit .XY_ 1 with
            m_outports_dirn2idx :=
              mapAssign (demoMeshUnit .XY_ 1).m_outports_dirn2idx d 0 }) :=
  have h := outportCompute_changes_at_most_one_outport_label 10000 (demoMeshUnit .XY_ 1) 0 []
    (demoRoute 0 [1] 0 4) 0 "West" (demoRoute 0 [1] 0 4)
    (returnOutport (demoMeshUnit .XY_ 1) (demoRoute 0 [1] 0 4) "North") rfl
  ⟨h.1, h.2.2.2.2.2.1⟩

/-! ## UGAL without a detour against minimal routing -/

/-- C21: let `outportComputeUGAL` and `outportComputeDragonflyMinimal` both return
for the same router, route, inbound direction and flit, and let
`outportComputeUGAL` use no detour: it discards its candidate at the source
router (the test of the code fails), or it skips the source block (the router
is not the source, or there are at most two groups, or the destination is in
the current group) on a route that carries no intermediate group.  Then the two
calls return the same port, and `outportComputeUGAL` leaves the routing unit and
the flit's route as `outportComputeDragonflyMinimal` does, the flit's route
being the one it came with.  A call that skips the source block never stores an
intermediate group other than -1: it leaves the flit's route as it was or
clears the field, so with at most two groups no route ever carries one. -/
theorem outportComputeUGAL_without_detour_is_minimal {D : Type} (ru : RoutingUnit D)
    (random_mt : List Nat) (route : RouteInfo D) (inport : Int) (inport_dirn : PortDirection)
    (t_flit : RouteInfo D) (r r' : Routed D)
    (hU : outportComputeUGAL ru random_mt route inport inport_dirn t_flit = .ok r)
    (hM : outportComputeDragonflyMinimal ru route inport inport_dirn t_flit = .ok r') :
    (ru.m_router.get_net_ptr.getNumGroups > 2 ∧
        ru.m_router.get_id.tdiv ru.m_router.get_net_ptr.getRoutersPerGroup ≠
          route.dest_router.tdiv ru.m_router.get_net_ptr.getRoutersPerGroup ∧
        ru.m_router.get_id = route.src_router →
      ru.m_router.get_net_ptr.getGlobalChannelsPerRouter ≠ 0 →
      ∀ (g : Int) (m3 v0 : Nat),
        pickGroupMid
          (ru.m_router.get_id.tdiv ru.m_router.get_net_ptr.getRoutersPerGroup)
          (route.dest_router.tdiv ru.m_router.get_net_ptr.getRoutersPerGroup) random_mt =
            .ok g →
        (ugalSamples ru
          (ru.m_router.get_id.tdiv ru.m_router.get_net_ptr.getRoutersPerGroup)
          (route.dest_router.tdiv ru.m_router.get_net_ptr.getRoutersPerGroup) g).1[3]? =
            some m3 →
        (ugalSamples ru
          (ru.m_router.get_id.tdiv ru.m_router.get_net_ptr.getRoutersPerGroup)
          (route.dest_router.tdiv ru.m_router.get_net_ptr.getRoutersPerGroup) g).2[0]? =
            some v0 →
        ¬ ugalCommits
          (toInt (accumulate (ugalSamples ru
            (ru.m_router.get_id.tdiv ru.m_router.get_net_ptr.getRoutersPerGroup)
            (route.dest_router.tdiv ru.m_router.get_net_ptr.getRoutersPerGroup) g).1))
          (toInt (accumulate (ugalSamples ru
            (ru.m_router.get_id.tdiv ru.m_router.get_net_ptr.getRoutersPerGroup)
            (route.dest_router.tdiv ru.m_router.get_net_ptr.getRoutersPerGroup) g).2))
          (toInt m3) (toInt v0)
          (ugalSampledPorts ru.m_router.get_net_ptr.getNumGroups
            ru.m_router.get_net_ptr.getRoutersPerGroup
            ru.m_router.get_net_ptr.getGlobalChannelsPerRouter ru.m_router.get_id
            (ru.m_router.get_id.tdiv ru.m_router.get_net_ptr.getRoutersPerGroup)
            (route.dest_router.tdiv ru.m_router.get_net_ptr.getRoutersPerGroup) g).1.1
          (ugalSampledPorts ru.m_router.get_net_ptr.getNumGroups
            ru.m_router.get_net_ptr.getRoutersPerGroup
            ru.m_router.get_net_ptr.getGlobalChannelsPerRouter ru.m_router.get_id
            (ru.m_router.get_id.tdiv ru.m_router.get_net_ptr.getRoutersPerGroup)
            (route.dest_router.tdiv ru.m_router.get_net_ptr.getRoutersPerGroup) g).2.1 →
        r.outport = r'.outport ∧ r = r' ∧ r.flit_route = t_flit) ∧
    (ru.m_router.get_id ≠ route.src_router ∨
        ru.m_router.get_net_ptr.getNumGroups ≤ 2 ∨
        ru.m_router.get_id.tdiv ru.m_router.get_net_ptr.getRoutersPerGroup =
          route.dest_router.tdiv ru.m_router.get_net_ptr.getRoutersPerGroup →
      (route.intermediate_group = -1 →
        r.outport = r'.outport ∧ r = r' ∧ r.flit_route = t_flit) ∧
      (r.flit_route = t_flit ∨ r.flit_route = { route with intermediate_group := -1 })) := by
  obtain ⟨hne, hmin⟩ := outportComputeDragonflyMinimal_ok ru route inport inport_dirn t_flit
    r' hM
  obtain ⟨d, fr, hd, hrd⟩ := outportComputeUGAL_inv ru random_mt route inport inport_dirn
    t_flit r hU
  obtain ⟨d', hd', _⟩ : ∃ d', outportDirnDragonflyMinimal ru route inport_dirn = .ok d' ∧
      True := by
    unfold outportComputeDragonflyMinimal at hM
    cases hx : outportDirnDragonflyMinimal ru route inport_dirn with
    | error a => rw [hx] at hM; cases hM
    | ok d' => exact ⟨d', rfl, trivial⟩
  obtain ⟨hnum, _, hR, _⟩ := outportDirnDragonflyMinimal_ok ru route inport_dirn d' hd'
  constructor
  · intro hsrc hC g m3 v0 hpick hm3 hv0 hcond
    have hblock := (ugalSourceBlock_ok ru random_mt _ _
      { group_mid := route.intermediate_group, route := route, t_flit := t_flit } g m3 v0
      hpick hC hm3 hv0).2 hcond
    rw [outportDirnUGAL_source ru random_mt route inport_dirn t_flit hnum hne hR hsrc,
      hblock] at hd
    obtain ⟨hfr, hlabel⟩ := (detourTail_no_detour ru inport_dirn
      (route.dest_router.tdiv ru.m_router.get_net_ptr.getRoutersPerGroup) route t_flit).1
      d fr hd
    have hrr : r = r' := by rw [hrd, hmin, hfr, hlabel]
    exact ⟨by rw [hrr], hrr, by rw [hrd, hfr]; rfl⟩
  · intro hskip
    have hsrc : ¬ (ru.m_router.get_net_ptr.getNumGroups > 2 ∧
        ru.m_router.get_id.tdiv ru.m_router.get_net_ptr.getRoutersPerGroup ≠
          route.dest_router.tdiv ru.m_router.get_net_ptr.getRoutersPerGroup ∧
        ru.m_router.get_id = route.src_router) := by
      rintro ⟨h1, h2, h3⟩
      rcases hskip with h | h | h
      · exact h h3
      · omega
      · exact h2 h
    have htail := outportDirnUGAL_not_source_ok ru random_mt route inport_dirn t_flit _ hsrc hd
    constructor
    · intro hig
      rw [hig] at htail
      obtain ⟨hfr, hlabel⟩ := (detourTail_no_detour ru inport_dirn
        (route.dest_router.tdiv ru.m_router.get_net_ptr.getRoutersPerGroup) route t_flit).1
        d fr htail
      have hrr : r = r' := by rw [hrd, hmin, hfr, hlabel]
      exact ⟨by rw [hrr], hrr, by rw [hrd, hfr]; rfl⟩
    · obtain ⟨h1, h2⟩ := detourTail_ok ru inport_dirn d _ _ fr htail
      rw [hrd]
      by_cases hc : route.intermediate_group ≠ -1 ∧
          ru.m_router.get_id.tdiv ru.m_router.get_net_ptr.getRoutersPerGroup =
            route.intermediate_group
      · exact Or.inr (h1 hc).1
      · exact Or.inl (h2 hc).1

/-- Witness for C21: router 1 of a 3 x 3 x 1 dragonfly, not the source, forwards a
packet for router 4 that carries no intermediate group. -/
theorem outportComputeUGAL_without_detour_is_minimal_witness :
    (returnOutport (dragonflyUnit .UGAL_ 3 3 1 1 (fun _ _ => 0) (fun _ _ => []))
        (detourRoute 0 4 (-1)) "Local1").outport =
      (returnOutport (dragonflyUnit .UGAL_ 3 3 1 1 (fun _ _ => 0) (fun _ _ => []))
        (detourRoute 0 4 (-1)) "Local1").outport ∧
    outportComputeUGAL (dragonflyUnit .UGAL_ 3 3 1 1 (fun _ _ => 0) (fun _ _ => [])) []
        (detourRoute 0 4 (-1)) 0 "Local" (detourRoute 0 4 (-1)) =
      outportComputeDragonflyMinimal
        (dragonflyUnit .UGAL_ 3 3 1 1 (fun _ _ => 0) (fun _ _ => []))
        (detourRoute 0 4 (-1)) 0 "Local" (detourRoute 0 4 (-1)) :=
  ⟨(((outportComputeUGAL_without_detour_is_minimal
      (dragonflyUnit .UGAL_ 3 3 1 1 (fun _ _ => 0) (fun _ _ => [])) []
      (detourRoute 0 4 (-1)) 0 "Local" (detourRoute 0 4 (-1))
      (returnOutport (dragonflyUnit .UGAL_ 3 3 1 1 (fun _ _ => 0) (fun _ _ => []))
        (detourRoute 0 4 (-1)) "Local1")
      (returnOutport (dragonflyUnit .UGAL_ 3 3 1 1 (fun _ _ => 0) (fun _ _ => []))
        (detourRoute 0 4 (-1)) "Local1") rfl rfl).2 (Or.inl (by decide))).1 rfl).1, rfl⟩

/-! ## Claims about the wiring of the global channels -/

/-- The label minimal dragonfly routing computes for a remote group, in terms of
`exitChannel`. -/
theorem minimalDirn_exitChannel (G R C my gd dest : Int) (hne : my.tdiv R ≠ gd) :
    minimalDirn G R C my gd dest =
      if my ≠ my.tdiv R * R + (exitChannel G C (my.tdiv R) gd).1 then
        "Local" ++ toString
          (if my.tdiv R * R + (exitChannel G C (my.tdiv R) gd).1 - my > 0 then
            my.tdiv R * R + (exitChannel G C (my.tdiv R) gd).1 - my - 1
           else my.tdiv R * R + (exitChannel G C (my.tdiv R) gd).1 - my - 1 + R)
      else "Global" ++ toString (exitChannel G C (my.tdiv R) gd).2 := by
  unfold minimalDirn exitChannel
  dsimp only
  rw [if_pos hne]

/-- The pair of `exitChannel` is the quotient and the remainder of the gap. -/
theorem exitChannel_eq (G C gc gd : Int) (hC : 0 < C) (hgc : 0 ≤ gc) (hgcG : gc < G)
    (hgd : 0 ≤ gd) (hgdG : gd < G) (hne : gd ≠ gc) :
    exitChannel G C gc gd = ((gd - gc - 1) % G / C, (gd - gc - 1) % G % C) := by
  obtain ⟨hgap, hgap0, _⟩ := group_gap_eq G gc gd hgc hgcG hgd hgdG (Ne.symm hne)
  unfold exitChannel
  dsimp only
  rw [hgap, Int.tdiv_eq_ediv hgap0 hC.le, Int.emod_def ((gd - gc - 1) % G) C, mul_comm]

/-- Two groups in `[0, G)` with the same `group_gap` from `gc` are the same group. -/
theorem gap_injective (G gc gd gd' : Int) (hgd : 0 ≤ gd) (hgdG : gd < G)
    (hgd' : 0 ≤ gd') (hgdG' : gd' < G)
    (h : (if gd - gc > 0 then gd - gc - 1 else gd - gc - 1 + G) =
      (if gd' - gc > 0 then gd' - gc - 1 else gd' - gc - 1 + G)) : gd = gd' := by
  split_ifs at h <;> omega

/-- C24: for a dragonfly of G groups, R routers per group and C > 0 global
channels per router and a current group `gc` in `[0, G)`, the pair
`(router_in_group_cur, global channel index)` the routers compute for a remote
group is `(gap / C, gap mod C)` with `gap = (group_dst - gc - 1) mod G`; the map
from the remote groups to this pair is injective; `gap` is
`exit_index * C + channel_index` with `0 <= channel_index < C` and
`0 <= exit_index`; and when `G <= R * C + 1` the exit index is below R.  At the
exit router `outportComputeDragonflyMinimal`, entered on "Local", computes the
label "Global" followed by that channel index. -/
theorem exitChannel_injective_on_remote_groups (G R C gc gd gd' : Int)
    (hC : 0 < C) (hgc : 0 ≤ gc) (hgcG : gc < G)
    (hgd : 0 ≤ gd ∧ gd < G ∧ gd ≠ gc) (hgd' : 0 ≤ gd' ∧ gd' < G ∧ gd' ≠ gc) :
    (exitChannel G C gc gd = exitChannel G C gc gd' → gd = gd') ∧
    exitChannel G C gc gd = ((gd - gc - 1) % G / C, (gd - gc - 1) % G % C) ∧
    (gd - gc - 1) % G = (exitChannel G C gc gd).1 * C + (exitChannel G C gc gd).2 ∧
    0 ≤ (exitChannel G C gc gd).2 ∧ (exitChannel G C gc gd).2 < C ∧
    0 ≤ (exitChannel G C gc gd).1 ∧
    (G ≤ R * C + 1 → (exitChannel G C gc gd).1 < R) ∧
    (∀ (D : Type) (ru : RoutingUnit D) (route : RouteInfo D),
      ru.m_router.get_net_ptr.getNumRouters > 0 →
      ru.m_router.get_net_ptr.getNumGroups = G →
      ru.m_router.get_net_ptr.getRoutersPerGroup = R →
      ru.m_router.get_net_ptr.getGlobalChannelsPerRouter = C →
      R ≠ 0 →
      ru.m_router.get_id.tdiv R = gc →
      route.dest_router.tdiv R = gd →
      ru.m_router.get_id = gc * R + (exitChannel G C gc gd).1 →
      outportDirnDragonflyMinimal ru route "Local" =
        .ok ("Global" ++ toString (exitChannel G C gc gd).2)) := by
  obtain ⟨hgd0, hgdG, hne⟩ := hgd
  obtain ⟨hgd0', hgdG', hne'⟩ := hgd'
  obtain ⟨hgap, hgap0, hgapG⟩ := group_gap_eq G gc gd hgc hgcG hgd0 hgdG (Ne.symm hne)
  have heq := exitChannel_eq G C gc gd hC hgc hgcG hgd0 hgdG hne
  have heq' := exitChannel_eq G C gc gd' hC hgc hgcG hgd0' hgdG' hne'
  have hdm := Int.ediv_add_emod ((gd - gc - 1) % G) C
  have hdm' := Int.ediv_add_emod ((gd' - gc - 1) % G) C
  refine ⟨?_, heq, ?_, ?_, ?_, ?_, ?_, ?_⟩
  · intro h
    rw [heq, heq'] at h
    have h1 : (gd - gc - 1) % G / C = (gd' - gc - 1) % G / C := congrArg Prod.fst h
    have h2 : (gd - gc - 1) % G % C = (gd' - gc - 1) % G % C := congrArg Prod.snd h
    have h3 : (gd - gc - 1) % G = (gd' - gc - 1) % G := by
      rw [← hdm, ← hdm', h1, h2]
    obtain ⟨hgap', _, _⟩ := group_gap_eq G gc gd' hgc hgcG hgd0' hgdG' (Ne.symm hne')
    exact gap_injective G gc gd gd' hgd0 hgdG hgd0' hgdG' (by rw [hgap, hgap', h3])
  · rw [heq]
    show (gd - gc - 1) % G = (gd - gc - 1) % G / C * C + (gd - gc - 1) % G % C
    rw [mul_comm]
    exact hdm.symm
  · rw [heq]
    exact Int.emod_nonneg _ hC.ne'
  · rw [heq]
    exact Int.emod_lt_of_pos _ hC
  · rw [heq]
    exact Int.ediv_nonneg hgap0 hC.le
  · intro hwf
    rw [heq]
    exact Int.ediv_lt_of_lt_mul hC (by omega)
  · intro D ru route hnum hG hR hCeq hR0 hcur hdst hexit
    have hneid : ru.m_router.get_id ≠ route.dest_router := by
      intro h
      apply hne
      rw [← hdst, ← hcur, h]
    have hRne : ru.m_router.get_net_ptr.getRoutersPerGroup ≠ 0 := by rw [hR]; exact hR0
    have hCne : ru.m_router.get_net_ptr.getGlobalChannelsPerRouter ≠ 0 := by
      rw [hCeq]; exact hC.ne'
    have hcross : ru.m_router.get_id.tdiv R ≠ gd := by rw [hcur]; exact Ne.symm hne
    rw [outportDirnDragonflyMinimal_local ru route hnum hneid hRne hCne, hG, hR, hCeq, hdst,
      minimalDirn_exitChannel G R C _ gd _ hcross, hcur, if_neg (not_not.2 hexit)]



/-- Witness for C24: 3 groups, 2 routers per group, 1 global channel per router,
seen from group 0: groups 1 and 2 get the pairs (0, 0) and (1, 0). -/
theorem exitChannel_injective_on_remote_groups_witness :
    (exitChannel 3 1 0 1 = exitChannel 3 1 0 2 → (1 : Int) = 2) ∧
    exitChannel 3 1 0 1 = ((1 - 0 - 1) % 3 / 1, (1 - 0 - 1) % 3 % 1) ∧
    (1 - 0 - 1) % 3 = (exitChannel 3 1 0 1).1 * 1 + (exitChannel 3 1 0 1).2 ∧
    0 ≤ (exitChannel 3 1 0 1).2 ∧ (exitChannel 3 1 0 1).2 < 1 ∧
    0 ≤ (exitChannel 3 1 0 1).1 ∧
    ((3 : Int) ≤ 2 * 1 + 1 → (exitChannel 3 1 0 1).1 < 2) :=
  have h := exitChannel_injective_on_remote_groups 3 2 1 0 1 2 (by decide) (by decide)
    (by decide) (by decide) (by decide)
  ⟨h.1, h.2.1, h.2.2.1, h.2.2.2.1, h.2.2.2.2.1, h.2.2.2.2.2.1, h.2.2.2.2.2.2.1⟩

end Garnet
